import Mathlib

/-!
# neka_pay — formal model of the money-movement core

Shallow embedding of the ledger store, the internal transfer / top-up
transactions (`db/sqlc`, file `part_001`: `SQLStore.TransferTx`, `addMoney`,
`SQLStore.TopUpTx`), and the API-level flows (`api/transfer.go`,
`api/account.go`, `api/server.go`: `CreateTransfer`, `senderHasBalance`,
`validateUserAccountBalance`, `topUpAccount`, `CreateExternalTransfer`).

Amounts and balances are `Int` (Go `int64`; no value in the claims comes
near the 64-bit boundary, and the store's bigint arithmetic is exact).
Store-layer failures (connection faults, `sql.ErrNoRows`, …) are modelled
by a fault oracle `Nat → Bool` consulted at each store call, indexed by the
position of the call in the request; a fault makes that one statement fail
while leaving the surrounding transaction, if any, committable — matching
statement-level errors such as `sql.ErrNoRows` that the Go code observes.
-/

/-! ## Data model (db/sqlc models; migration files) -/

structure Account where
  id : Int
  owner : String
  balance : Int
  currency : String
deriving Repr, DecidableEq

structure Entry where
  id : Int
  accountID : Int
  amount : Int
deriving Repr, DecidableEq

structure Transfer where
  id : Int
  fromAccountID : Int
  toAccountID : Int
  amount : Int
deriving Repr, DecidableEq

/-- `external_transfers` row (migration `part_014`): `status` defaults to
`"pending"`, `transaction_fees` defaults to `0`, the other optional columns
default to NULL. -/
structure ExternalTransfer where
  id : Int
  fromAccountID : Int
  toBankCode : String
  toAccountNumber : String
  recipientName : String
  amount : Int
  currency : String
  status : String
  reference : String
  description : Option String
  transactionID : Option String
  transactionFees : Option Int
  errorMessage : Option String
deriving Repr, DecidableEq

/-- Observable event trace of balance mutations, used to state the
mutation-order rule. -/
inductive Ev where
  | balanceAdj (accountID : Int) (delta : Int)
deriving Repr, DecidableEq

/-- The ledger store state: tables plus id sequences, an event trace of
balance mutations, and the log stream (`logrus`). -/
structure DB where
  accounts : List Account
  entries : List Entry
  transfers : List Transfer
  externalTransfers : List ExternalTransfer
  nextEntryID : Int
  nextTransferID : Int
  nextExtID : Int
  events : List Ev
  logs : List String
deriving Repr, DecidableEq

inductive DBErr where
  | recordNotFound
  | storeFault
deriving Repr, DecidableEq

deriving instance DecidableEq for Except

def findAccount (db : DB) (id : Int) : Option Account :=
  db.accounts.find? (fun a => a.id == id)

def findExternalTransfer (db : DB) (id : Int) : Option ExternalTransfer :=
  db.externalTransfers.find? (fun t => t.id == id)

/-! ## Store primitives

Each primitive is `DB → Except DBErr (α × DB)`.  `call` wraps a primitive
with the fault oracle and the per-request call counter. -/

/-- `getAccount` query (`db/query/account.sql`): `SELECT ... WHERE id = $1`. -/
def getAccountRun (id : Int) (db : DB) : Except DBErr (Account × DB) :=
  match findAccount db id with
  | some a => .ok (a, db)
  | none => .error .recordNotFound

/-- Modelled from the spec: the sqlc-generated `GetAccountForUpdate` query
(row read with an update lock, §4.3 step 1) is not among the source files;
per §4.1 it reads the account, `NotFound` when it does not exist. -/
def getAccountForUpdateRun (id : Int) (db : DB) : Except DBErr (Account × DB) :=
  getAccountRun id db

/-- Modelled from the spec: the sqlc-generated `AddAccountBalance` query is
not among the source files; per §4.1 `AdjustBalance(accountID, delta)`
applies `Balance += delta`, fails `NotFound` when the account does not
exist, and does not itself enforce non-negativity. -/
def addAccountBalanceRun (id : Int) (delta : Int) (db : DB) :
    Except DBErr (Account × DB) :=
  match findAccount db id with
  | some a =>
      let a' : Account := { a with balance := a.balance + delta }
      .ok (a', { db with
        accounts := db.accounts.map (fun b => if b.id == id then a' else b),
        events := db.events ++ [.balanceAdj id delta] })
  | none => .error .recordNotFound

/-- Modelled from the spec: the sqlc-generated `TopUpAccount` query is not
among the source files; per §4.3 step 4 it applies
`AdjustBalance(accountID, +amount)`. -/
def topUpAccountRun (id : Int) (amount : Int) (db : DB) :
    Except DBErr (Account × DB) :=
  addAccountBalanceRun id amount db

/-- `CreateEntry` query: `INSERT INTO entry (account_id, amount)`. -/
def createEntryRun (accountID : Int) (amount : Int) (db : DB) :
    Except DBErr (Entry × DB) :=
  let e : Entry := { id := db.nextEntryID, accountID := accountID, amount := amount }
  .ok (e, { db with entries := db.entries ++ [e], nextEntryID := db.nextEntryID + 1 })

/-- `createTransfer` query: `INSERT INTO transfers (from_account_id, to_account_id, amount)`. -/
def createTransferRun (fromID toID amount : Int) (db : DB) :
    Except DBErr (Transfer × DB) :=
  let t : Transfer :=
    { id := db.nextTransferID, fromAccountID := fromID, toAccountID := toID,
      amount := amount }
  .ok (t, { db with transfers := db.transfers ++ [t],
                    nextTransferID := db.nextTransferID + 1 })

structure CreateExternalTransferParams where
  fromAccountID : Int
  toBankCode : String
  toAccountNumber : String
  recipientName : String
  amount : Int
  currency : String
  reference : String
  description : Option String
deriving Repr, DecidableEq

/-- `CreateExternalTransfer` query (`part_008`): inserts a row; `status`
takes the schema default `'pending'` and `transaction_fees` the default `0`. -/
def createExternalTransferRun (p : CreateExternalTransferParams) (db : DB) :
    Except DBErr (ExternalTransfer × DB) :=
  let t : ExternalTransfer :=
    { id := db.nextExtID, fromAccountID := p.fromAccountID,
      toBankCode := p.toBankCode, toAccountNumber := p.toAccountNumber,
      recipientName := p.recipientName, amount := p.amount,
      currency := p.currency, status := "pending", reference := p.reference,
      description := p.description, transactionID := none,
      transactionFees := some 0, errorMessage := none }
  .ok (t, { db with externalTransfers := db.externalTransfers ++ [t],
                    nextExtID := db.nextExtID + 1 })

structure UpdateExternalTransferStatusParams where
  id : Int
  status : String
  transactionID : Option String
  transactionFees : Option Int
  errorMessage : Option String
deriving Repr, DecidableEq

/-- `UpdateExternalTransferStatus` query (`part_008`): sets `status`, and
`COALESCE`s each optional column with the stored value (an unset Go
`sql.Null*` arrives as NULL, so the stored value is kept). -/
def updateExternalTransferStatusRun (p : UpdateExternalTransferStatusParams)
    (db : DB) : Except DBErr (ExternalTransfer × DB) :=
  match findExternalTransfer db p.id with
  | some t =>
      let t' : ExternalTransfer := { t with
        status := p.status,
        transactionID := p.transactionID.orElse (fun _ => t.transactionID),
        transactionFees := p.transactionFees.orElse (fun _ => t.transactionFees),
        errorMessage := p.errorMessage.orElse (fun _ => t.errorMessage) }
      .ok (t', { db with
        externalTransfers :=
          db.externalTransfers.map (fun u => if u.id == p.id then t' else u) })
  | none => .error .recordNotFound

/-- One store call: consult the fault oracle at the current call index, then
run the primitive; the call counter advances either way. -/
def call {α : Type} (run : DB → Except DBErr (α × DB)) (faults : Nat → Bool)
    (s : DB × Nat) : Except DBErr α × (DB × Nat) :=
  if faults s.2 then (.error .storeFault, (s.1, s.2 + 1))
  else
    match run s.1 with
    | .error e => (.error e, (s.1, s.2 + 1))
    | .ok (a, db') => (.ok a, (db', s.2 + 1))

def noFaults : Nat → Bool := fun _ => false

/-! ## Transaction layer (`part_001`: `SQLStore`)

`execTx` begins a transaction, runs the closure on it, rolls everything
back when the closure returns an error, and commits otherwise.  The
embeddings below inline that: error exits return the CALLER's database
unchanged (rollback); a `nil` return from the closure commits the
closure's accumulated state. -/

structure TransferTxParams where
  fromAccountID : Int
  toAccountID : Int
  amount : Int
deriving Repr, DecidableEq

structure TransferTxResult where
  transfer : Transfer
  fromAccount : Account
  toAccount : Account
  fromEntry : Entry
  toEntry : Entry
deriving Repr, DecidableEq

/-- Go zero value of `Account`: fields left unassigned by a failed path. -/
def Account.zero : Account := { id := 0, owner := "", balance := 0, currency := "" }

def Transfer.zero : Transfer :=
  { id := 0, fromAccountID := 0, toAccountID := 0, amount := 0 }

def Entry.zero : Entry := { id := 0, accountID := 0, amount := 0 }

/-- `addMoney` (`part_001` lines 137–158): applies `AddAccountBalance` to
`accountID1` and then to `accountID2`, returning early on error.  Go's
named return values make the result partial on failure: `(zero, zero, err)`
when the first update fails, `(account1, zero, err)` when the second does. -/
def addMoney (faults : Nat → Bool) (s : DB × Nat)
    (accountID1 amount1 accountID2 amount2 : Int) :
    (Account × Account × Option DBErr) × (DB × Nat) :=
  match call (addAccountBalanceRun accountID1 amount1) faults s with
  | (.error e, s1) => ((Account.zero, Account.zero, some e), s1)
  | (.ok account1, s1) =>
    match call (addAccountBalanceRun accountID2 amount2) faults s1 with
    | (.error e, s2) => ((account1, Account.zero, some e), s2)
    | (.ok account2, s2) => ((account1, account2, none), s2)

/-- `SQLStore.TransferTx` (`part_001` lines 74–135).  Creates the Transfer
record, the two Entries (each early-returning its error, which rolls the
transaction back), then calls `addMoney` with the lower account id first —
and then the closure does `return nil` unconditionally, so an `addMoney`
error is discarded and the transaction COMMITS whatever state the closure
reached; `TransferTx` reports no error on that path. -/
def TransferTx (faults : Nat → Bool) (db : DB) (args : TransferTxParams) :
    Except DBErr TransferTxResult × DB :=
  match call (createTransferRun args.fromAccountID args.toAccountID args.amount)
      faults (db, 0) with
  | (.error e, _) => (.error e, db)
  | (.ok transfer, s1) =>
  match call (createEntryRun args.fromAccountID (-args.amount)) faults s1 with
  | (.error e, _) => (.error e, db)
  | (.ok fromEntry, s2) =>
  match call (createEntryRun args.toAccountID args.amount) faults s2 with
  | (.error e, _) => (.error e, db)
  | (.ok toEntry, s3) =>
    if args.fromAccountID < args.toAccountID then
      match addMoney faults s3 args.fromAccountID (-args.amount)
          args.toAccountID args.amount with
      | ((fromAccount, toAccount, _), s4) =>
        (.ok { transfer := transfer, fromAccount := fromAccount,
               toAccount := toAccount, fromEntry := fromEntry,
               toEntry := toEntry }, s4.1)
    else
      match addMoney faults s3 args.toAccountID args.amount
          args.fromAccountID (-args.amount) with
      | ((toAccount, fromAccount, _), s4) =>
        (.ok { transfer := transfer, fromAccount := fromAccount,
               toAccount := toAccount, fromEntry := fromEntry,
               toEntry := toEntry }, s4.1)

structure TopUpTxParams where
  accountID : Int
  amount : Int
deriving Repr, DecidableEq

structure TopUpTxResult where
  transfer : Transfer
  account : Account
  entry : Entry
deriving Repr, DecidableEq

/-- `SQLStore.TopUpTx` (`part_001` lines 175–219): inside one transaction,
read the account with an update lock, create a Transfer with the external
funding sentinel `0` as `FromAccountID`, create the credit Entry, and apply
the balance increase; every step's error is returned, rolling back. -/
def TopUpTx (faults : Nat → Bool) (db : DB) (arg : TopUpTxParams) :
    Except DBErr TopUpTxResult × DB :=
  match call (getAccountForUpdateRun arg.accountID) faults (db, 0) with
  | (.error e, _) => (.error e, db)
  | (.ok _, s1) =>
  match call (createTransferRun 0 arg.accountID arg.amount) faults s1 with
  | (.error e, _) => (.error e, db)
  | (.ok transfer, s2) =>
  match call (createEntryRun arg.accountID arg.amount) faults s2 with
  | (.error e, _) => (.error e, db)
  | (.ok entry, s3) =>
  match call (topUpAccountRun arg.accountID arg.amount) faults s3 with
  | (.error e, _) => (.error e, db)
  | (.ok account, s4) =>
    (.ok { transfer := transfer, account := account, entry := entry }, s4.1)

/-! ## Currencies and the bank-gateway abstraction (`util/part_007`, `util/bankapi/bank_api.go`) -/

/-- `util.IsSupportedCurrency` (`part_007`). -/
def IsSupportedCurrency (currency : String) : Bool :=
  currency == "USD" || currency == "ETB"

inductive GatewayErr where
  | accountNotFound
  | insufficientFunds
  | bankUnavailable
  | transferFailed
  | invalidRequest
deriving Repr, DecidableEq

/-- `bankapi.TransferRequest`. -/
structure TransferRequest where
  amount : Int
  currency : String
  fromAccountNumber : String
  toAccountNumber : String
  toBankCode : String
  recipientName : String
  reference : String
  description : String
deriving Repr, DecidableEq

/-- `bankapi.TransferResponse`. -/
structure TransferResponse where
  transactionID : String
  status : String
  message : String
  transactionFees : Int
deriving Repr, DecidableEq

/-- `bankapi.BankAPI` capability interface. -/
structure BankAPI where
  transferMoney : TransferRequest → Except GatewayErr TransferResponse
  validateAccount : String → String → Except GatewayErr String

/-- `bankapi.BankAPIProvider.GetBankAPI`: routing-code lookup; an
unregistered code yields no gateway (`ErrBankAPINotAvailable`). -/
def GetBankAPI (provider : String → Option BankAPI) (bankCode : String) :
    Option BankAPI :=
  provider bankCode

/-! ## API layer -/

inductive ApiErr where
  | badRequest (msg : String)
  | notFound (msg : String)
  | unauthorized (msg : String)
  | internal (msg : String)
deriving Repr, DecidableEq

/-- `transferRequest` (`api/transfer.go`). -/
structure transferRequest where
  fromAccountID : Int
  toAccountID : Int
  amount : Int
  currency : String
deriving Repr, DecidableEq

/-- Gin binding on `transferRequest`: `required,min=0` on the account ids
(`required` rejects the zero value, `min=0` rejects negatives, so the bound
value is ≥ 1), `required,gt=0` on the amount, and the `currency` validator. -/
def transferRequest.validBinding (req : transferRequest) : Bool :=
  decide (1 ≤ req.fromAccountID) && decide (1 ≤ req.toAccountID) &&
    decide (1 ≤ req.amount) && IsSupportedCurrency req.currency

/-- `Server.validAccount` (`api/transfer.go` lines 82–99). -/
def validAccount (faults : Nat → Bool) (s : DB × Nat) (accountID : Int)
    (currency : String) : Except ApiErr Account × (DB × Nat) :=
  match call (getAccountRun accountID) faults s with
  | (.error .recordNotFound, s') => (.error (.notFound "sql: no rows in result set"), s')
  | (.error _, s') => (.error (.internal "store error"), s')
  | (.ok account, s') =>
    if account.currency ≠ currency then
      (.error (.badRequest "account currency mismatch"), s')
    else (.ok account, s')

/-- `Server.senderHasBalance` (`api/transfer.go` lines 55–73): rejects when
`account.Balance <= amount`. -/
def senderHasBalance (faults : Nat → Bool) (s : DB × Nat)
    (senderAccountID amount : Int) : Except ApiErr Unit × (DB × Nat) :=
  match call (getAccountRun senderAccountID) faults s with
  | (.error .recordNotFound, s') => (.error (.notFound "sql: no rows in result set"), s')
  | (.error _, s') => (.error (.internal "store error"), s')
  | (.ok account, s') =>
    if account.balance ≤ amount then
      (.error (.badRequest "dont have sufficent balance to make this transaction"), s')
    else (.ok (), s')

/-- `Server.CreateTransfer` (`api/transfer.go` lines 19–54): bind, validate
both accounts against the requested currency, reject self-sends, check the
sender's balance, then run `TransferTx` (whose store calls continue the
request's fault schedule). -/
def CreateTransfer (faults : Nat → Bool) (db : DB) (req : transferRequest) :
    Except ApiErr TransferTxResult × DB :=
  if !req.validBinding then (.error (.badRequest "invalid request"), db) else
  match validAccount faults (db, 0) req.fromAccountID req.currency with
  | (.error e, s) => (.error e, s.1)
  | (.ok _, s1) =>
  match validAccount faults s1 req.toAccountID req.currency with
  | (.error e, s) => (.error e, s.1)
  | (.ok _, s2) =>
  if req.fromAccountID == req.toAccountID then
    (.error (.badRequest "sending to yourself is not permitted"), s2.1)
  else
  match senderHasBalance faults s2 req.fromAccountID req.amount with
  | (.error e, s) => (.error e, s.1)
  | (.ok _, s3) =>
  match TransferTx (fun k => faults (k + s3.2)) s3.1
      { fromAccountID := req.fromAccountID, toAccountID := req.toAccountID,
        amount := req.amount } with
  | (.error _, db') => (.error (.internal "store error"), db')
  | (.ok r, db') => (.ok r, db')

/-- `topUpAccountRequest` (`api/account.go`) together with the uri id. -/
structure topUpAccountRequest where
  accountID : Int
  amount : Int
  currency : String
deriving Repr, DecidableEq

def topUpAccountRequest.validBinding (req : topUpAccountRequest) : Bool :=
  decide (1 ≤ req.accountID) && decide (1 ≤ req.amount) &&
    IsSupportedCurrency req.currency

/-- `Server.topUpAccount` (`api/account.go` lines 295–353): bind, load the
account, check ownership and currency, then run `TopUpTx`. -/
def topUpAccount (authUser : String) (faults : Nat → Bool) (db : DB)
    (req : topUpAccountRequest) : Except ApiErr TopUpTxResult × DB :=
  if !req.validBinding then (.error (.badRequest "invalid request"), db) else
  match call (getAccountRun req.accountID) faults (db, 0) with
  | (.error .recordNotFound, s) => (.error (.notFound "record not found"), s.1)
  | (.error _, s) => (.error (.internal "store error"), s.1)
  | (.ok account, s0) =>
  if account.owner ≠ authUser then
    (.error (.unauthorized "account doesn't belong to the authenticated user"), s0.1)
  else if account.currency ≠ req.currency then
    (.error (.badRequest "account currency mismatch"), s0.1)
  else
  match TopUpTx (fun k => faults (k + s0.2)) s0.1
      { accountID := req.accountID, amount := req.amount } with
  | (.error _, db') => (.error (.internal "store error"), db')
  | (.ok r, db') => (.ok r, db')

/-- `validateUserAccountBalanceRequest` (`api/account.go`). -/
structure validateUserAccountBalanceRequest where
  amount : Int
  accountID : Int
deriving Repr, DecidableEq

def validateUserAccountBalanceRequest.validBinding
    (req : validateUserAccountBalanceRequest) : Bool :=
  decide (1 ≤ req.amount) && decide (1 ≤ req.accountID)

/-- `Server.validateUserAccountBalance` (`api/account.go` lines 218–260):
bind, load the account, check ownership, reject when the balance is below
the amount, and additionally reject when the remaining balance would drop
below 50 minor units. -/
def validateUserAccountBalance (authUser : String) (faults : Nat → Bool)
    (db : DB) (req : validateUserAccountBalanceRequest) :
    Except ApiErr Unit × DB :=
  if !req.validBinding then (.error (.badRequest "invalid request"), db) else
  match call (getAccountRun req.accountID) faults (db, 0) with
  | (.error .recordNotFound, s) => (.error (.notFound "record not found"), s.1)
  | (.error _, s) => (.error (.internal "store error"), s.1)
  | (.ok account, s0) =>
  if account.owner ≠ authUser then
    (.error (.unauthorized "account doesn't belong to the authenticated user"), s0.1)
  else if account.balance < req.amount then
    (.error (.badRequest "account balance is less than the amount"), s0.1)
  else if account.balance < req.amount + 50 then
    (.error (.badRequest "Remaining balance should be more than 50"), s0.1)
  else (.ok (), s0.1)

/-- `externalTransferRequest` (`api/server.go`). -/
structure externalTransferRequest where
  fromAccountID : Int
  toBankCode : String
  toAccountNumber : String
  amount : Int
  currency : String
  description : String
deriving Repr, DecidableEq

def externalTransferRequest.validBinding (req : externalTransferRequest) : Bool :=
  decide (1 ≤ req.fromAccountID) && decide (1 ≤ req.amount) &&
    IsSupportedCurrency req.currency && req.toBankCode != "" &&
    req.toAccountNumber != ""

/-- Error-message classification of a failed gateway `TransferMoney` call
(`api/server.go` lines 198–207). -/
def classifyGatewayErr : GatewayErr → String
  | .insufficientFunds => "Insufficient funds at the bank"
  | .bankUnavailable => "Bank API is temporarily unavailable"
  | .transferFailed => "Bank transfer failed"
  | _ => "Failed to send money to the bank"

/-- `Server.CreateExternalTransfer` (`api/server.go` lines 93–293), the
synchronous external-transfer flow.  `reference` stands for the generated
`NEXT-`-prefixed random token.  Store calls are numbered in request order:
0 `GetAccount`, 1 `CreateExternalTransfer`, 2 update to `processing`,
3 `AddAccountBalance` (or the update to `failed` when the gateway errs),
4 `CreateEntry` (or the update to `failed` when the debit fails), 5 the
update to `completed`.  On a gateway error the update to `failed` has its
error discarded (`transfer, _ = ...`); a `CreateEntry` failure is only
logged and the flow continues to `completed`. -/
def CreateExternalTransfer (provider : String → Option BankAPI)
    (authUser : String) (reference : String) (faults : Nat → Bool) (db : DB)
    (req : externalTransferRequest) : Except ApiErr ExternalTransfer × DB :=
  if !req.validBinding then (.error (.badRequest "invalid request"), db) else
  match call (getAccountRun req.fromAccountID) faults (db, 0) with
  | (.error .recordNotFound, s) => (.error (.notFound "account not found"), s.1)
  | (.error _, s) => (.error (.internal "store error"), s.1)
  | (.ok account, s0) =>
  if account.owner ≠ authUser then
    (.error (.unauthorized "account doesn't belong to the authenticated user"), s0.1)
  else if account.currency ≠ req.currency then
    (.error (.badRequest "account currency mismatch"), s0.1)
  else if account.balance < req.amount then
    (.error (.badRequest "insufficient funds"), s0.1)
  else
  match GetBankAPI provider req.toBankCode with
  | none => (.error (.badRequest "bank is not supported"), s0.1)
  | some bankAPI =>
  match bankAPI.validateAccount req.toBankCode req.toAccountNumber with
  | .error .accountNotFound =>
      (.error (.badRequest "recipient account not found at the bank"), s0.1)
  | .error _ => (.error (.internal "failed to validate recipient account"), s0.1)
  | .ok recipientName =>
  match call (createExternalTransferRun
      { fromAccountID := req.fromAccountID, toBankCode := req.toBankCode,
        toAccountNumber := req.toAccountNumber, recipientName := recipientName,
        amount := req.amount, currency := req.currency, reference := reference,
        description := if req.description == "" then none
                       else some req.description }) faults s0 with
  | (.error _, s) => (.error (.internal "store error"), s.1)
  | (.ok transfer0, s1) =>
  match call (updateExternalTransferStatusRun
      { id := transfer0.id, status := "processing", transactionID := none,
        transactionFees := none, errorMessage := none }) faults s1 with
  | (.error _, s) => (.error (.internal "store error"), s.1)
  | (.ok transfer, s2) =>
  match bankAPI.transferMoney
      { amount := transfer.amount, currency := transfer.currency,
        fromAccountNumber := toString account.id,
        toAccountNumber := transfer.toAccountNumber,
        toBankCode := transfer.toBankCode,
        recipientName := transfer.recipientName,
        reference := transfer.reference,
        description := transfer.description.getD "" } with
  | .error e =>
      let errorMsg := classifyGatewayErr e
      match call (updateExternalTransferStatusRun
          { id := transfer.id, status := "failed", transactionID := none,
            transactionFees := none, errorMessage := some errorMsg })
          faults s2 with
      | (_, s3) => (.error (.badRequest errorMsg), s3.1)
  | .ok transferResp =>
  match call (addAccountBalanceRun account.id (-transfer.amount)) faults s2 with
  | (.error _, s3) =>
      match call (updateExternalTransferStatusRun
          { id := transfer.id, status := "failed", transactionID := none,
            transactionFees := none,
            errorMessage := some "Failed to deduct balance" }) faults s3 with
      | (_, s4) => (.error (.internal "Failed to deduct balance"), s4.1)
  | (.ok _, s3) =>
    let complete : DB × Nat → Except ApiErr ExternalTransfer × DB := fun s =>
      match call (updateExternalTransferStatusRun
          { id := transfer.id, status := "completed",
            transactionID := if transferResp.transactionID == "" then none
                             else some transferResp.transactionID,
            transactionFees := if 0 < transferResp.transactionFees then
                                 some transferResp.transactionFees
                               else none,
            errorMessage := none }) faults s with
      | (.error _, s5) => (.error (.internal "store error"), s5.1)
      | (.ok transferC, s5) => (.ok transferC, s5.1)
    match call (createEntryRun account.id (-transfer.amount)) faults s3 with
    | (.error _, s4) =>
        complete ({ s4.1 with
          logs := s4.1.logs ++ ["Failed to create entry for external transfer"] },
          s4.2)
    | (.ok _, s4) => complete s4

/-! ## Sequences of committed operations (for the balance invariant) -/

/-- One caller-facing money-movement operation, with everything the
corresponding handler receives. -/
inductive Op where
  | internal (req : transferRequest)
  | topUp (authUser : String) (req : topUpAccountRequest)
  | external (provider : String → Option BankAPI) (authUser : String)
      (reference : String) (req : externalTransferRequest)

/-- The store state an operation leaves behind (committed effects only). -/
def applyOp (faults : Nat → Bool) (db : DB) : Op → DB
  | .internal req => (CreateTransfer faults db req).2
  | .topUp authUser req => (topUpAccount authUser faults db req).2
  | .external provider authUser reference req =>
      (CreateExternalTransfer provider authUser reference faults db req).2

/-- All account balances are non-negative. -/
def nonnegBalances (db : DB) : Prop := ∀ a ∈ db.accounts, 0 ≤ a.balance

instance (db : DB) : Decidable (nonnegBalances db) := by
  unfold nonnegBalances; infer_instance

/-- Primary-key discipline of the `external_transfers` bigserial: every
stored row's id was drawn from the sequence, so it is below the next value.
Holds for every database produced by the flows and is needed because row
updates address rows by id. -/
def extIDBound (db : DB) : Prop :=
  ∀ t ∈ db.externalTransfers, t.id < db.nextExtID

instance (db : DB) : Decidable (extIDBound db) := by
  unfold extIDBound; infer_instance

/-! ## Concrete fixtures -/

def dbA : DB :=
  { accounts := [⟨1, "alice", 100, "ETB"⟩, ⟨2, "bob", 50, "ETB"⟩],
    entries := [], transfers := [], externalTransfers := [],
    nextEntryID := 1, nextTransferID := 1, nextExtID := 1,
    events := [], logs := [] }

/-- The spec's worked example: A has balance 1000 ETB, B has balance 0 ETB. -/
def dbSpecExample : DB :=
  { accounts := [⟨1, "alice", 1000, "ETB"⟩, ⟨2, "bob", 0, "ETB"⟩],
    entries := [], transfers := [], externalTransfers := [],
    nextEntryID := 1, nextTransferID := 1, nextExtID := 1,
    events := [], logs := [] }

/-- A gateway stub whose calls always succeed. -/
def gwOK : BankAPI :=
  { transferMoney := fun _ => .ok ⟨"TX1", "success", "", 7⟩,
    validateAccount := fun _ _ => .ok "Bob Recipient" }

/-- A gateway stub whose `TransferMoney` always fails with remote
insufficient funds. -/
def gwInsufficient : BankAPI :=
  { transferMoney := fun _ => .error .insufficientFunds,
    validateAccount := fun _ _ => .ok "Bob Recipient" }

/-- A provider registry holding one gateway under routing code `CBE`. -/
def provCBE (g : BankAPI) : String → Option BankAPI :=
  fun c => if c == "CBE" then some g else none

def extReqA : externalTransferRequest := ⟨1, "CBE", "12345", 40, "ETB", ""⟩

/-! ## List helper lemmas

The store tables are keyed lists; these lemmas describe `find?` and the
row-update `map` used by the balance and status updates. -/

theorem find?_key_eq {α : Type} (key : α → Int) {l : List α} {a : α} {i : Int}
    (hfind : l.find? (fun b => key b == i) = some a) : key a = i := by
  have h := List.find?_some hfind
  simpa using h

theorem find?_map_update_self {α : Type} (key : α → Int)
    {l : List α} {a : α} (a' : α) {i : Int}
    (hfind : l.find? (fun b => key b == i) = some a) (hid : key a' = i) :
    (l.map (fun b => if key b == i then a' else b)).find?
      (fun b => key b == i) = some a' := by
  induction l with
  | nil => simp at hfind
  | cons x xs ih =>
    by_cases hx : (key x == i) = true
    · rw [List.map_cons, if_pos hx]
      exact List.find?_cons_of_pos (p := fun b => key b == i) _ (by simp [hid])
    · rw [List.find?_cons_of_neg (p := fun b => key b == i) _ hx] at hfind
      rw [List.map_cons, if_neg hx,
        List.find?_cons_of_neg (p := fun b => key b == i) _ hx]
      exact ih hfind

theorem find?_map_update_ne {α : Type} (key : α → Int)
    (l : List α) (a' : α) {i j : Int} (hij : i ≠ j) (hid : key a' = i) :
    (l.map (fun b => if key b == i then a' else b)).find?
      (fun b => key b == j) = l.find? (fun b => key b == j) := by
  induction l with
  | nil => rfl
  | cons x xs ih =>
    by_cases hx : (key x == i) = true
    · have hxi : key x = i := by simpa using hx
      have hxj : ¬ ((key x == j) = true) := by simp [hxi, hij]
      have haj : ¬ ((key a' == j) = true) := by simp [hid, hij]
      rw [List.map_cons, if_pos hx,
        List.find?_cons_of_neg (p := fun b => key b == j) _ haj,
        List.find?_cons_of_neg (p := fun b => key b == j) _ hxj]
      exact ih
    · rw [List.map_cons, if_neg hx]
      by_cases hxj : (key x == j) = true
      · rw [List.find?_cons_of_pos (p := fun b => key b == j) _ hxj,
          List.find?_cons_of_pos (p := fun b => key b == j) _ hxj]
      · rw [List.find?_cons_of_neg (p := fun b => key b == j) _ hxj,
          List.find?_cons_of_neg (p := fun b => key b == j) _ hxj]
        exact ih

theorem map_update_id {α : Type} (key : α → Int)
    {l : List α} (a' : α) {i : Int} (h : ∀ x ∈ l, key x ≠ i) :
    l.map (fun b => if key b == i then a' else b) = l := by
  induction l with
  | nil => rfl
  | cons x xs ih =>
    have hx : ¬ ((key x == i) = true) := by
      simp [h x (List.mem_cons_self x xs)]
    rw [List.map_cons, if_neg hx, ih (fun y hy => h y (List.mem_cons_of_mem x hy))]

theorem find?_append_fresh {α : Type} (key : α → Int)
    {l : List α} (t : α) {i : Int} (h : ∀ x ∈ l, key x ≠ i) (hid : key t = i) :
    (l ++ [t]).find? (fun b => key b == i) = some t := by
  induction l with
  | nil => exact List.find?_cons_of_pos (p := fun b => key b == i) _ (by simp [hid])
  | cons x xs ih =>
    have hx : ¬ ((key x == i) = true) := by
      simp [h x (List.mem_cons_self x xs)]
    rw [List.cons_append, List.find?_cons_of_neg (p := fun b => key b == i) _ hx]
    exact ih (fun y hy => h y (List.mem_cons_of_mem x hy))

theorem map_update_append {α : Type} (key : α → Int)
    {l : List α} (t t' : α) {i : Int}
    (h : ∀ x ∈ l, key x ≠ i) (hid : key t = i) :
    (l ++ [t]).map (fun b => if key b == i then t' else b) = l ++ [t'] := by
  rw [List.map_append, map_update_id key t' h]
  simp [hid]

theorem nonneg_map_update {l : List Account} (a' : Account) (i : Int)
    (h : ∀ b ∈ l, 0 ≤ b.balance) (h' : 0 ≤ a'.balance) :
    ∀ b ∈ l.map (fun b => if b.id == i then a' else b), 0 ≤ b.balance := by
  intro b hb
  rcases List.mem_map.mp hb with ⟨c, hc, hcb⟩
  by_cases hci : c.id == i
  · simp only [hci, if_pos] at hcb
    exact hcb ▸ h'
  · simp only [hci, Bool.false_eq_true, if_neg, not_false_iff] at hcb
    exact hcb ▸ h c hc




/-! ## C1 — TransferTx rollback on step failure -/

/-- **C1** (code bug exhibit).  The claim says a failure of either balance
adjustment rolls the whole internal transfer back and is returned as
`TransferTx`'s error.  In `part_001` the closure captures `addMoney`'s
error and then does `return nil`, so when the first `AddAccountBalance`
fails (store call 3 of the transaction), `TransferTx` reports success and
COMMITS the Transfer record and both Entries while neither balance moved:
partial state is observable and no error is returned. -/
theorem TransferTx_commits_despite_balance_update_failure :
    (TransferTx (fun k => k == 3) dbA ⟨1, 2, 30⟩).1.isOk = true ∧
    (TransferTx (fun k => k == 3) dbA ⟨1, 2, 30⟩).2.transfers =
      [⟨1, 1, 2, 30⟩] ∧
    (TransferTx (fun k => k == 3) dbA ⟨1, 2, 30⟩).2.entries =
      [⟨1, 1, -30⟩, ⟨2, 2, 30⟩] ∧
    (TransferTx (fun k => k == 3) dbA ⟨1, 2, 30⟩).2.accounts = dbA.accounts := by
  decide

/-! ## C2 — external transfer local debit -/

/-- **C2** (counterexample).  The claim says the local debit step applies
the balance adjustment and creates the debit Entry atomically — committed
together or not at all.  In `api/server.go` they are two independent store
calls: when `CreateEntry` (store call 4) fails after the debit succeeded,
the flow merely logs and still marks the transfer `completed`, leaving the
balance debited by 40 with no Entry at all. -/
theorem CreateExternalTransfer_debit_without_entry :
    (CreateExternalTransfer (provCBE gwOK) "alice" "NEXT-ref"
        (fun k => k == 4) dbA extReqA).2.entries = [] ∧
    findAccount (CreateExternalTransfer (provCBE gwOK) "alice" "NEXT-ref"
        (fun k => k == 4) dbA extReqA).2 1 = some ⟨1, "alice", 60, "ETB"⟩ ∧
    (CreateExternalTransfer (provCBE gwOK) "alice" "NEXT-ref"
        (fun k => k == 4) dbA extReqA).2.externalTransfers.map
        (fun t => t.status) = ["completed"] := by
  decide

/-! ## C3 — no row left stuck in pending/processing -/

/-- **C3** (counterexample).  The claim says a request that created the
pending ExternalTransfer row never ends with the row still `pending` or
`processing`.  When the update to `processing` (store call 2) fails, the
synchronous handler returns 500 immediately: the row ends the request in
status `pending`, no failure reason is recorded, and nothing is logged. -/
theorem CreateExternalTransfer_row_left_pending :
    (CreateExternalTransfer (provCBE gwOK) "alice" "NEXT-ref"
        (fun k => k == 2) dbA extReqA).1 =
      .error (.internal "store error") ∧
    (CreateExternalTransfer (provCBE gwOK) "alice" "NEXT-ref"
        (fun k => k == 2) dbA extReqA).2.externalTransfers.map
        (fun t => t.status) = ["pending"] ∧
    (CreateExternalTransfer (provCBE gwOK) "alice" "NEXT-ref"
        (fun k => k == 2) dbA extReqA).2.logs = [] := by
  decide

/-! ## C5 — full-balance internal transfer -/

/-- **C5** (counterexample).  The claim says transferring the sender's
entire balance succeeds (precondition `balance ≥ amount`).  The caller-side
check `senderHasBalance` rejects when `Balance <= amount`, so the spec's
worked example — transfer 1000 from A (balance 1000, ETB) to B — is
rejected with the insufficient-balance validation error and nothing is
written. -/
theorem CreateTransfer_full_balance_rejected :
    CreateTransfer noFaults dbSpecExample ⟨1, 2, 1000, "ETB"⟩ =
      (.error (.badRequest "dont have sufficent balance to make this transaction"),
        dbSpecExample) := by
  decide

/-! ## Characterization lemmas for the store primitives -/

theorem getAccountRun_eq_some {db : DB} {i : Int} {a : Account}
    (h : findAccount db i = some a) : getAccountRun i db = .ok (a, db) := by
  unfold getAccountRun; rw [h]

theorem getAccountRun_eq_none {db : DB} {i : Int}
    (h : findAccount db i = none) :
    getAccountRun i db = .error .recordNotFound := by
  unfold getAccountRun; rw [h]

theorem createEntryRun_eq (i m : Int) (db : DB) :
    createEntryRun i m db = .ok (⟨db.nextEntryID, i, m⟩,
      { db with entries := db.entries ++ [⟨db.nextEntryID, i, m⟩],
                nextEntryID := db.nextEntryID + 1 }) := rfl

theorem createTransferRun_eq (f t m : Int) (db : DB) :
    createTransferRun f t m db = .ok (⟨db.nextTransferID, f, t, m⟩,
      { db with transfers := db.transfers ++ [⟨db.nextTransferID, f, t, m⟩],
                nextTransferID := db.nextTransferID + 1 }) := rfl

theorem addAccountBalanceRun_eq_some {db : DB} {i : Int} {a : Account}
    (d : Int) (h : findAccount db i = some a) :
    addAccountBalanceRun i d db =
      .ok ({ a with balance := a.balance + d },
        { db with
          accounts := db.accounts.map
            (fun b => if b.id == i then { a with balance := a.balance + d }
                      else b),
          events := db.events ++ [.balanceAdj i d] }) := by
  unfold addAccountBalanceRun; rw [h]

theorem addAccountBalanceRun_eq_none {db : DB} {i : Int} (d : Int)
    (h : findAccount db i = none) :
    addAccountBalanceRun i d db = .error .recordNotFound := by
  unfold addAccountBalanceRun; rw [h]

/-- Any store call either leaves the database unchanged (fault or primitive
error) or commits exactly what the primitive produced. -/
theorem call_cases {α : Type} (run : DB → Except DBErr (α × DB))
    (faults : Nat → Bool) (s : DB × Nat) :
    (call run faults s).2.1 = s.1 ∨
      ∃ x, run s.1 = .ok (x, (call run faults s).2.1) := by
  unfold call
  by_cases hf : faults s.2
  · simp [hf]
  · simp only [hf, Bool.false_eq_true, if_neg, not_false_iff]
    cases hr : run s.1 with
    | error e => simp
    | ok p => exact Or.inr ⟨p.1, by simp⟩

/-- A successful `call` of `getAccount` returns an account found in the
unchanged database. -/
theorem call_getAccount_ok {faults : Nat → Bool} {s : DB × Nat} {i : Int}
    {a : Account} {s' : DB × Nat}
    (h : call (getAccountRun i) faults s = (.ok a, s')) :
    s'.1 = s.1 ∧ findAccount s.1 i = some a := by
  unfold call at h
  by_cases hf : faults s.2
  · rw [if_pos hf] at h
    exact absurd (congrArg Prod.fst h) (by simp)
  · rw [if_neg hf] at h
    cases hfind : findAccount s.1 i with
    | none => rw [getAccountRun_eq_none hfind] at h; simp at h
    | some b =>
        rw [getAccountRun_eq_some hfind] at h
        simp only [Prod.mk.injEq, Except.ok.injEq] at h
        obtain ⟨h1, h2⟩ := h
        exact ⟨by rw [← h2], by simp [hfind, h1]⟩

/-! ## Non-negativity preservation -/

theorem nonneg_of_find {db : DB} {i : Int} {a : Account}
    (hn : nonnegBalances db) (h : findAccount db i = some a) : 0 ≤ a.balance :=
  hn a (List.mem_of_find?_eq_some h)

/-- A successful balance adjustment preserves non-negativity provided the
delta is non-negative or the projected balance of the target stays
non-negative. -/
theorem addAccountBalanceRun_nonneg {i d : Int} {db : DB}
    (hn : nonnegBalances db)
    (hguard : 0 ≤ d ∨ ∃ acc, findAccount db i = some acc ∧ 0 ≤ acc.balance + d) :
    ∀ {x : Account} {db' : DB},
      addAccountBalanceRun i d db = .ok (x, db') → nonnegBalances db' := by
  intro x db' h
  cases hfind : findAccount db i with
  | none => rw [addAccountBalanceRun_eq_none d hfind] at h; simp at h
  | some a =>
    rw [addAccountBalanceRun_eq_some d hfind] at h
    simp only [Except.ok.injEq, Prod.mk.injEq] at h
    obtain ⟨-, h2⟩ := h
    subst h2
    intro b hb
    refine nonneg_map_update _ i (fun c hc => hn c hc) ?_ b hb
    rcases hguard with hd | ⟨acc, hacc, hbal⟩
    · have := nonneg_of_find hn hfind
      simpa using add_nonneg this hd
    · rw [hfind] at hacc
      cases hacc
      simpa using hbal

theorem nonnegBalances_congr {db db' : DB} (h : db'.accounts = db.accounts)
    (hn : nonnegBalances db) : nonnegBalances db' := by
  unfold nonnegBalances at hn ⊢; rw [h]; exact hn

theorem findAccount_congr {db db' : DB} (h : db'.accounts = db.accounts)
    (i : Int) : findAccount db' i = findAccount db i := by
  unfold findAccount; rw [h]

theorem extIDBound_congr {db db' : DB}
    (hext : db'.externalTransfers = db.externalTransfers)
    (hnext : db'.nextExtID = db.nextExtID) (hb : extIDBound db) :
    extIDBound db' := by
  unfold extIDBound at hb ⊢; rw [hext, hnext]; exact hb

theorem getAccountRun_ok_eq {i : Int} {db db' : DB} {x : Account}
    (h : getAccountRun i db = .ok (x, db')) : db' = db := by
  unfold getAccountRun at h
  cases hfind : findAccount db i with
  | none => rw [hfind] at h; simp at h
  | some a =>
      rw [hfind] at h
      simp only [Except.ok.injEq, Prod.mk.injEq] at h
      exact h.2.symm

theorem createEntryRun_ok_fields {i m : Int} {db db' : DB} {x : Entry}
    (h : createEntryRun i m db = .ok (x, db')) :
    db'.accounts = db.accounts ∧ db'.externalTransfers = db.externalTransfers ∧
      db'.nextExtID = db.nextExtID := by
  rw [createEntryRun_eq] at h
  simp only [Except.ok.injEq, Prod.mk.injEq] at h
  rw [← h.2]
  exact ⟨rfl, rfl, rfl⟩

theorem createTransferRun_ok_fields {f t m : Int} {db db' : DB} {x : Transfer}
    (h : createTransferRun f t m db = .ok (x, db')) :
    db'.accounts = db.accounts ∧ db'.externalTransfers = db.externalTransfers ∧
      db'.nextExtID = db.nextExtID := by
  rw [createTransferRun_eq] at h
  simp only [Except.ok.injEq, Prod.mk.injEq] at h
  rw [← h.2]
  exact ⟨rfl, rfl, rfl⟩

theorem addAccountBalanceRun_ok_fields {i d : Int} {db db' : DB} {x : Account}
    (h : addAccountBalanceRun i d db = .ok (x, db')) :
    db'.externalTransfers = db.externalTransfers ∧
      db'.nextExtID = db.nextExtID := by
  cases hfind : findAccount db i with
  | none => rw [addAccountBalanceRun_eq_none d hfind] at h; simp at h
  | some a =>
      rw [addAccountBalanceRun_eq_some d hfind] at h
      simp only [Except.ok.injEq, Prod.mk.injEq] at h
      rw [← h.2]
      exact ⟨rfl, rfl⟩

theorem createExternalTransferRun_ok_fields {p : CreateExternalTransferParams}
    {db db' : DB} {x : ExternalTransfer}
    (h : createExternalTransferRun p db = .ok (x, db')) :
    db'.accounts = db.accounts ∧ (extIDBound db → extIDBound db') := by
  unfold createExternalTransferRun at h
  simp only [Except.ok.injEq, Prod.mk.injEq] at h
  rw [← h.2]
  refine ⟨rfl, fun hb u hu => ?_⟩
  simp only [List.mem_append, List.mem_singleton] at hu
  rcases hu with hu | hu
  · have := hb u hu; simp only; omega
  · subst hu; simp only; omega

theorem updateExternalTransferStatusRun_ok_fields
    {p : UpdateExternalTransferStatusParams} {db db' : DB} {x : ExternalTransfer}
    (h : updateExternalTransferStatusRun p db = .ok (x, db')) :
    db'.accounts = db.accounts ∧ db'.nextExtID = db.nextExtID ∧
      (extIDBound db → extIDBound db') := by
  unfold updateExternalTransferStatusRun at h
  cases hfind : findExternalTransfer db p.id with
  | none => rw [hfind] at h; simp at h
  | some t =>
      rw [hfind] at h
      simp only [Except.ok.injEq, Prod.mk.injEq] at h
      rw [← h.2]
      refine ⟨rfl, rfl, fun hb u hu => ?_⟩
      simp only [List.mem_map] at hu
      rcases hu with ⟨v, hv, hvu⟩
      by_cases hvp : (v.id == p.id) = true
      · rw [if_pos hvp] at hvu
        have ht : t ∈ db.externalTransfers := List.mem_of_find?_eq_some hfind
        have := hb t ht
        rw [← hvu]
        simpa using this
      · rw [if_neg hvp] at hvu
        rw [← hvu]
        exact hb v hv

/-- `call` transports any database predicate preserved by its primitive. -/
theorem call_preserves {α : Type} (run : DB → Except DBErr (α × DB))
    (P : DB → Prop)
    (hrun : ∀ db x db', run db = .ok (x, db') → P db → P db')
    (faults : Nat → Bool) (s : DB × Nat) (r : Except DBErr α) (s' : DB × Nat)
    (heq : call run faults s = (r, s')) (h : P s.1) : P s'.1 := by
  rcases call_cases run faults s with hc | ⟨x, hx⟩
  · rw [heq] at hc
    rw [show s'.1 = s.1 from hc]
    exact h
  · rw [heq] at hx
    exact hrun _ _ _ hx h

theorem findAccount_key_eq {db : DB} {i : Int} {a : Account}
    (h : findAccount db i = some a) : a.id = i := by
  unfold findAccount at h
  exact find?_key_eq (fun b : Account => b.id) h

theorem call_error_state {α : Type} (run : DB → Except DBErr (α × DB))
    (faults : Nat → Bool) (s : DB × Nat) {e : DBErr} {s' : DB × Nat}
    (h : call run faults s = (.error e, s')) : s'.1 = s.1 := by
  unfold call at h
  by_cases hf : faults s.2
  · rw [if_pos hf] at h
    simp only [Prod.mk.injEq] at h
    rw [← h.2]
  · rw [if_neg hf] at h
    cases hr : run s.1 with
    | error e' =>
        rw [hr] at h
        simp only [Prod.mk.injEq] at h
        rw [← h.2]
    | ok p =>
        rw [hr] at h
        simp at h

theorem call_ok_run {α : Type} (run : DB → Except DBErr (α × DB))
    (faults : Nat → Bool) (s : DB × Nat) {x : α} {s' : DB × Nat}
    (h : call run faults s = (.ok x, s')) : run s.1 = .ok (x, s'.1) := by
  unfold call at h
  by_cases hf : faults s.2
  · rw [if_pos hf] at h
    simp at h
  · rw [if_neg hf] at h
    cases hr : run s.1 with
    | error e' => rw [hr] at h; simp at h
    | ok p =>
        rw [hr] at h
        simp only [Prod.mk.injEq, Except.ok.injEq] at h
        obtain ⟨h1, h2⟩ := h
        rw [← h1, ← h2]

/-- `addMoney` preserves non-negativity and the id bound, provided each of
the two adjustments is either a credit or covered by the corresponding
account's current balance. -/
theorem addMoney_nonneg (faults : Nat → Bool) (s : DB × Nat)
    (i1 d1 i2 d2 : Int) (h12 : i1 ≠ i2)
    (hn : nonnegBalances s.1) (hb : extIDBound s.1)
    (hg1 : 0 ≤ d1 ∨ ∃ acc, findAccount s.1 i1 = some acc ∧ 0 ≤ acc.balance + d1)
    (hg2 : 0 ≤ d2 ∨ ∃ acc, findAccount s.1 i2 = some acc ∧ 0 ≤ acc.balance + d2) :
    nonnegBalances (addMoney faults s i1 d1 i2 d2).2.1 ∧
      extIDBound (addMoney faults s i1 d1 i2 d2).2.1 := by
  have step1 : ∀ {x : Account} {s1 : DB × Nat},
      call (addAccountBalanceRun i1 d1) faults s = (.ok x, s1) →
      nonnegBalances s1.1 ∧ extIDBound s1.1 ∧
        findAccount s1.1 i2 = findAccount s.1 i2 := by
    intro x s1 heq
    have hrun := call_ok_run _ _ _ heq
    refine ⟨addAccountBalanceRun_nonneg hn hg1 hrun, ?_, ?_⟩
    · obtain ⟨hext, hnext⟩ := addAccountBalanceRun_ok_fields hrun
      exact extIDBound_congr hext hnext hb
    · cases hfind1 : findAccount s.1 i1 with
      | none => rw [addAccountBalanceRun_eq_none d1 hfind1] at hrun; simp at hrun
      | some acc1 =>
          have hkey : acc1.id = i1 := findAccount_key_eq hfind1
          rw [addAccountBalanceRun_eq_some d1 hfind1] at hrun
          simp only [Except.ok.injEq, Prod.mk.injEq] at hrun
          obtain ⟨-, h2⟩ := hrun
          rw [← h2]
          unfold findAccount
          refine find?_map_update_ne (fun a : Account => a.id) s.1.accounts _ h12 ?_
          simp [hkey]
  unfold addMoney
  split
  · next e s1 heq =>
      have hs := call_error_state _ _ _ heq
      simp only [hs]
      exact ⟨hn, hb⟩
  · next account1 s1 heq1 =>
      obtain ⟨hn1, hb1, hfa1⟩ := step1 heq1
      split
      · next e s2 heq2 =>
          have hs := call_error_state _ _ _ heq2
          simp only [hs]
          exact ⟨hn1, hb1⟩
      · next account2 s2 heq2 =>
          have hrun2 := call_ok_run _ _ _ heq2
          have hg2' : 0 ≤ d2 ∨
              ∃ acc, findAccount s1.1 i2 = some acc ∧ 0 ≤ acc.balance + d2 := by
            rcases hg2 with h | ⟨acc, hacc, hbal⟩
            · exact Or.inl h
            · exact Or.inr ⟨acc, by rw [hfa1]; exact hacc, hbal⟩
          refine ⟨addAccountBalanceRun_nonneg hn1 hg2' hrun2, ?_⟩
          obtain ⟨hext, hnext⟩ := addAccountBalanceRun_ok_fields hrun2
          exact extIDBound_congr hext hnext hb1

/-- `TransferTx` preserves non-negative balances (and the ext-row id bound)
under every fault schedule, when the caller checked the sender's balance:
even on the committed partial-failure path only guarded adjustments run. -/
theorem TransferTx_nonneg (faults : Nat → Bool) (db : DB)
    (args : TransferTxParams)
    (hn : nonnegBalances db) (hb : extIDBound db)
    (hne : args.fromAccountID ≠ args.toAccountID) (hamt : 0 ≤ args.amount)
    (hguard : ∃ acc, findAccount db args.fromAccountID = some acc ∧
      args.amount ≤ acc.balance) :
    nonnegBalances (TransferTx faults db args).2 ∧
      extIDBound (TransferTx faults db args).2 := by
  have hQ : ∀ {β : Type} (run : DB → Except DBErr (β × DB)),
      (∀ (d : DB) (x : β) (d' : DB), run d = .ok (x, d') →
        d'.accounts = d.accounts ∧ d'.externalTransfers = d.externalTransfers ∧
          d'.nextExtID = d.nextExtID) →
      ∀ {r : Except DBErr β} {s s' : DB × Nat}, call run faults s = (r, s') →
      s.1.accounts = db.accounts ∧ extIDBound s.1 →
      s'.1.accounts = db.accounts ∧ extIDBound s'.1 := by
    intro β run hrun r s s' heq hQs
    refine call_preserves run
      (fun d => d.accounts = db.accounts ∧ extIDBound d) ?_ faults s r s' heq hQs
    intro d x d' hok hd
    obtain ⟨h1, h2, h3⟩ := hrun d x d' hok
    exact ⟨h1.trans hd.1, extIDBound_congr h2 h3 hd.2⟩
  unfold TransferTx
  split
  · next e x heq => exact ⟨hn, hb⟩
  · next transfer s1 heq1 =>
    have hQ1 := hQ _ (fun d x d' hok => createTransferRun_ok_fields hok)
      heq1 ⟨rfl, hb⟩
    split
    · next e x heq => exact ⟨hn, hb⟩
    · next fromEntry s2 heq2 =>
      have hQ2 := hQ _ (fun d x d' hok => createEntryRun_ok_fields hok) heq2 hQ1
      split
      · next e x heq => exact ⟨hn, hb⟩
      · next toEntry s3 heq3 =>
        have hQ3 := hQ _ (fun d x d' hok => createEntryRun_ok_fields hok)
          heq3 hQ2
        have hn3 : nonnegBalances s3.1 := nonnegBalances_congr hQ3.1 hn
        have hb3 : extIDBound s3.1 := hQ3.2
        obtain ⟨acc, hacc, hbal⟩ := hguard
        have hacc3 : findAccount s3.1 args.fromAccountID = some acc := by
          rw [findAccount_congr hQ3.1]; exact hacc
        split
        · next hlt =>
          rcases hres : addMoney faults s3 args.fromAccountID (-args.amount)
              args.toAccountID args.amount with ⟨⟨fa, ta, oe⟩, s4⟩
          have hmain := addMoney_nonneg faults s3 args.fromAccountID
            (-args.amount) args.toAccountID args.amount hne hn3 hb3
            (Or.inr ⟨acc, hacc3, by omega⟩) (Or.inl hamt)
          rw [hres] at hmain
          simpa [hres] using hmain
        · next hge =>
          rcases hres : addMoney faults s3 args.toAccountID args.amount
              args.fromAccountID (-args.amount) with ⟨⟨ta, fa, oe⟩, s4⟩
          have hmain := addMoney_nonneg faults s3 args.toAccountID args.amount
            args.fromAccountID (-args.amount) (Ne.symm hne) hn3 hb3
            (Or.inl hamt) (Or.inr ⟨acc, hacc3, by omega⟩)
          rw [hres] at hmain
          simpa [hres] using hmain

/-- `TopUpTx` preserves non-negative balances (and the ext-row id bound)
under every fault schedule, for non-negative top-up amounts. -/
theorem TopUpTx_nonneg (faults : Nat → Bool) (db : DB) (arg : TopUpTxParams)
    (hn : nonnegBalances db) (hb : extIDBound db) (hamt : 0 ≤ arg.amount) :
    nonnegBalances (TopUpTx faults db arg).2 ∧
      extIDBound (TopUpTx faults db arg).2 := by
  have hQ : ∀ {β : Type} (run : DB → Except DBErr (β × DB)),
      (∀ (d : DB) (x : β) (d' : DB), run d = .ok (x, d') →
        d'.accounts = d.accounts ∧ d'.externalTransfers = d.externalTransfers ∧
          d'.nextExtID = d.nextExtID) →
      ∀ {r : Except DBErr β} {s s' : DB × Nat}, call run faults s = (r, s') →
      nonnegBalances s.1 ∧ extIDBound s.1 →
      nonnegBalances s'.1 ∧ extIDBound s'.1 := by
    intro β run hrun r s s' heq hQs
    refine call_preserves run (fun d => nonnegBalances d ∧ extIDBound d)
      ?_ faults s r s' heq hQs
    intro d x d' hok hd
    obtain ⟨h1, h2, h3⟩ := hrun d x d' hok
    exact ⟨nonnegBalances_congr h1 hd.1, extIDBound_congr h2 h3 hd.2⟩
  unfold TopUpTx
  split
  · next e x heq => exact ⟨hn, hb⟩
  · next acc0 s1 heq1 =>
    have hQ1 := hQ _ (fun d x d' hok => by
      rw [show d' = d from getAccountRun_ok_eq hok]
      exact ⟨rfl, rfl, rfl⟩) heq1 ⟨hn, hb⟩
    split
    · next e x heq => exact ⟨hn, hb⟩
    · next transfer s2 heq2 =>
      have hQ2 := hQ _ (fun d x d' hok => createTransferRun_ok_fields hok)
        heq2 hQ1
      split
      · next e x heq => exact ⟨hn, hb⟩
      · next entry s3 heq3 =>
        have hQ3 := hQ _ (fun d x d' hok => createEntryRun_ok_fields hok)
          heq3 hQ2
        split
        · next e x heq => exact ⟨hn, hb⟩
        · next account s4 heq4 =>
          have hrun4 := call_ok_run _ _ _ heq4
          unfold topUpAccountRun at hrun4
          refine ⟨addAccountBalanceRun_nonneg hQ3.1 (Or.inl hamt) hrun4, ?_⟩
          obtain ⟨hext, hnext⟩ := addAccountBalanceRun_ok_fields hrun4
          exact extIDBound_congr hext hnext hQ3.2

theorem call_getAccount_state (i : Int) (faults : Nat → Bool) (s : DB × Nat) :
    ((call (getAccountRun i) faults s).2).1 = s.1 := by
  rcases call_cases (getAccountRun i) faults s with h | ⟨x, hx⟩
  · exact h
  · exact getAccountRun_ok_eq hx

theorem validAccount_state (faults : Nat → Bool) (s : DB × Nat) (i : Int)
    (c : String) : ((validAccount faults s i c).2).1 = s.1 := by
  have hcall := call_getAccount_state i faults s
  unfold validAccount
  split
  · next s' heq => rw [heq] at hcall; exact hcall
  · next s' e heq => rw [heq] at hcall; exact hcall
  · next account s' heq =>
      rw [heq] at hcall
      split <;> exact hcall

theorem senderHasBalance_state (faults : Nat → Bool) (s : DB × Nat)
    (i amt : Int) : ((senderHasBalance faults s i amt).2).1 = s.1 := by
  have hcall := call_getAccount_state i faults s
  unfold senderHasBalance
  split
  · next s' heq => rw [heq] at hcall; exact hcall
  · next s' e heq => rw [heq] at hcall; exact hcall
  · next account s' heq =>
      rw [heq] at hcall
      split <;> exact hcall

theorem senderHasBalance_ok (faults : Nat → Bool) (s : DB × Nat) (i amt : Int)
    {r : Unit} {s' : DB × Nat}
    (h : senderHasBalance faults s i amt = (.ok r, s')) :
    ∃ acc, findAccount s.1 i = some acc ∧ amt < acc.balance := by
  unfold senderHasBalance at h
  split at h
  · simp at h
  · simp at h
  · next account s'' heq =>
      obtain ⟨-, hfind⟩ := call_getAccount_ok heq
      split at h
      · simp at h
      · next hbal => exact ⟨account, hfind, by omega⟩

/-- The internal-transfer endpoint preserves non-negative balances and the
ext-row id bound under every fault schedule. -/
theorem CreateTransfer_nonneg (faults : Nat → Bool) (db : DB)
    (req : transferRequest) (hn : nonnegBalances db) (hb : extIDBound db) :
    nonnegBalances (CreateTransfer faults db req).2 ∧
      extIDBound (CreateTransfer faults db req).2 := by
  unfold CreateTransfer
  split
  · exact ⟨hn, hb⟩
  · next hbind =>
    have hamt : 1 ≤ req.amount := by
      simp only [Bool.not_eq_true', Bool.not_eq_false] at hbind
      simp only [transferRequest.validBinding, Bool.and_eq_true,
        decide_eq_true_eq] at hbind
      exact hbind.1.2
    split
    · next e s heq =>
        have hs := validAccount_state faults (db, 0) req.fromAccountID req.currency
        rw [heq] at hs
        rw [hs]
        exact ⟨hn, hb⟩
    · next a1 s1 heq1 =>
      have hs1 : s1.1 = db := by
        have hs := validAccount_state faults (db, 0) req.fromAccountID req.currency
        rw [heq1] at hs
        exact hs
      split
      · next e s heq =>
          have hs := validAccount_state faults s1 req.toAccountID req.currency
          rw [heq] at hs
          rw [hs, hs1]
          exact ⟨hn, hb⟩
      · next a2 s2 heq2 =>
        have hs2 : s2.1 = db := by
          have hs := validAccount_state faults s1 req.toAccountID req.currency
          rw [heq2] at hs
          rw [hs, hs1]
        split
        · rw [hs2]; exact ⟨hn, hb⟩
        · next hself =>
          have hne : req.fromAccountID ≠ req.toAccountID := by
            simpa using hself
          split
          · next e s heq =>
              have hs := senderHasBalance_state faults s2 req.fromAccountID
                req.amount
              rw [heq] at hs
              rw [hs, hs2]
              exact ⟨hn, hb⟩
          · next u s3 heq3 =>
            have hs3 : s3.1 = db := by
              have hs := senderHasBalance_state faults s2 req.fromAccountID
                req.amount
              rw [heq3] at hs
              rw [hs, hs2]
            obtain ⟨acc, hacc, hlt⟩ := senderHasBalance_ok faults s2
              req.fromAccountID req.amount heq3
            rw [hs2] at hacc
            have hmain := TransferTx_nonneg (fun k => faults (k + s3.2)) s3.1
              ⟨req.fromAccountID, req.toAccountID, req.amount⟩
              (by rw [hs3]; exact hn) (by rw [hs3]; exact hb) hne
              (by show (0:Int) ≤ req.amount; omega)
              ⟨acc, by rw [hs3]; exact hacc,
                by show req.amount ≤ acc.balance; omega⟩
            split
            · next e db' heqT => rw [heqT] at hmain; exact hmain
            · next r db' heqT => rw [heqT] at hmain; exact hmain

/-- The top-up endpoint preserves non-negative balances and the ext-row id
bound under every fault schedule. -/
theorem topUpAccount_nonneg (authUser : String) (faults : Nat → Bool)
    (db : DB) (req : topUpAccountRequest)
    (hn : nonnegBalances db) (hb : extIDBound db) :
    nonnegBalances (topUpAccount authUser faults db req).2 ∧
      extIDBound (topUpAccount authUser faults db req).2 := by
  unfold topUpAccount
  split
  · exact ⟨hn, hb⟩
  · next hbind =>
    have hamt : 1 ≤ req.amount := by
      simp only [Bool.not_eq_true', Bool.not_eq_false] at hbind
      simp only [topUpAccountRequest.validBinding, Bool.and_eq_true,
        decide_eq_true_eq] at hbind
      exact hbind.1.2
    have hcall := call_getAccount_state req.accountID faults (db, 0)
    split
    · next s heq => rw [heq] at hcall; rw [hcall]; exact ⟨hn, hb⟩
    · next s e heq => rw [heq] at hcall; rw [hcall]; exact ⟨hn, hb⟩
    · next account s0 heq0 =>
      rw [heq0] at hcall
      split
      · rw [hcall]; exact ⟨hn, hb⟩
      · split
        · rw [hcall]; exact ⟨hn, hb⟩
        · have hmain := TopUpTx_nonneg (fun k => faults (k + s0.2)) s0.1
            ⟨req.accountID, req.amount⟩ (by rw [hcall]; exact hn)
            (by rw [hcall]; exact hb) (by show (0:Int) ≤ req.amount; omega)
          split
          · next e db' heqT => rw [heqT] at hmain; exact hmain
          · next r db' heqT => rw [heqT] at hmain; exact hmain

/-- The external-transfer endpoint preserves non-negative balances and the
ext-row id bound under every fault schedule and gateway behaviour: the only
balance mutation is the debit, guarded by the balance check, and the row
updates never touch accounts. -/
theorem CreateExternalTransfer_nonneg (provider : String → Option BankAPI)
    (authUser reference : String) (faults : Nat → Bool) (db : DB)
    (req : externalTransferRequest)
    (hn : nonnegBalances db) (hb : extIDBound db) :
    nonnegBalances
        (CreateExternalTransfer provider authUser reference faults db req).2 ∧
      extIDBound
        (CreateExternalTransfer provider authUser reference faults db req).2 := by
  have hupd : ∀ (p : UpdateExternalTransferStatusParams) (d : DB)
      (x : ExternalTransfer) (d' : DB),
      updateExternalTransferStatusRun p d = .ok (x, d') →
      (nonnegBalances d ∧ extIDBound d) → (nonnegBalances d' ∧ extIDBound d') := by
    intro p d x d' hok hd
    obtain ⟨hA, hN, hB⟩ := updateExternalTransferStatusRun_ok_fields hok
    exact ⟨nonnegBalances_congr hA hd.1, hB hd.2⟩
  unfold CreateExternalTransfer
  split
  · exact ⟨hn, hb⟩
  · next hbind =>
    have hcall := call_getAccount_state req.fromAccountID faults (db, 0)
    split
    · next s heq => rw [heq] at hcall; rw [hcall]; exact ⟨hn, hb⟩
    · next s e heq => rw [heq] at hcall; rw [hcall]; exact ⟨hn, hb⟩
    · next account s0 heq0 =>
      rw [heq0] at hcall
      obtain ⟨-, hfind0⟩ := call_getAccount_ok heq0
      have hkey0 : account.id = req.fromAccountID := findAccount_key_eq hfind0
      split
      · rw [hcall]; exact ⟨hn, hb⟩
      · split
        · rw [hcall]; exact ⟨hn, hb⟩
        · split
          · rw [hcall]; exact ⟨hn, hb⟩
          · next hbal =>
            split
            · rw [hcall]; exact ⟨hn, hb⟩
            · next bankAPI hprov =>
              split
              · rw [hcall]; exact ⟨hn, hb⟩
              · rw [hcall]; exact ⟨hn, hb⟩
              · next recipientName hval =>
                split
                · next s heq =>
                    have hs := call_error_state _ _ _ heq
                    rw [hs, hcall]; exact ⟨hn, hb⟩
                · next transfer0 s1 heq1 =>
                  have hrun1 := call_ok_run _ _ _ heq1
                  have hQ1 : s1.1.accounts = db.accounts ∧ extIDBound s1.1 := by
                    obtain ⟨hA, hB⟩ := createExternalTransferRun_ok_fields hrun1
                    refine ⟨hA.trans (by rw [hcall]), hB ?_⟩
                    rw [hcall]; exact hb
                  unfold createExternalTransferRun at hrun1
                  simp only [Except.ok.injEq, Prod.mk.injEq] at hrun1
                  obtain ⟨ht0, hs1⟩ := hrun1
                  split
                  · next s heq =>
                      have hs := call_error_state _ _ _ heq
                      rw [hs]
                      exact ⟨nonnegBalances_congr hQ1.1 hn, hQ1.2⟩
                  · next transfer s2 heq2 =>
                    have hrun2 := call_ok_run _ _ _ heq2
                    have hQ2 : s2.1.accounts = db.accounts ∧ extIDBound s2.1 := by
                      obtain ⟨hA, hN, hB⟩ :=
                        updateExternalTransferStatusRun_ok_fields hrun2
                      exact ⟨hA.trans hQ1.1, hB hQ1.2⟩
                    have hfindE : findExternalTransfer s1.1 transfer0.id =
                        some transfer0 := by
                      rw [← hs1, ← ht0]
                      unfold findExternalTransfer
                      refine find?_append_fresh (fun t : ExternalTransfer => t.id)
                        _ ?_ rfl
                      intro x hx
                      have hxlt : x.id < s0.1.nextExtID := by
                        have hbb : extIDBound s0.1 := by rw [hcall]; exact hb
                        exact hbb x hx
                      show x.id ≠ s0.1.nextExtID
                      omega
                    unfold updateExternalTransferStatusRun at hrun2
                    rw [hfindE] at hrun2
                    simp only [Except.ok.injEq, Prod.mk.injEq] at hrun2
                    obtain ⟨htr, hs2⟩ := hrun2
                    have hamtEq : transfer.amount = req.amount := by
                      rw [← htr, ← ht0]
                    split
                    · next e heqg =>
                        rcases h3 : call (updateExternalTransferStatusRun
                            { id := transfer.id, status := "failed",
                              transactionID := none, transactionFees := none,
                              errorMessage := some (classifyGatewayErr e) })
                            faults s2 with ⟨r3, s3⟩
                        simp only [h3]
                        exact call_preserves _
                          (fun d => nonnegBalances d ∧ extIDBound d)
                          (fun d x d' hok hd => hupd _ d x d' hok hd)
                          faults s2 r3 s3 h3
                          ⟨nonnegBalances_congr hQ2.1 hn, hQ2.2⟩
                    · next transferResp heqg =>
                      generalize (if (transferResp.transactionID == "") = true
                          then none else some transferResp.transactionID) = tidOpt
                      generalize (if 0 < transferResp.transactionFees
                          then some transferResp.transactionFees else none) = feesOpt
                      split
                      · next s3 heq3 =>
                          have hs3 := call_error_state _ _ _ heq3
                          rcases h4 : call (updateExternalTransferStatusRun
                              { id := transfer.id, status := "failed",
                                transactionID := none, transactionFees := none,
                                errorMessage := some "Failed to deduct balance" })
                              faults s3 with ⟨r4, s4⟩
                          simp only [h4]
                          refine call_preserves _
                            (fun d => nonnegBalances d ∧ extIDBound d)
                            (fun d x d' hok hd => hupd _ d x d' hok hd)
                            faults s3 r4 s4 h4 ?_
                          rw [hs3]
                          exact ⟨nonnegBalances_congr hQ2.1 hn, hQ2.2⟩
                      · next x3 s3 heq3 =>
                        have hrun3 := call_ok_run _ _ _ heq3
                        have hn3 : nonnegBalances s3.1 := by
                          refine addAccountBalanceRun_nonneg
                            (nonnegBalances_congr hQ2.1 hn) ?_ hrun3
                          refine Or.inr ⟨account, ?_, ?_⟩
                          · rw [findAccount_congr hQ2.1, hkey0]
                            exact hfind0
                          · rw [hamtEq]
                            omega
                        have hb3 : extIDBound s3.1 := by
                          obtain ⟨hext, hnext⟩ := addAccountBalanceRun_ok_fields
                            hrun3
                          exact extIDBound_congr hext hnext hQ2.2
                        split
                        · next s4 heq4 =>
                            have hs4 := call_error_state _ _ _ heq4
                            have hn4 : nonnegBalances s4.1 := by rw [hs4]; exact hn3
                            have hb4 : extIDBound s4.1 := by rw [hs4]; exact hb3
                            rcases h5 : call (updateExternalTransferStatusRun
                                { id := transfer.id, status := "completed",
                                  transactionID := tidOpt,
                                  transactionFees := feesOpt,
                                  errorMessage := none }) faults
                                ({ s4.1 with logs := s4.1.logs ++
                                  ["Failed to create entry for external transfer"] },
                                  s4.2) with ⟨r5, s5⟩
                            rcases r5 with e5 | t5 <;>
                              simp only [h5] <;>
                              exact call_preserves _
                                (fun d => nonnegBalances d ∧ extIDBound d)
                                (fun d x d' hok hd => hupd _ d x d' hok hd)
                                faults _ _ s5 h5
                                ⟨nonnegBalances_congr rfl hn4,
                                 extIDBound_congr rfl rfl hb4⟩
                        · next e4 s4 heq4 =>
                            have hQ4 : nonnegBalances s4.1 ∧ extIDBound s4.1 := by
                              have hrun4 := call_ok_run _ _ _ heq4
                              obtain ⟨hA, hE, hN⟩ := createEntryRun_ok_fields hrun4
                              exact ⟨nonnegBalances_congr hA hn3,
                                extIDBound_congr hE hN hb3⟩
                            rcases h5 : call (updateExternalTransferStatusRun
                                { id := transfer.id, status := "completed",
                                  transactionID := tidOpt,
                                  transactionFees := feesOpt,
                                  errorMessage := none }) faults s4 with ⟨r5, s5⟩
                            rcases r5 with e5 | t5 <;>
                              simp only [h5] <;>
                              exact call_preserves _
                                (fun d => nonnegBalances d ∧ extIDBound d)
                                (fun d x d' hok hd => hupd _ d x d' hok hd)
                                faults s4 _ s5 h5 hQ4

theorem applyOp_preserves (faults : Nat → Bool) (db : DB) (op : Op)
    (hn : nonnegBalances db) (hb : extIDBound db) :
    nonnegBalances (applyOp faults db op) ∧ extIDBound (applyOp faults db op) := by
  cases op with
  | internal req => exact CreateTransfer_nonneg faults db req hn hb
  | topUp authUser req => exact topUpAccount_nonneg authUser faults db req hn hb
  | external provider authUser reference req =>
      exact CreateExternalTransfer_nonneg provider authUser reference faults db
        req hn hb

/-- A successful internal transfer implies the sender covered the amount
strictly — overdrawing attempts never reach the success path. -/
theorem CreateTransfer_ok_balance (faults : Nat → Bool) (d : DB)
    (req : transferRequest) (r : TransferTxResult) (db' : DB)
    (h : CreateTransfer faults d req = (.ok r, db')) :
    ∃ a, findAccount d req.fromAccountID = some a ∧ req.amount < a.balance := by
  unfold CreateTransfer at h
  split at h
  · simp at h
  · split at h
    · simp at h
    · next a1 s1 heq1 =>
      split at h
      · simp at h
      · next a2 s2 heq2 =>
        split at h
        · simp at h
        · split at h
          · simp at h
          · next u s3 heq3 =>
            have hs1 : s1.1 = d := by
              have hs := validAccount_state faults (d, 0) req.fromAccountID
                req.currency
              rw [heq1] at hs
              exact hs
            have hs2 : s2.1 = d := by
              have hs := validAccount_state faults s1 req.toAccountID
                req.currency
              rw [heq2] at hs
              rw [hs, hs1]
            obtain ⟨acc, hacc, hlt⟩ := senderHasBalance_ok faults s2
              req.fromAccountID req.amount heq3
            rw [hs2] at hacc
            exact ⟨acc, hacc, hlt⟩

/-! ## C6 — balances never negative after committed operations -/

/-- **C6.**  Starting from any store whose balances are non-negative (with
the ext-row primary-key bound), every sequence of committed caller-facing
operations — internal transfers, top-ups, external transfers, each under an
arbitrary fault schedule — leaves every account's balance non-negative; and
an internal transfer succeeds only when the sender's balance strictly
covered the amount, so overdrawing attempts are rejected before any commit. -/
theorem balances_never_negative (ops : List (Op × (Nat → Bool))) (db : DB)
    (hn : nonnegBalances db) (hb : extIDBound db) :
    nonnegBalances (ops.foldl (fun d p => applyOp p.2 d p.1) db) ∧
    (∀ (faults : Nat → Bool) (req : transferRequest) (r : TransferTxResult)
      (db' : DB), CreateTransfer faults db req = (.ok r, db') →
      ∃ a, findAccount db req.fromAccountID = some a ∧
        req.amount < a.balance) := by
  constructor
  · have main : ∀ (l : List (Op × (Nat → Bool))) (d : DB),
        nonnegBalances d → extIDBound d →
        nonnegBalances (l.foldl (fun d p => applyOp p.2 d p.1) d) ∧
          extIDBound (l.foldl (fun d p => applyOp p.2 d p.1) d) := by
      intro l
      induction l with
      | nil => intro d hn' hb'; exact ⟨hn', hb'⟩
      | cons p rest ih =>
          intro d hn' hb'
          simp only [List.foldl_cons]
          have hstep := applyOp_preserves p.2 d p.1 hn' hb'
          exact ih _ hstep.1 hstep.2
    exact (main ops db hn hb).1
  · intro faults req r db' h
    exact CreateTransfer_ok_balance faults db req r db' h

/-- **C6 witness.**  The hypotheses hold of the concrete two-account store,
and the theorem applies to a concrete committed sequence: an internal
transfer, a top-up and an external transfer. -/
theorem balances_never_negative_witness :
    nonnegBalances dbA ∧ extIDBound dbA ∧
      nonnegBalances
        ([((Op.internal ⟨1, 2, 30, "ETB"⟩), noFaults),
          ((Op.topUp "alice" ⟨1, 10, "ETB"⟩), noFaults),
          ((Op.external (provCBE gwOK) "alice" "NEXT-ref" extReqA), noFaults)].foldl
          (fun d p => applyOp p.2 d p.1) dbA) :=
  ⟨by decide, by decide,
    (balances_never_negative _ dbA (by decide) (by decide)).1⟩

/-! ## C8 — TopUpTx -/

theorem TopUpTx_ok_effects (db : DB) (accountID amount : Int) (a : Account)
    (hfind : findAccount db accountID = some a) :
    TopUpTx noFaults db ⟨accountID, amount⟩ =
      (.ok ⟨⟨db.nextTransferID, 0, accountID, amount⟩,
            { a with balance := a.balance + amount },
            ⟨db.nextEntryID, accountID, amount⟩⟩,
       { db with
         accounts := db.accounts.map
           (fun b => if b.id == accountID then
              { a with balance := a.balance + amount } else b),
         entries := db.entries ++ [⟨db.nextEntryID, accountID, amount⟩],
         transfers := db.transfers ++ [⟨db.nextTransferID, 0, accountID, amount⟩],
         nextEntryID := db.nextEntryID + 1,
         nextTransferID := db.nextTransferID + 1,
         events := db.events ++ [.balanceAdj accountID amount] }) := by
  have c0 : call (getAccountForUpdateRun accountID) noFaults (db, 0) =
      (.ok a, (db, 1)) := by
    unfold call noFaults getAccountForUpdateRun
    rw [getAccountRun_eq_some hfind]
    rfl
  have c1 : call (createTransferRun 0 accountID amount) noFaults (db, 1) =
      (.ok ⟨db.nextTransferID, 0, accountID, amount⟩,
        ({ db with
           transfers := db.transfers ++ [⟨db.nextTransferID, 0, accountID, amount⟩],
           nextTransferID := db.nextTransferID + 1 }, 2)) := by
    unfold call noFaults
    rw [createTransferRun_eq]
    rfl
  have c2 : call (createEntryRun accountID amount) noFaults
      (({ db with
          transfers := db.transfers ++ [⟨db.nextTransferID, 0, accountID, amount⟩],
          nextTransferID := db.nextTransferID + 1 } : DB), 2) =
      (.ok ⟨db.nextEntryID, accountID, amount⟩,
        ({ db with
           entries := db.entries ++ [⟨db.nextEntryID, accountID, amount⟩],
           transfers := db.transfers ++ [⟨db.nextTransferID, 0, accountID, amount⟩],
           nextEntryID := db.nextEntryID + 1,
           nextTransferID := db.nextTransferID + 1 }, 3)) := by
    unfold call noFaults
    rw [createEntryRun_eq]
    rfl
  have hfind2 : findAccount ({ db with
      entries := db.entries ++ [⟨db.nextEntryID, accountID, amount⟩],
      transfers := db.transfers ++ [⟨db.nextTransferID, 0, accountID, amount⟩],
      nextEntryID := db.nextEntryID + 1,
      nextTransferID := db.nextTransferID + 1 } : DB) accountID = some a := hfind
  have c3 : call (topUpAccountRun accountID amount) noFaults
      (({ db with
          entries := db.entries ++ [⟨db.nextEntryID, accountID, amount⟩],
          transfers := db.transfers ++ [⟨db.nextTransferID, 0, accountID, amount⟩],
          nextEntryID := db.nextEntryID + 1,
          nextTransferID := db.nextTransferID + 1 } : DB), 3) =
      (.ok ({ a with balance := a.balance + amount }),
        ({ db with
           accounts := db.accounts.map
             (fun b => if b.id == accountID then
                { a with balance := a.balance + amount } else b),
           entries := db.entries ++ [⟨db.nextEntryID, accountID, amount⟩],
           transfers := db.transfers ++ [⟨db.nextTransferID, 0, accountID, amount⟩],
           nextEntryID := db.nextEntryID + 1,
           nextTransferID := db.nextTransferID + 1,
           events := db.events ++ [.balanceAdj accountID amount] }, 4)) := by
    unfold call noFaults topUpAccountRun
    rw [addAccountBalanceRun_eq_some amount hfind2]
    rfl
  unfold TopUpTx
  simp only [c0, c1, c2, c3]

theorem findAccount_after_topup (db : DB) (accountID amount : Int) (a : Account)
    (hfind : findAccount db accountID = some a) :
    findAccount (TopUpTx noFaults db ⟨accountID, amount⟩).2 accountID =
      some { a with balance := a.balance + amount } := by
  have hkey : a.id = accountID := findAccount_key_eq hfind
  rw [TopUpTx_ok_effects db accountID amount a hfind]
  unfold findAccount at hfind ⊢
  exact find?_map_update_self (fun b : Account => b.id) _ hfind (by simp [hkey])

theorem TopUpTx_rollback (faults : Nat → Bool) (db : DB) (arg : TopUpTxParams) :
    (TopUpTx faults db arg).1.isOk = true ∨ (TopUpTx faults db arg).2 = db := by
  unfold TopUpTx
  split
  · right; rfl
  · split
    · right; rfl
    · split
      · right; rfl
      · split
        · right; rfl
        · left; rfl

theorem TopUpTx_iterate (accountID amount : Int) : ∀ (n : Nat) (db : DB)
    (a : Account), findAccount db accountID = some a →
    findAccount ((fun d => (TopUpTx noFaults d ⟨accountID, amount⟩).2)^[n] db)
        accountID = some { a with balance := a.balance + n * amount } ∧
    ((fun d => (TopUpTx noFaults d ⟨accountID, amount⟩).2)^[n] db).entries.length
        = db.entries.length + n ∧
    ((fun d => (TopUpTx noFaults d ⟨accountID, amount⟩).2)^[n] db).transfers.length
        = db.transfers.length + n := by
  intro n
  induction n with
  | zero =>
      intro db a hfind
      refine ⟨?_, by simp, by simp⟩
      simp only [Function.iterate_zero, id_eq, hfind, Nat.cast_zero, zero_mul,
        add_zero]
  | succ n ih =>
      intro db a hfind
      have hstep := TopUpTx_ok_effects db accountID amount a hfind
      have hfind' : findAccount (TopUpTx noFaults db ⟨accountID, amount⟩).2
          accountID = some { a with balance := a.balance + amount } :=
        findAccount_after_topup db accountID amount a hfind
      obtain ⟨ihf, ihe, iht⟩ := ih ((TopUpTx noFaults db ⟨accountID, amount⟩).2)
        { a with balance := a.balance + amount } hfind'
      refine ⟨?_, ?_, ?_⟩
      · rw [Function.iterate_succ_apply]
        rw [ihf]
        simp only [Option.some.injEq, Account.mk.injEq, true_and, and_true]
        push_cast
        ring
      · rw [Function.iterate_succ_apply]
        rw [ihe, hstep]
        simp only [List.length_append, List.length_singleton]
        omega
      · rw [Function.iterate_succ_apply]
        rw [iht, hstep]
        simp only [List.length_append, List.length_singleton]
        omega

/-- **C8.**  For an existing account and `amount > 0`, `TopUpTx` runs as one
atomic transaction: the fault-free run creates a Transfer with the external
funding sentinel `0` as `FromAccountID` and the account as `ToAccountID`,
creates one credit Entry of `+amount`, raises the balance by exactly
`amount`, and returns `{Transfer, post-balance Account, Entry}`; any failed
run leaves the store untouched; and `N` sequential top-ups of `M` raise the
balance by exactly `N×M`, adding `N` Entries and `N` Transfers. -/
theorem TopUpTx_spec (db : DB) (accountID amount : Int) (a : Account)
    (hfind : findAccount db accountID = some a) (hamt : 0 < amount) :
    (TopUpTx noFaults db ⟨accountID, amount⟩).1 =
      .ok ⟨⟨db.nextTransferID, 0, accountID, amount⟩,
           { a with balance := a.balance + amount },
           ⟨db.nextEntryID, accountID, amount⟩⟩ ∧
    (TopUpTx noFaults db ⟨accountID, amount⟩).2.entries =
      db.entries ++ [⟨db.nextEntryID, accountID, amount⟩] ∧
    (TopUpTx noFaults db ⟨accountID, amount⟩).2.transfers =
      db.transfers ++ [⟨db.nextTransferID, 0, accountID, amount⟩] ∧
    findAccount (TopUpTx noFaults db ⟨accountID, amount⟩).2 accountID =
      some { a with balance := a.balance + amount } ∧
    (∀ faults : Nat → Bool,
      (TopUpTx faults db ⟨accountID, amount⟩).1.isOk = false →
      (TopUpTx faults db ⟨accountID, amount⟩).2 = db) ∧
    (∀ n : Nat,
      findAccount ((fun d => (TopUpTx noFaults d ⟨accountID, amount⟩).2)^[n] db)
          accountID = some { a with balance := a.balance + n * amount } ∧
      ((fun d => (TopUpTx noFaults d ⟨accountID, amount⟩).2)^[n] db).entries.length
          = db.entries.length + n ∧
      ((fun d => (TopUpTx noFaults d ⟨accountID, amount⟩).2)^[n] db).transfers.length
          = db.transfers.length + n) := by
  have hstep := TopUpTx_ok_effects db accountID amount a hfind
  refine ⟨by rw [hstep], by rw [hstep], by rw [hstep],
    findAccount_after_topup db accountID amount a hfind, ?_, ?_⟩
  · intro faults hfalse
    rcases TopUpTx_rollback faults db ⟨accountID, amount⟩ with h | h
    · rw [h] at hfalse; simp at hfalse
    · exact h
  · intro n
    exact TopUpTx_iterate accountID amount n db a hfind

/-- **C8 witness.**  Concrete instance: account 1 of the two-account store,
topped up by 25. -/
theorem TopUpTx_spec_witness :
    findAccount dbA 1 = some ⟨1, "alice", 100, "ETB"⟩ ∧ (0:Int) < 25 ∧
      (TopUpTx noFaults dbA ⟨1, 25⟩).1 =
        .ok ⟨⟨1, 0, 1, 25⟩, ⟨1, "alice", 125, "ETB"⟩, ⟨1, 1, 25⟩⟩ :=
  ⟨by decide, by decide,
    (TopUpTx_spec dbA 1 25 ⟨1, "alice", 100, "ETB"⟩ (by decide) (by decide)).1⟩

/-! ## C9 — balance mutations in ascending account-id order -/

theorem addMoney_events (s : DB × Nat) (i1 d1 i2 d2 : Int) (a b : Account)
    (hfa : findAccount s.1 i1 = some a) (hfb : findAccount s.1 i2 = some b)
    (h12 : i1 ≠ i2) :
    (addMoney noFaults s i1 d1 i2 d2).2.1.events =
      s.1.events ++ [.balanceAdj i1 d1, .balanceAdj i2 d2] := by
  have hkeya : a.id = i1 := findAccount_key_eq hfa
  have c1 : call (addAccountBalanceRun i1 d1) noFaults s =
      (.ok ({ a with balance := a.balance + d1 }),
        ({ s.1 with
           accounts := s.1.accounts.map
             (fun c => if c.id == i1 then { a with balance := a.balance + d1 }
                       else c),
           events := s.1.events ++ [.balanceAdj i1 d1] }, s.2 + 1)) := by
    unfold call noFaults
    rw [addAccountBalanceRun_eq_some d1 hfa]
    rfl
  have hfb' : findAccount ({ s.1 with
      accounts := s.1.accounts.map
        (fun c => if c.id == i1 then { a with balance := a.balance + d1 }
                  else c),
      events := s.1.events ++ [.balanceAdj i1 d1] } : DB) i2 = some b := by
    unfold findAccount at hfb ⊢
    rw [find?_map_update_ne (fun c : Account => c.id) s.1.accounts _ h12
      (by simp [hkeya])]
    exact hfb
  have c2 : call (addAccountBalanceRun i2 d2) noFaults
      (({ s.1 with
          accounts := s.1.accounts.map
            (fun c => if c.id == i1 then { a with balance := a.balance + d1 }
                      else c),
          events := s.1.events ++ [.balanceAdj i1 d1] } : DB), s.2 + 1) =
      (.ok ({ b with balance := b.balance + d2 }),
        ({ s.1 with
           accounts := (s.1.accounts.map
             (fun c => if c.id == i1 then { a with balance := a.balance + d1 }
                       else c)).map
             (fun c => if c.id == i2 then { b with balance := b.balance + d2 }
                       else c),
           events := (s.1.events ++ [.balanceAdj i1 d1]) ++ [.balanceAdj i2 d2] },
          s.2 + 1 + 1)) := by
    unfold call noFaults
    rw [addAccountBalanceRun_eq_some d2 hfb']
    rfl
  unfold addMoney
  simp only [c1, c2]
  simp [List.append_assoc]

/-- **C9.**  In every fault-free internal transfer between two distinct
existing accounts, the two balance mutations are applied in ascending order
of account id: the lower-numbered account is mutated first, regardless of
whether it is the debit or the credit side. -/
theorem TransferTx_mutation_order (db : DB) (args : TransferTxParams)
    (a b : Account)
    (hfa : findAccount db args.fromAccountID = some a)
    (hfb : findAccount db args.toAccountID = some b)
    (hne : args.fromAccountID ≠ args.toAccountID) :
    (TransferTx noFaults db args).2.events =
      db.events ++
        [Ev.balanceAdj (min args.fromAccountID args.toAccountID)
            (if args.fromAccountID < args.toAccountID then -args.amount
             else args.amount),
         Ev.balanceAdj (max args.fromAccountID args.toAccountID)
            (if args.fromAccountID < args.toAccountID then args.amount
             else -args.amount)] := by
  have c0 : call (createTransferRun args.fromAccountID args.toAccountID
      args.amount) noFaults (db, 0) =
      (.ok ⟨db.nextTransferID, args.fromAccountID, args.toAccountID, args.amount⟩,
        ({ db with
           transfers := db.transfers ++
             [⟨db.nextTransferID, args.fromAccountID, args.toAccountID,
               args.amount⟩],
           nextTransferID := db.nextTransferID + 1 }, 1)) := by
    unfold call noFaults
    rw [createTransferRun_eq]
    rfl
  have c1 : call (createEntryRun args.fromAccountID (-args.amount)) noFaults
      (({ db with
          transfers := db.transfers ++
            [⟨db.nextTransferID, args.fromAccountID, args.toAccountID,
              args.amount⟩],
          nextTransferID := db.nextTransferID + 1 } : DB), 1) =
      (.ok ⟨db.nextEntryID, args.fromAccountID, -args.amount⟩,
        ({ db with
           entries := db.entries ++
             [⟨db.nextEntryID, args.fromAccountID, -args.amount⟩],
           transfers := db.transfers ++
             [⟨db.nextTransferID, args.fromAccountID, args.toAccountID,
               args.amount⟩],
           nextEntryID := db.nextEntryID + 1,
           nextTransferID := db.nextTransferID + 1 }, 2)) := by
    unfold call noFaults
    rw [createEntryRun_eq]
    rfl
  have c2 : call (createEntryRun args.toAccountID args.amount) noFaults
      (({ db with
          entries := db.entries ++
            [⟨db.nextEntryID, args.fromAccountID, -args.amount⟩],
          transfers := db.transfers ++
            [⟨db.nextTransferID, args.fromAccountID, args.toAccountID,
              args.amount⟩],
          nextEntryID := db.nextEntryID + 1,
          nextTransferID := db.nextTransferID + 1 } : DB), 2) =
      (.ok ⟨db.nextEntryID + 1, args.toAccountID, args.amount⟩,
        ({ db with
           entries := (db.entries ++
             [⟨db.nextEntryID, args.fromAccountID, -args.amount⟩]) ++
             [⟨db.nextEntryID + 1, args.toAccountID, args.amount⟩],
           transfers := db.transfers ++
             [⟨db.nextTransferID, args.fromAccountID, args.toAccountID,
               args.amount⟩],
           nextEntryID := db.nextEntryID + 1 + 1,
           nextTransferID := db.nextTransferID + 1 }, 3)) := by
    unfold call noFaults
    rw [createEntryRun_eq]
    rfl
  unfold TransferTx
  simp only [c0, c1, c2]
  by_cases hlt : args.fromAccountID < args.toAccountID
  · rw [if_pos hlt]
    rcases haddm : addMoney noFaults
        (({ db with
            entries := (db.entries ++
              [⟨db.nextEntryID, args.fromAccountID, -args.amount⟩]) ++
              [⟨db.nextEntryID + 1, args.toAccountID, args.amount⟩],
            transfers := db.transfers ++
              [⟨db.nextTransferID, args.fromAccountID, args.toAccountID,
                args.amount⟩],
            nextEntryID := db.nextEntryID + 1 + 1,
            nextTransferID := db.nextTransferID + 1 } : DB), 3)
        args.fromAccountID (-args.amount) args.toAccountID args.amount
      with ⟨⟨fa, ta, oe⟩, s4⟩
    have hev := addMoney_events
      (({ db with
          entries := (db.entries ++
            [⟨db.nextEntryID, args.fromAccountID, -args.amount⟩]) ++
            [⟨db.nextEntryID + 1, args.toAccountID, args.amount⟩],
          transfers := db.transfers ++
            [⟨db.nextTransferID, args.fromAccountID, args.toAccountID,
              args.amount⟩],
          nextEntryID := db.nextEntryID + 1 + 1,
          nextTransferID := db.nextTransferID + 1 } : DB), 3)
      args.fromAccountID (-args.amount)
      args.toAccountID args.amount a b hfa hfb hne
    rw [haddm] at hev
    simp only [haddm]
    rw [hev, min_eq_left (le_of_lt hlt), max_eq_right (le_of_lt hlt),
      if_pos hlt, if_pos hlt]
  · rw [if_neg hlt]
    have hto : args.toAccountID < args.fromAccountID := by
      rcases lt_or_ge args.toAccountID args.fromAccountID with h | h
      · exact h
      · exact absurd (lt_of_le_of_ne h hne) hlt
    rcases haddm : addMoney noFaults
        (({ db with
            entries := (db.entries ++
              [⟨db.nextEntryID, args.fromAccountID, -args.amount⟩]) ++
              [⟨db.nextEntryID + 1, args.toAccountID, args.amount⟩],
            transfers := db.transfers ++
              [⟨db.nextTransferID, args.fromAccountID, args.toAccountID,
                args.amount⟩],
            nextEntryID := db.nextEntryID + 1 + 1,
            nextTransferID := db.nextTransferID + 1 } : DB), 3)
        args.toAccountID args.amount args.fromAccountID (-args.amount)
      with ⟨⟨ta, fa, oe⟩, s4⟩
    have hev := addMoney_events
      (({ db with
          entries := (db.entries ++
            [⟨db.nextEntryID, args.fromAccountID, -args.amount⟩]) ++
            [⟨db.nextEntryID + 1, args.toAccountID, args.amount⟩],
          transfers := db.transfers ++
            [⟨db.nextTransferID, args.fromAccountID, args.toAccountID,
              args.amount⟩],
          nextEntryID := db.nextEntryID + 1 + 1,
          nextTransferID := db.nextTransferID + 1 } : DB), 3)
      args.toAccountID args.amount
      args.fromAccountID (-args.amount) b a hfb hfa hne.symm
    rw [haddm] at hev
    simp only [haddm]
    rw [hev, min_eq_right (le_of_lt hto), max_eq_left (le_of_lt hto),
      if_neg hlt, if_neg hlt]

/-- **C9 witness.**  Transfer of 30 from account 2 to account 1: the credit
to the lower-numbered account 1 is applied first. -/
theorem TransferTx_mutation_order_witness :
    findAccount dbA 2 = some ⟨2, "bob", 50, "ETB"⟩ ∧
    findAccount dbA 1 = some ⟨1, "alice", 100, "ETB"⟩ ∧
      (TransferTx noFaults dbA ⟨2, 1, 30⟩).2.events =
        [Ev.balanceAdj 1 30, Ev.balanceAdj 2 (-30)] :=
  ⟨by decide, by decide, by
    have h := TransferTx_mutation_order dbA ⟨2, 1, 30⟩ ⟨2, "bob", 50, "ETB"⟩
      ⟨1, "alice", 100, "ETB"⟩ (by decide) (by decide) (by decide)
    simpa using h⟩

/-! ## C10 — hidden minimum-remaining-balance rule -/

/-- **C10.**  For an owned, existing account and a bound request
(`amount > 0`), the balance-validation endpoint reports the balance
sufficient exactly when `balance ≥ amount` AND `balance ≥ amount + 50`; a
request that the balance covers but that would leave fewer than 50 minor
units is rejected with the remaining-balance validation error; the endpoint
never mutates the store. -/
theorem validateUserAccountBalance_min_remaining (authUser : String) (db : DB)
    (req : validateUserAccountBalanceRequest) (a : Account)
    (hbind : req.validBinding = true)
    (hfind : findAccount db req.accountID = some a)
    (howner : a.owner = authUser) :
    ((validateUserAccountBalance authUser noFaults db req).1 = .ok () ↔
      req.amount ≤ a.balance ∧ req.amount + 50 ≤ a.balance) ∧
    (req.amount ≤ a.balance → a.balance < req.amount + 50 →
      (validateUserAccountBalance authUser noFaults db req).1 =
        .error (.badRequest "Remaining balance should be more than 50")) ∧
    (validateUserAccountBalance authUser noFaults db req).2 = db := by
  have c : call (getAccountRun req.accountID) noFaults (db, 0) =
      (.ok a, (db, 1)) := by
    unfold call noFaults
    rw [getAccountRun_eq_some hfind]
    rfl
  unfold validateUserAccountBalance
  rw [hbind]
  simp only [Bool.not_true, Bool.false_eq_true, if_false, c]
  rw [if_neg (show ¬(a.owner ≠ authUser) by simp [howner])]
  by_cases h1 : a.balance < req.amount
  · rw [if_pos h1]
    refine ⟨?_, ?_, rfl⟩
    · constructor
      · intro h; simp at h
      · rintro ⟨ha, -⟩; exfalso; omega
    · intro ha hb; exfalso; omega
  · rw [if_neg h1]
    by_cases h2 : a.balance < req.amount + 50
    · rw [if_pos h2]
      refine ⟨?_, fun _ _ => rfl, rfl⟩
      constructor
      · intro h; simp at h
      · rintro ⟨-, hb⟩; exfalso; omega
    · rw [if_neg h2]
      refine ⟨?_, ?_, rfl⟩
      · constructor
        · intro _; constructor <;> omega
        · intro _; rfl
      · intro ha hb; exfalso; omega

/-- **C10 witness.**  Account 1 (balance 100) with amount 60: the balance
covers the amount, but the 40 remaining is below 50, so the request is
rejected. -/
theorem validateUserAccountBalance_min_remaining_witness :
    validateUserAccountBalanceRequest.validBinding ⟨60, 1⟩ = true ∧
    findAccount dbA 1 = some ⟨1, "alice", 100, "ETB"⟩ ∧
    (validateUserAccountBalance "alice" noFaults dbA ⟨60, 1⟩).1 =
      .error (.badRequest "Remaining balance should be more than 50") :=
  ⟨by decide, by decide,
    (validateUserAccountBalance_min_remaining "alice" dbA ⟨60, 1⟩
      ⟨1, "alice", 100, "ETB"⟩ (by decide) (by decide) rfl).2.1
      (by decide) (by decide)⟩

/-! ## Fault-free runs of the external transfer flow -/

theorem map_update_id_p {α : Type} (key : α → Int)
    {l : List α} (a' : α) {i : Int} (h : ∀ x ∈ l, key x ≠ i) :
    (l.map fun b => if key b = i then a' else b) = l := by
  induction l with
  | nil => rfl
  | cons x xs ih =>
    rw [List.map_cons, if_neg (h x (List.mem_cons_self x xs)),
      ih (fun y hy => h y (List.mem_cons_of_mem x hy))]

theorem CreateExternalTransfer_gwErr_run (provider : String → Option BankAPI)
    (authUser reference : String) (db : DB) (req : externalTransferRequest)
    (bankAPI : BankAPI) (recipientName : String) (a : Account) (e : GatewayErr)
    (hbind : req.validBinding = true)
    (hfind : findAccount db req.fromAccountID = some a)
    (howner : a.owner = authUser)
    (hcurr : a.currency = req.currency)
    (hbal : req.amount ≤ a.balance)
    (hprov : provider req.toBankCode = some bankAPI)
    (hval : bankAPI.validateAccount req.toBankCode req.toAccountNumber =
      .ok recipientName)
    (hgw : ∀ treq, bankAPI.transferMoney treq = .error e)
    (hfresh : extIDBound db) :
    CreateExternalTransfer provider authUser reference noFaults db req =
      (.error (.badRequest (classifyGatewayErr e)),
       { db with
         externalTransfers := db.externalTransfers ++
           [⟨db.nextExtID, req.fromAccountID, req.toBankCode,
             req.toAccountNumber, recipientName, req.amount, req.currency,
             "failed", reference,
             (if req.description == "" then none else some req.description),
             none, some 0, some (classifyGatewayErr e)⟩],
         nextExtID := db.nextExtID + 1 }) := by
  have hne : ∀ x ∈ db.externalTransfers, x.id ≠ db.nextExtID := by
    intro x hx
    have := hfresh x hx
    omega
  have c0 : call (getAccountRun req.fromAccountID) noFaults (db, 0) =
      (.ok a, (db, 1)) := by
    unfold call noFaults
    rw [getAccountRun_eq_some hfind]
    rfl
  have c1 : call (createExternalTransferRun
      { fromAccountID := req.fromAccountID, toBankCode := req.toBankCode,
        toAccountNumber := req.toAccountNumber, recipientName := recipientName,
        amount := req.amount, currency := req.currency, reference := reference,
        description := if req.description == "" then none
                       else some req.description }) noFaults (db, 1) =
      (.ok ⟨db.nextExtID, req.fromAccountID, req.toBankCode,
          req.toAccountNumber, recipientName, req.amount, req.currency,
          "pending", reference,
          (if req.description == "" then none else some req.description),
          none, some 0, none⟩,
        ({ db with
           externalTransfers := db.externalTransfers ++
             [⟨db.nextExtID, req.fromAccountID, req.toBankCode,
               req.toAccountNumber, recipientName, req.amount, req.currency,
               "pending", reference,
               (if req.description == "" then none else some req.description),
               none, some 0, none⟩],
           nextExtID := db.nextExtID + 1 }, 2)) := by
    unfold call noFaults createExternalTransferRun
    rfl
  have hfindE1 : findExternalTransfer ({ db with
      externalTransfers := db.externalTransfers ++
        [⟨db.nextExtID, req.fromAccountID, req.toBankCode,
          req.toAccountNumber, recipientName, req.amount, req.currency,
          "pending", reference,
          (if req.description == "" then none else some req.description),
          none, some 0, none⟩],
      nextExtID := db.nextExtID + 1 } : DB) db.nextExtID =
      some ⟨db.nextExtID, req.fromAccountID, req.toBankCode,
        req.toAccountNumber, recipientName, req.amount, req.currency,
        "pending", reference,
        (if req.description == "" then none else some req.description),
        none, some 0, none⟩ := by
    unfold findExternalTransfer
    exact find?_append_fresh (fun t : ExternalTransfer => t.id) _ hne rfl
  have c2 : call (updateExternalTransferStatusRun
      { id := db.nextExtID, status := "processing", transactionID := none,
        transactionFees := none, errorMessage := none }) noFaults
      (({ db with
          externalTransfers := db.externalTransfers ++
            [⟨db.nextExtID, req.fromAccountID, req.toBankCode,
              req.toAccountNumber, recipientName, req.amount, req.currency,
              "pending", reference,
              (if req.description == "" then none else some req.description),
              none, some 0, none⟩],
          nextExtID := db.nextExtID + 1 } : DB), 2) =
      (.ok ⟨db.nextExtID, req.fromAccountID, req.toBankCode,
          req.toAccountNumber, recipientName, req.amount, req.currency,
          "processing", reference,
          (if req.description == "" then none else some req.description),
          none, some 0, none⟩,
        ({ db with
           externalTransfers := db.externalTransfers ++
             [⟨db.nextExtID, req.fromAccountID, req.toBankCode,
               req.toAccountNumber, recipientName, req.amount, req.currency,
               "processing", reference,
               (if req.description == "" then none else some req.description),
               none, some 0, none⟩],
           nextExtID := db.nextExtID + 1 }, 3)) := by
    unfold call noFaults updateExternalTransferStatusRun
    simp only [Bool.false_eq_true, if_false]
    rw [hfindE1]
    simp [List.map_append]
    exact map_update_id_p (fun t : ExternalTransfer => t.id) _ hne
  have hfindE2 : findExternalTransfer ({ db with
      externalTransfers := db.externalTransfers ++
        [⟨db.nextExtID, req.fromAccountID, req.toBankCode,
          req.toAccountNumber, recipientName, req.amount, req.currency,
          "processing", reference,
          (if req.description == "" then none else some req.description),
          none, some 0, none⟩],
      nextExtID := db.nextExtID + 1 } : DB) db.nextExtID =
      some ⟨db.nextExtID, req.fromAccountID, req.toBankCode,
        req.toAccountNumber, recipientName, req.amount, req.currency,
        "processing", reference,
        (if req.description == "" then none else some req.description),
        none, some 0, none⟩ := by
    unfold findExternalTransfer
    exact find?_append_fresh (fun t : ExternalTransfer => t.id) _ hne rfl
  have c3 : call (updateExternalTransferStatusRun
      { id := db.nextExtID, status := "failed", transactionID := none,
        transactionFees := none,
        errorMessage := some (classifyGatewayErr e) }) noFaults
      (({ db with
          externalTransfers := db.externalTransfers ++
            [⟨db.nextExtID, req.fromAccountID, req.toBankCode,
              req.toAccountNumber, recipientName, req.amount, req.currency,
              "processing", reference,
              (if req.description == "" then none else some req.description),
              none, some 0, none⟩],
          nextExtID := db.nextExtID + 1 } : DB), 3) =
      (.ok ⟨db.nextExtID, req.fromAccountID, req.toBankCode,
          req.toAccountNumber, recipientName, req.amount, req.currency,
          "failed", reference,
          (if req.description == "" then none else some req.description),
          none, some 0, some (classifyGatewayErr e)⟩,
        ({ db with
           externalTransfers := db.externalTransfers ++
             [⟨db.nextExtID, req.fromAccountID, req.toBankCode,
               req.toAccountNumber, recipientName, req.amount, req.currency,
               "failed", reference,
               (if req.description == "" then none else some req.description),
               none, some 0, some (classifyGatewayErr e)⟩],
           nextExtID := db.nextExtID + 1 }, 4)) := by
    unfold call noFaults updateExternalTransferStatusRun
    simp only [Bool.false_eq_true, if_false]
    rw [hfindE2]
    simp [List.map_append]
    exact map_update_id_p (fun t : ExternalTransfer => t.id) _ hne
  unfold CreateExternalTransfer
  rw [hbind]
  simp only [Bool.not_true, Bool.false_eq_true, if_false, c0]
  rw [if_neg (show ¬(a.owner ≠ authUser) by simp [howner])]
  rw [if_neg (show ¬(a.currency ≠ req.currency) by simp [hcurr])]
  rw [if_neg (show ¬(a.balance < req.amount) by omega)]
  unfold GetBankAPI
  rw [hprov]
  simp only [hval, c1, c2, hgw, c3]

theorem CreateExternalTransfer_gwOk_run (provider : String → Option BankAPI)
    (authUser reference : String) (db : DB) (req : externalTransferRequest)
    (bankAPI : BankAPI) (recipientName : String) (a : Account)
    (resp : TransferResponse)
    (hbind : req.validBinding = true)
    (hfind : findAccount db req.fromAccountID = some a)
    (howner : a.owner = authUser)
    (hcurr : a.currency = req.currency)
    (hbal : req.amount ≤ a.balance)
    (hprov : provider req.toBankCode = some bankAPI)
    (hval : bankAPI.validateAccount req.toBankCode req.toAccountNumber =
      .ok recipientName)
    (hgw : ∀ treq, bankAPI.transferMoney treq = .ok resp)
    (hfresh : extIDBound db) :
    CreateExternalTransfer provider authUser reference noFaults db req =
      (.ok ⟨db.nextExtID, req.fromAccountID, req.toBankCode,
          req.toAccountNumber, recipientName, req.amount, req.currency,
          "completed", reference,
          (if req.description == "" then none else some req.description),
          (if (resp.transactionID == "") = true then none
           else some resp.transactionID).orElse (fun _ => none),
          (if 0 < resp.transactionFees then some resp.transactionFees
           else none).orElse (fun _ => some 0),
          none⟩,
       { db with
         accounts := db.accounts.map
           (fun b => if b.id == a.id then
              { a with balance := a.balance + -req.amount } else b),
         entries := db.entries ++ [⟨db.nextEntryID, a.id, -req.amount⟩],
         externalTransfers := db.externalTransfers ++
           [⟨db.nextExtID, req.fromAccountID, req.toBankCode,
             req.toAccountNumber, recipientName, req.amount, req.currency,
             "completed", reference,
             (if req.description == "" then none else some req.description),
             (if (resp.transactionID == "") = true then none
              else some resp.transactionID).orElse (fun _ => none),
             (if 0 < resp.transactionFees then some resp.transactionFees
              else none).orElse (fun _ => some 0),
             none⟩],
         nextEntryID := db.nextEntryID + 1,
         nextExtID := db.nextExtID + 1,
         events := db.events ++ [.balanceAdj a.id (-req.amount)] }) := by
  have hne : ∀ x ∈ db.externalTransfers, x.id ≠ db.nextExtID := by
    intro x hx
    have := hfresh x hx
    omega
  have hkey : a.id = req.fromAccountID := findAccount_key_eq hfind
  have hfinda : findAccount db a.id = some a := by rw [hkey]; exact hfind
  have c0 : call (getAccountRun req.fromAccountID) noFaults (db, 0) =
      (.ok a, (db, 1)) := by
    unfold call noFaults
    rw [getAccountRun_eq_some hfind]
    rfl
  have c1 : call (createExternalTransferRun
      { fromAccountID := req.fromAccountID, toBankCode := req.toBankCode,
        toAccountNumber := req.toAccountNumber, recipientName := recipientName,
        amount := req.amount, currency := req.currency, reference := reference,
        description := if req.description == "" then none
                       else some req.description }) noFaults (db, 1) =
      (.ok ⟨db.nextExtID, req.fromAccountID, req.toBankCode,
          req.toAccountNumber, recipientName, req.amount, req.currency,
          "pending", reference,
          (if req.description == "" then none else some req.description),
          none, some 0, none⟩,
        ({ db with
           externalTransfers := db.externalTransfers ++
             [⟨db.nextExtID, req.fromAccountID, req.toBankCode,
               req.toAccountNumber, recipientName, req.amount, req.currency,
               "pending", reference,
               (if req.description == "" then none else some req.description),
               none, some 0, none⟩],
           nextExtID := db.nextExtID + 1 }, 2)) := by
    unfold call noFaults createExternalTransferRun
    rfl
  have hfindE1 : findExternalTransfer ({ db with
      externalTransfers := db.externalTransfers ++
        [⟨db.nextExtID, req.fromAccountID, req.toBankCode,
          req.toAccountNumber, recipientName, req.amount, req.currency,
          "pending", reference,
          (if req.description == "" then none else some req.description),
          none, some 0, none⟩],
      nextExtID := db.nextExtID + 1 } : DB) db.nextExtID =
      some ⟨db.nextExtID, req.fromAccountID, req.toBankCode,
        req.toAccountNumber, recipientName, req.amount, req.currency,
        "pending", reference,
        (if req.description == "" then none else some req.description),
        none, some 0, none⟩ := by
    unfold findExternalTransfer
    exact find?_append_fresh (fun t : ExternalTransfer => t.id) _ hne rfl
  have c2 : call (updateExternalTransferStatusRun
      { id := db.nextExtID, status := "processing", transactionID := none,
        transactionFees := none, errorMessage := none }) noFaults
      (({ db with
          externalTransfers := db.externalTransfers ++
            [⟨db.nextExtID, req.fromAccountID, req.toBankCode,
              req.toAccountNumber, recipientName, req.amount, req.currency,
              "pending", reference,
              (if req.description == "" then none else some req.description),
              none, some 0, none⟩],
          nextExtID := db.nextExtID + 1 } : DB), 2) =
      (.ok ⟨db.nextExtID, req.fromAccountID, req.toBankCode,
          req.toAccountNumber, recipientName, req.amount, req.currency,
          "processing", reference,
          (if req.description == "" then none else some req.description),
          none, some 0, none⟩,
        ({ db with
           externalTransfers := db.externalTransfers ++
             [⟨db.nextExtID, req.fromAccountID, req.toBankCode,
               req.toAccountNumber, recipientName, req.amount, req.currency,
               "processing", reference,
               (if req.description == "" then none else some req.description),
               none, some 0, none⟩],
           nextExtID := db.nextExtID + 1 }, 3)) := by
    unfold call noFaults updateExternalTransferStatusRun
    simp only [Bool.false_eq_true, if_false]
    rw [hfindE1]
    simp [List.map_append]
    exact map_update_id_p (fun t : ExternalTransfer => t.id) _ hne
  have hfinda2 : findAccount ({ db with
      externalTransfers := db.externalTransfers ++
        [⟨db.nextExtID, req.fromAccountID, req.toBankCode,
          req.toAccountNumber, recipientName, req.amount, req.currency,
          "processing", reference,
          (if req.description == "" then none else some req.description),
          none, some 0, none⟩],
      nextExtID := db.nextExtID + 1 } : DB) a.id = some a := hfinda
  have c3 : call (addAccountBalanceRun a.id (-req.amount)) noFaults
      (({ db with
          externalTransfers := db.externalTransfers ++
            [⟨db.nextExtID, req.fromAccountID, req.toBankCode,
              req.toAccountNumber, recipientName, req.amount, req.currency,
              "processing", reference,
              (if req.description == "" then none else some req.description),
              none, some 0, none⟩],
          nextExtID := db.nextExtID + 1 } : DB), 3) =
      (.ok ({ a with balance := a.balance + -req.amount }),
        ({ db with
           accounts := db.accounts.map
             (fun b => if b.id == a.id then
                { a with balance := a.balance + -req.amount } else b),
           externalTransfers := db.externalTransfers ++
             [⟨db.nextExtID, req.fromAccountID, req.toBankCode,
               req.toAccountNumber, recipientName, req.amount, req.currency,
               "processing", reference,
               (if req.description == "" then none else some req.description),
               none, some 0, none⟩],
           nextExtID := db.nextExtID + 1,
           events := db.events ++ [.balanceAdj a.id (-req.amount)] }, 4)) := by
    unfold call noFaults
    rw [addAccountBalanceRun_eq_some (-req.amount) hfinda2]
    rfl
  have c4 : call (createEntryRun a.id (-req.amount)) noFaults
      (({ db with
          accounts := db.accounts.map
            (fun b => if b.id == a.id then
               { a with balance := a.balance + -req.amount } else b),
          externalTransfers := db.externalTransfers ++
            [⟨db.nextExtID, req.fromAccountID, req.toBankCode,
              req.toAccountNumber, recipientName, req.amount, req.currency,
              "processing", reference,
              (if req.description == "" then none else some req.description),
              none, some 0, none⟩],
          nextExtID := db.nextExtID + 1,
          events := db.events ++ [.balanceAdj a.id (-req.amount)] } : DB), 4) =
      (.ok ⟨db.nextEntryID, a.id, -req.amount⟩,
        ({ db with
           accounts := db.accounts.map
             (fun b => if b.id == a.id then
                { a with balance := a.balance + -req.amount } else b),
           entries := db.entries ++ [⟨db.nextEntryID, a.id, -req.amount⟩],
           externalTransfers := db.externalTransfers ++
             [⟨db.nextExtID, req.fromAccountID, req.toBankCode,
               req.toAccountNumber, recipientName, req.amount, req.currency,
               "processing", reference,
               (if req.description == "" then none else some req.description),
               none, some 0, none⟩],
           nextEntryID := db.nextEntryID + 1,
           nextExtID := db.nextExtID + 1,
           events := db.events ++ [.balanceAdj a.id (-req.amount)] }, 5)) := by
    unfold call noFaults createEntryRun
    rfl
  have hfindE2 : findExternalTransfer ({ db with
      accounts := db.accounts.map
        (fun b => if b.id == a.id then
           { a with balance := a.balance + -req.amount } else b),
      entries := db.entries ++ [⟨db.nextEntryID, a.id, -req.amount⟩],
      externalTransfers := db.externalTransfers ++
        [⟨db.nextExtID, req.fromAccountID, req.toBankCode,
          req.toAccountNumber, recipientName, req.amount, req.currency,
          "processing", reference,
          (if req.description == "" then none else some req.description),
          none, some 0, none⟩],
      nextEntryID := db.nextEntryID + 1,
      nextExtID := db.nextExtID + 1,
      events := db.events ++ [.balanceAdj a.id (-req.amount)] } : DB)
      db.nextExtID =
      some ⟨db.nextExtID, req.fromAccountID, req.toBankCode,
        req.toAccountNumber, recipientName, req.amount, req.currency,
        "processing", reference,
        (if req.description == "" then none else some req.description),
        none, some 0, none⟩ := by
    unfold findExternalTransfer
    exact find?_append_fresh (fun t : ExternalTransfer => t.id) _ hne rfl
  have c5 : call (updateExternalTransferStatusRun
      { id := db.nextExtID, status := "completed",
        transactionID := if (resp.transactionID == "") = true then none
                         else some resp.transactionID,
        transactionFees := if 0 < resp.transactionFees then
                             some resp.transactionFees
                           else none,
        errorMessage := none }) noFaults
      (({ db with
          accounts := db.accounts.map
            (fun b => if b.id == a.id then
               { a with balance := a.balance + -req.amount } else b),
          entries := db.entries ++ [⟨db.nextEntryID, a.id, -req.amount⟩],
          externalTransfers := db.externalTransfers ++
            [⟨db.nextExtID, req.fromAccountID, req.toBankCode,
              req.toAccountNumber, recipientName, req.amount, req.currency,
              "processing", reference,
              (if req.description == "" then none else some req.description),
              none, some 0, none⟩],
          nextEntryID := db.nextEntryID + 1,
          nextExtID := db.nextExtID + 1,
          events := db.events ++ [.balanceAdj a.id (-req.amount)] } : DB), 5) =
      (.ok ⟨db.nextExtID, req.fromAccountID, req.toBankCode,
          req.toAccountNumber, recipientName, req.amount, req.currency,
          "completed", reference,
          (if req.description == "" then none else some req.description),
          (if (resp.transactionID == "") = true then none
           else some resp.transactionID).orElse (fun _ => none),
          (if 0 < resp.transactionFees then some resp.transactionFees
           else none).orElse (fun _ => some 0),
          none⟩,
        ({ db with
           accounts := db.accounts.map
             (fun b => if b.id == a.id then
                { a with balance := a.balance + -req.amount } else b),
           entries := db.entries ++ [⟨db.nextEntryID, a.id, -req.amount⟩],
           externalTransfers := db.externalTransfers ++
             [⟨db.nextExtID, req.fromAccountID, req.toBankCode,
               req.toAccountNumber, recipientName, req.amount, req.currency,
               "completed", reference,
               (if req.description == "" then none else some req.description),
               (if (resp.transactionID == "") = true then none
                else some resp.transactionID).orElse (fun _ => none),
               (if 0 < resp.transactionFees then some resp.transactionFees
                else none).orElse (fun _ => some 0),
               none⟩],
           nextEntryID := db.nextEntryID + 1,
           nextExtID := db.nextExtID + 1,
           events := db.events ++ [.balanceAdj a.id (-req.amount)] }, 6)) := by
    unfold call noFaults updateExternalTransferStatusRun
    simp only [Bool.false_eq_true, if_false]
    rw [hfindE2]
    simp [List.map_append]
    exact map_update_id_p (fun t : ExternalTransfer => t.id) _ hne
  unfold CreateExternalTransfer
  rw [hbind]
  simp only [Bool.not_true, Bool.false_eq_true, if_false, c0]
  rw [if_neg (show ¬(a.owner ≠ authUser) by simp [howner])]
  rw [if_neg (show ¬(a.currency ≠ req.currency) by simp [hcurr])]
  rw [if_neg (show ¬(a.balance < req.amount) by omega)]
  unfold GetBankAPI
  rw [hprov]
  simp only [hval, c1, c2, hgw, c3, c4, c5]

/-! ## Fault-mode runs of the external transfer flow -/

theorem CreateExternalTransfer_processingFault_run
    (provider : String → Option BankAPI) (authUser reference : String)
    (db : DB) (req : externalTransferRequest) (bankAPI : BankAPI)
    (recipientName : String) (a : Account)
    (hbind : req.validBinding = true)
    (hfind : findAccount db req.fromAccountID = some a)
    (howner : a.owner = authUser)
    (hcurr : a.currency = req.currency)
    (hbal : req.amount ≤ a.balance)
    (hprov : provider req.toBankCode = some bankAPI)
    (hval : bankAPI.validateAccount req.toBankCode req.toAccountNumber =
      .ok recipientName) :
    (CreateExternalTransfer provider authUser reference (fun k => k == 2)
        db req).1 = .error (.internal "store error") ∧
    (CreateExternalTransfer provider authUser reference (fun k => k == 2)
        db req).2.externalTransfers.map (fun t => t.status) =
      db.externalTransfers.map (fun t => t.status) ++ ["pending"] ∧
    (CreateExternalTransfer provider authUser reference (fun k => k == 2)
        db req).2.accounts = db.accounts ∧
    (CreateExternalTransfer provider authUser reference (fun k => k == 2)
        db req).2.logs = db.logs := by
  have c0 : call (getAccountRun req.fromAccountID) (fun k => k == 2) (db, 0) =
      (.ok a, (db, 1)) := by
    unfold call
    rw [getAccountRun_eq_some hfind]
    rfl
  have c1 : call (createExternalTransferRun
      { fromAccountID := req.fromAccountID, toBankCode := req.toBankCode,
        toAccountNumber := req.toAccountNumber, recipientName := recipientName,
        amount := req.amount, currency := req.currency, reference := reference,
        description := if req.description == "" then none
                       else some req.description }) (fun k => k == 2) (db, 1) =
      (.ok ⟨db.nextExtID, req.fromAccountID, req.toBankCode,
          req.toAccountNumber, recipientName, req.amount, req.currency,
          "pending", reference,
          (if req.description == "" then none else some req.description),
          none, some 0, none⟩,
        ({ db with
           externalTransfers := db.externalTransfers ++
             [⟨db.nextExtID, req.fromAccountID, req.toBankCode,
               req.toAccountNumber, recipientName, req.amount, req.currency,
               "pending", reference,
               (if req.description == "" then none else some req.description),
               none, some 0, none⟩],
           nextExtID := db.nextExtID + 1 }, 2)) := by
    unfold call createExternalTransferRun
    rfl
  have c2 : call (updateExternalTransferStatusRun
      { id := db.nextExtID, status := "processing", transactionID := none,
        transactionFees := none, errorMessage := none }) (fun k => k == 2)
      (({ db with
          externalTransfers := db.externalTransfers ++
            [⟨db.nextExtID, req.fromAccountID, req.toBankCode,
              req.toAccountNumber, recipientName, req.amount, req.currency,
              "pending", reference,
              (if req.description == "" then none else some req.description),
              none, some 0, none⟩],
          nextExtID := db.nextExtID + 1 } : DB), 2) =
      (.error .storeFault,
        ({ db with
           externalTransfers := db.externalTransfers ++
             [⟨db.nextExtID, req.fromAccountID, req.toBankCode,
               req.toAccountNumber, recipientName, req.amount, req.currency,
               "pending", reference,
               (if req.description == "" then none else some req.description),
               none, some 0, none⟩],
           nextExtID := db.nextExtID + 1 }, 3)) := by
    unfold call
    rfl
  have hmain : CreateExternalTransfer provider authUser reference
      (fun k => k == 2) db req =
      (.error (.internal "store error"),
       { db with
         externalTransfers := db.externalTransfers ++
           [⟨db.nextExtID, req.fromAccountID, req.toBankCode,
             req.toAccountNumber, recipientName, req.amount, req.currency,
             "pending", reference,
             (if req.description == "" then none else some req.description),
             none, some 0, none⟩],
         nextExtID := db.nextExtID + 1 }) := by
    unfold CreateExternalTransfer
    rw [hbind]
    simp only [Bool.not_true, Bool.false_eq_true, if_false, c0]
    rw [if_neg (show ¬(a.owner ≠ authUser) by simp [howner])]
    rw [if_neg (show ¬(a.currency ≠ req.currency) by simp [hcurr])]
    rw [if_neg (show ¬(a.balance < req.amount) by omega)]
    unfold GetBankAPI
    rw [hprov]
    simp only [hval, c1, c2]
  rw [hmain]
  refine ⟨rfl, ?_, rfl, rfl⟩
  simp

theorem CreateExternalTransfer_gwErr_updateFault_run
    (provider : String → Option BankAPI) (authUser reference : String)
    (db : DB) (req : externalTransferRequest) (bankAPI : BankAPI)
    (recipientName : String) (a : Account) (e : GatewayErr)
    (hbind : req.validBinding = true)
    (hfind : findAccount db req.fromAccountID = some a)
    (howner : a.owner = authUser)
    (hcurr : a.currency = req.currency)
    (hbal : req.amount ≤ a.balance)
    (hprov : provider req.toBankCode = some bankAPI)
    (hval : bankAPI.validateAccount req.toBankCode req.toAccountNumber =
      .ok recipientName)
    (hgw : ∀ treq, bankAPI.transferMoney treq = .error e)
    (hfresh : extIDBound db) :
    (CreateExternalTransfer provider authUser reference (fun k => k == 3)
        db req).1 = .error (.badRequest (classifyGatewayErr e)) ∧
    (CreateExternalTransfer provider authUser reference (fun k => k == 3)
        db req).2.externalTransfers.map (fun t => t.status) =
      db.externalTransfers.map (fun t => t.status) ++ ["processing"] ∧
    (CreateExternalTransfer provider authUser reference (fun k => k == 3)
        db req).2.logs = db.logs ∧
    (CreateExternalTransfer provider authUser reference (fun k => k == 3)
        db req).2.accounts = db.accounts := by
  have hne : ∀ x ∈ db.externalTransfers, x.id ≠ db.nextExtID := by
    intro x hx
    have := hfresh x hx
    omega
  have c0 : call (getAccountRun req.fromAccountID) (fun k => k == 3) (db, 0) =
      (.ok a, (db, 1)) := by
    unfold call
    rw [getAccountRun_eq_some hfind]
    rfl
  have c1 : call (createExternalTransferRun
      { fromAccountID := req.fromAccountID, toBankCode := req.toBankCode,
        toAccountNumber := req.toAccountNumber, recipientName := recipientName,
        amount := req.amount, currency := req.currency, reference := reference,
        description := if req.description == "" then none
                       else some req.description }) (fun k => k == 3) (db, 1) =
      (.ok ⟨db.nextExtID, req.fromAccountID, req.toBankCode,
          req.toAccountNumber, recipientName, req.amount, req.currency,
          "pending", reference,
          (if req.description == "" then none else some req.description),
          none, some 0, none⟩,
        ({ db with
           externalTransfers := db.externalTransfers ++
             [⟨db.nextExtID, req.fromAccountID, req.toBankCode,
               req.toAccountNumber, recipientName, req.amount, req.currency,
               "pending", reference,
               (if req.description == "" then none else some req.description),
               none, some 0, none⟩],
           nextExtID := db.nextExtID + 1 }, 2)) := by
    unfold call createExternalTransferRun
    rfl
  have hfindE1 : findExternalTransfer ({ db with
      externalTransfers := db.externalTransfers ++
        [⟨db.nextExtID, req.fromAccountID, req.toBankCode,
          req.toAccountNumber, recipientName, req.amount, req.currency,
          "pending", reference,
          (if req.description == "" then none else some req.description),
          none, some 0, none⟩],
      nextExtID := db.nextExtID + 1 } : DB) db.nextExtID =
      some ⟨db.nextExtID, req.fromAccountID, req.toBankCode,
        req.toAccountNumber, recipientName, req.amount, req.currency,
        "pending", reference,
        (if req.description == "" then none else some req.description),
        none, some 0, none⟩ := by
    unfold findExternalTransfer
    exact find?_append_fresh (fun t : ExternalTransfer => t.id) _ hne rfl
  have c2 : call (updateExternalTransferStatusRun
      { id := db.nextExtID, status := "processing", transactionID := none,
        transactionFees := none, errorMessage := none }) (fun k => k == 3)
      (({ db with
          externalTransfers := db.externalTransfers ++
            [⟨db.nextExtID, req.fromAccountID, req.toBankCode,
              req.toAccountNumber, recipientName, req.amount, req.currency,
              "pending", reference,
              (if req.description == "" then none else some req.description),
              none, some 0, none⟩],
          nextExtID := db.nextExtID + 1 } : DB), 2) =
      (.ok ⟨db.nextExtID, req.fromAccountID, req.toBankCode,
          req.toAccountNumber, recipientName, req.amount, req.currency,
          "processing", reference,
          (if req.description == "" then none else some req.description),
          none, some 0, none⟩,
        ({ db with
           externalTransfers := db.externalTransfers ++
             [⟨db.nextExtID, req.fromAccountID, req.toBankCode,
               req.toAccountNumber, recipientName, req.amount, req.currency,
               "processing", reference,
               (if req.description == "" then none else some req.description),
               none, some 0, none⟩],
           nextExtID := db.nextExtID + 1 }, 3)) := by
    unfold call updateExternalTransferStatusRun
    simp only [show (((2:Nat) == 3) = false) from rfl, Bool.false_eq_true,
      if_false]
    rw [hfindE1]
    simp [List.map_append]
    exact map_update_id_p (fun t : ExternalTransfer => t.id) _ hne
  have c3 : call (updateExternalTransferStatusRun
      { id := db.nextExtID, status := "failed", transactionID := none,
        transactionFees := none,
        errorMessage := some (classifyGatewayErr e) }) (fun k => k == 3)
      (({ db with
          externalTransfers := db.externalTransfers ++
            [⟨db.nextExtID, req.fromAccountID, req.toBankCode,
              req.toAccountNumber, recipientName, req.amount, req.currency,
              "processing", reference,
              (if req.description == "" then none else some req.description),
              none, some 0, none⟩],
          nextExtID := db.nextExtID + 1 } : DB), 3) =
      (.error .storeFault,
        ({ db with
           externalTransfers := db.externalTransfers ++
             [⟨db.nextExtID, req.fromAccountID, req.toBankCode,
               req.toAccountNumber, recipientName, req.amount, req.currency,
               "processing", reference,
               (if req.description == "" then none else some req.description),
               none, some 0, none⟩],
           nextExtID := db.nextExtID + 1 }, 4)) := by
    unfold call
    rfl
  have hmain : CreateExternalTransfer provider authUser reference
      (fun k => k == 3) db req =
      (.error (.badRequest (classifyGatewayErr e)),
       { db with
         externalTransfers := db.externalTransfers ++
           [⟨db.nextExtID, req.fromAccountID, req.toBankCode,
             req.toAccountNumber, recipientName, req.amount, req.currency,
             "processing", reference,
             (if req.description == "" then none else some req.description),
             none, some 0, none⟩],
         nextExtID := db.nextExtID + 1 }) := by
    unfold CreateExternalTransfer
    rw [hbind]
    simp only [Bool.not_true, Bool.false_eq_true, if_false, c0]
    rw [if_neg (show ¬(a.owner ≠ authUser) by simp [howner])]
    rw [if_neg (show ¬(a.currency ≠ req.currency) by simp [hcurr])]
    rw [if_neg (show ¬(a.balance < req.amount) by omega)]
    unfold GetBankAPI
    rw [hprov]
    simp only [hval, c1, c2, hgw, c3]
  rw [hmain]
  refine ⟨rfl, ?_, rfl, rfl⟩
  simp

theorem CreateExternalTransfer_debitFault_run
    (provider : String → Option BankAPI) (authUser reference : String)
    (db : DB) (req : externalTransferRequest) (bankAPI : BankAPI)
    (recipientName : String) (a : Account) (resp : TransferResponse)
    (hbind : req.validBinding = true)
    (hfind : findAccount db req.fromAccountID = some a)
    (howner : a.owner = authUser)
    (hcurr : a.currency = req.currency)
    (hbal : req.amount ≤ a.balance)
    (hprov : provider req.toBankCode = some bankAPI)
    (hval : bankAPI.validateAccount req.toBankCode req.toAccountNumber =
      .ok recipientName)
    (hgw : ∀ treq, bankAPI.transferMoney treq = .ok resp)
    (hfresh : extIDBound db) :
    (CreateExternalTransfer provider authUser reference (fun k => k == 3)
        db req).1 = .error (.internal "Failed to deduct balance") ∧
    (CreateExternalTransfer provider authUser reference (fun k => k == 3)
        db req).2.externalTransfers =
      db.externalTransfers ++
        [⟨db.nextExtID, req.fromAccountID, req.toBankCode,
          req.toAccountNumber, recipientName, req.amount, req.currency,
          "failed", reference,
          (if req.description == "" then none else some req.description),
          none, some 0, some "Failed to deduct balance"⟩] ∧
    (CreateExternalTransfer provider authUser reference (fun k => k == 3)
        db req).2.accounts = db.accounts ∧
    (CreateExternalTransfer provider authUser reference (fun k => k == 3)
        db req).2.entries = db.entries := by
  have hne : ∀ x ∈ db.externalTransfers, x.id ≠ db.nextExtID := by
    intro x hx
    have := hfresh x hx
    omega
  have c0 : call (getAccountRun req.fromAccountID) (fun k => k == 3) (db, 0) =
      (.ok a, (db, 1)) := by
    unfold call
    rw [getAccountRun_eq_some hfind]
    rfl
  have c1 : call (createExternalTransferRun
      { fromAccountID := req.fromAccountID, toBankCode := req.toBankCode,
        toAccountNumber := req.toAccountNumber, recipientName := recipientName,
        amount := req.amount, currency := req.currency, reference := reference,
        description := if req.description == "" then none
                       else some req.description }) (fun k => k == 3) (db, 1) =
      (.ok ⟨db.nextExtID, req.fromAccountID, req.toBankCode,
          req.toAccountNumber, recipientName, req.amount, req.currency,
          "pending", reference,
          (if req.description == "" then none else some req.description),
          none, some 0, none⟩,
        ({ db with
           externalTransfers := db.externalTransfers ++
             [⟨db.nextExtID, req.fromAccountID, req.toBankCode,
               req.toAccountNumber, recipientName, req.amount, req.currency,
               "pending", reference,
               (if req.description == "" then none else some req.description),
               none, some 0, none⟩],
           nextExtID := db.nextExtID + 1 }, 2)) := by
    unfold call createExternalTransferRun
    rfl
  have hfindE1 : findExternalTransfer ({ db with
      externalTransfers := db.externalTransfers ++
        [⟨db.nextExtID, req.fromAccountID, req.toBankCode,
          req.toAccountNumber, recipientName, req.amount, req.currency,
          "pending", reference,
          (if req.description == "" then none else some req.description),
          none, some 0, none⟩],
      nextExtID := db.nextExtID + 1 } : DB) db.nextExtID =
      some ⟨db.nextExtID, req.fromAccountID, req.toBankCode,
        req.toAccountNumber, recipientName, req.amount, req.currency,
        "pending", reference,
        (if req.description == "" then none else some req.description),
        none, some 0, none⟩ := by
    unfold findExternalTransfer
    exact find?_append_fresh (fun t : ExternalTransfer => t.id) _ hne rfl
  have c2 : call (updateExternalTransferStatusRun
      { id := db.nextExtID, status := "processing", transactionID := none,
        transactionFees := none, errorMessage := none }) (fun k => k == 3)
      (({ db with
          externalTransfers := db.externalTransfers ++
            [⟨db.nextExtID, req.fromAccountID, req.toBankCode,
              req.toAccountNumber, recipientName, req.amount, req.currency,
              "pending", reference,
              (if req.description == "" then none else some req.description),
              none, some 0, none⟩],
          nextExtID := db.nextExtID + 1 } : DB), 2) =
      (.ok ⟨db.nextExtID, req.fromAccountID, req.toBankCode,
          req.toAccountNumber, recipientName, req.amount, req.currency,
          "processing", reference,
          (if req.description == "" then none else some req.description),
          none, some 0, none⟩,
        ({ db with
           externalTransfers := db.externalTransfers ++
             [⟨db.nextExtID, req.fromAccountID, req.toBankCode,
               req.toAccountNumber, recipientName, req.amount, req.currency,
               "processing", reference,
               (if req.description == "" then none else some req.description),
               none, some 0, none⟩],
           nextExtID := db.nextExtID + 1 }, 3)) := by
    unfold call updateExternalTransferStatusRun
    simp only [show (((2:Nat) == 3) = false) from rfl, Bool.false_eq_true,
      if_false]
    rw [hfindE1]
    simp [List.map_append]
    exact map_update_id_p (fun t : ExternalTransfer => t.id) _ hne
  have c3 : call (addAccountBalanceRun a.id (-req.amount)) (fun k => k == 3)
      (({ db with
          externalTransfers := db.externalTransfers ++
            [⟨db.nextExtID, req.fromAccountID, req.toBankCode,
              req.toAccountNumber, recipientName, req.amount, req.currency,
              "processing", reference,
              (if req.description == "" then none else some req.description),
              none, some 0, none⟩],
          nextExtID := db.nextExtID + 1 } : DB), 3) =
      (.error .storeFault,
        ({ db with
           externalTransfers := db.externalTransfers ++
             [⟨db.nextExtID, req.fromAccountID, req.toBankCode,
               req.toAccountNumber, recipientName, req.amount, req.currency,
               "processing", reference,
               (if req.description == "" then none else some req.description),
               none, some 0, none⟩],
           nextExtID := db.nextExtID + 1 }, 4)) := by
    unfold call
    rfl
  have hfindE2 : findExternalTransfer ({ db with
      externalTransfers := db.externalTransfers ++
        [⟨db.nextExtID, req.fromAccountID, req.toBankCode,
          req.toAccountNumber, recipientName, req.amount, req.currency,
          "processing", reference,
          (if req.description == "" then none else some req.description),
          none, some 0, none⟩],
      nextExtID := db.nextExtID + 1 } : DB) db.nextExtID =
      some ⟨db.nextExtID, req.fromAccountID, req.toBankCode,
        req.toAccountNumber, recipientName, req.amount, req.currency,
        "processing", reference,
        (if req.description == "" then none else some req.description),
        none, some 0, none⟩ := by
    unfold findExternalTransfer
    exact find?_append_fresh (fun t : ExternalTransfer => t.id) _ hne rfl
  have c4 : call (updateExternalTransferStatusRun
      { id := db.nextExtID, status := "failed", transactionID := none,
        transactionFees := none,
        errorMessage := some "Failed to deduct balance" }) (fun k => k == 3)
      (({ db with
          externalTransfers := db.externalTransfers ++
            [⟨db.nextExtID, req.fromAccountID, req.toBankCode,
              req.toAccountNumber, recipientName, req.amount, req.currency,
              "processing", reference,
              (if req.description == "" then none else some req.description),
              none, some 0, none⟩],
          nextExtID := db.nextExtID + 1 } : DB), 4) =
      (.ok ⟨db.nextExtID, req.fromAccountID, req.toBankCode,
          req.toAccountNumber, recipientName, req.amount, req.currency,
          "failed", reference,
          (if req.description == "" then none else some req.description),
          none, some 0, some "Failed to deduct balance"⟩,
        ({ db with
           externalTransfers := db.externalTransfers ++
             [⟨db.nextExtID, req.fromAccountID, req.toBankCode,
               req.toAccountNumber, recipientName, req.amount, req.currency,
               "failed", reference,
               (if req.description == "" then none else some req.description),
               none, some 0, some "Failed to deduct balance"⟩],
           nextExtID := db.nextExtID + 1 }, 5)) := by
    unfold call updateExternalTransferStatusRun
    simp only [show (((4:Nat) == 3) = false) from rfl, Bool.false_eq_true,
      if_false]
    rw [hfindE2]
    simp [List.map_append]
    exact map_update_id_p (fun t : ExternalTransfer => t.id) _ hne
  have hmain : CreateExternalTransfer provider authUser reference
      (fun k => k == 3) db req =
      (.error (.internal "Failed to deduct balance"),
       { db with
         externalTransfers := db.externalTransfers ++
           [⟨db.nextExtID, req.fromAccountID, req.toBankCode,
             req.toAccountNumber, recipientName, req.amount, req.currency,
             "failed", reference,
             (if req.description == "" then none else some req.description),
             none, some 0, some "Failed to deduct balance"⟩],
         nextExtID := db.nextExtID + 1 }) := by
    unfold CreateExternalTransfer
    rw [hbind]
    simp only [Bool.not_true, Bool.false_eq_true, if_false, c0]
    rw [if_neg (show ¬(a.owner ≠ authUser) by simp [howner])]
    rw [if_neg (show ¬(a.currency ≠ req.currency) by simp [hcurr])]
    rw [if_neg (show ¬(a.balance < req.amount) by omega)]
    unfold GetBankAPI
    rw [hprov]
    simp only [hval, c1, c2, hgw, c3, c4]
  rw [hmain]
  exact ⟨rfl, rfl, rfl, rfl⟩

theorem CreateExternalTransfer_entryFault_run
    (provider : String → Option BankAPI) (authUser reference : String)
    (db : DB) (req : externalTransferRequest) (bankAPI : BankAPI)
    (recipientName : String) (a : Account) (resp : TransferResponse)
    (hbind : req.validBinding = true)
    (hfind : findAccount db req.fromAccountID = some a)
    (howner : a.owner = authUser)
    (hcurr : a.currency = req.currency)
    (hbal : req.amount ≤ a.balance)
    (hprov : provider req.toBankCode = some bankAPI)
    (hval : bankAPI.validateAccount req.toBankCode req.toAccountNumber =
      .ok recipientName)
    (hgw : ∀ treq, bankAPI.transferMoney treq = .ok resp)
    (hfresh : extIDBound db) :
    (CreateExternalTransfer provider authUser reference (fun k => k == 4)
        db req).1.isOk = true ∧
    (CreateExternalTransfer provider authUser reference (fun k => k == 4)
        db req).2.externalTransfers.map (fun t => t.status) =
      db.externalTransfers.map (fun t => t.status) ++ ["completed"] ∧
    (CreateExternalTransfer provider authUser reference (fun k => k == 4)
        db req).2.entries = db.entries ∧
    findAccount (CreateExternalTransfer provider authUser reference
        (fun k => k == 4) db req).2 a.id =
      some { a with balance := a.balance + -req.amount } ∧
    (CreateExternalTransfer provider authUser reference (fun k => k == 4)
        db req).2.logs =
      db.logs ++ ["Failed to create entry for external transfer"] := by
  have hne : ∀ x ∈ db.externalTransfers, x.id ≠ db.nextExtID := by
    intro x hx
    have := hfresh x hx
    omega
  have hkey : a.id = req.fromAccountID := findAccount_key_eq hfind
  have hfinda : findAccount db a.id = some a := by rw [hkey]; exact hfind
  have c0 : call (getAccountRun req.fromAccountID) (fun k => k == 4) (db, 0) =
      (.ok a, (db, 1)) := by
    unfold call
    rw [getAccountRun_eq_some hfind]
    rfl
  have c1 : call (createExternalTransferRun
      { fromAccountID := req.fromAccountID, toBankCode := req.toBankCode,
        toAccountNumber := req.toAccountNumber, recipientName := recipientName,
        amount := req.amount, currency := req.currency, reference := reference,
        description := if req.description == "" then none
                       else some req.description }) (fun k => k == 4) (db, 1) =
      (.ok ⟨db.nextExtID, req.fromAccountID, req.toBankCode,
          req.toAccountNumber, recipientName, req.amount, req.currency,
          "pending", reference,
          (if req.description == "" then none else some req.description),
          none, some 0, none⟩,
        ({ db with
           externalTransfers := db.externalTransfers ++
             [⟨db.nextExtID, req.fromAccountID, req.toBankCode,
               req.toAccountNumber, recipientName, req.amount, req.currency,
               "pending", reference,
               (if req.description == "" then none else some req.description),
               none, some 0, none⟩],
           nextExtID := db.nextExtID + 1 }, 2)) := by
    unfold call createExternalTransferRun
    rfl
  have hfindE1 : findExternalTransfer ({ db with
      externalTransfers := db.externalTransfers ++
        [⟨db.nextExtID, req.fromAccountID, req.toBankCode,
          req.toAccountNumber, recipientName, req.amount, req.currency,
          "pending", reference,
          (if req.description == "" then none else some req.description),
          none, some 0, none⟩],
      nextExtID := db.nextExtID + 1 } : DB) db.nextExtID =
      some ⟨db.nextExtID, req.fromAccountID, req.toBankCode,
        req.toAccountNumber, recipientName, req.amount, req.currency,
        "pending", reference,
        (if req.description == "" then none else some req.description),
        none, some 0, none⟩ := by
    unfold findExternalTransfer
    exact find?_append_fresh (fun t : ExternalTransfer => t.id) _ hne rfl
  have c2 : call (updateExternalTransferStatusRun
      { id := db.nextExtID, status := "processing", transactionID := none,
        transactionFees := none, errorMessage := none }) (fun k => k == 4)
      (({ db with
          externalTransfers := db.externalTransfers ++
            [⟨db.nextExtID, req.fromAccountID, req.toBankCode,
              req.toAccountNumber, recipientName, req.amount, req.currency,
              "pending", reference,
              (if req.description == "" then none else some req.description),
              none, some 0, none⟩],
          nextExtID := db.nextExtID + 1 } : DB), 2) =
      (.ok ⟨db.nextExtID, req.fromAccountID, req.toBankCode,
          req.toAccountNumber, recipientName, req.amount, req.currency,
          "processing", reference,
          (if req.description == "" then none else some req.description),
          none, some 0, none⟩,
        ({ db with
           externalTransfers := db.externalTransfers ++
             [⟨db.nextExtID, req.fromAccountID, req.toBankCode,
               req.toAccountNumber, recipientName, req.amount, req.currency,
               "processing", reference,
               (if req.description == "" then none else some req.description),
               none, some 0, none⟩],
           nextExtID := db.nextExtID + 1 }, 3)) := by
    unfold call updateExternalTransferStatusRun
    simp only [show (((2:Nat) == 4) = false) from rfl, Bool.false_eq_true,
      if_false]
    rw [hfindE1]
    simp [List.map_append]
    exact map_update_id_p (fun t : ExternalTransfer => t.id) _ hne
  have hfinda2 : findAccount ({ db with
      externalTransfers := db.externalTransfers ++
        [⟨db.nextExtID, req.fromAccountID, req.toBankCode,
          req.toAccountNumber, recipientName, req.amount, req.currency,
          "processing", reference,
          (if req.description == "" then none else some req.description),
          none, some 0, none⟩],
      nextExtID := db.nextExtID + 1 } : DB) a.id = some a := hfinda
  have c3 : call (addAccountBalanceRun a.id (-req.amount)) (fun k => k == 4)
      (({ db with
          externalTransfers := db.externalTransfers ++
            [⟨db.nextExtID, req.fromAccountID, req.toBankCode,
              req.toAccountNumber, recipientName, req.amount, req.currency,
              "processing", reference,
              (if req.description == "" then none else some req.description),
              none, some 0, none⟩],
          nextExtID := db.nextExtID + 1 } : DB), 3) =
      (.ok ({ a with balance := a.balance + -req.amount }),
        ({ db with
           accounts := db.accounts.map
             (fun b => if b.id == a.id then
                { a with balance := a.balance + -req.amount } else b),
           externalTransfers := db.externalTransfers ++
             [⟨db.nextExtID, req.fromAccountID, req.toBankCode,
               req.toAccountNumber, recipientName, req.amount, req.currency,
               "processing", reference,
               (if req.description == "" then none else some req.description),
               none, some 0, none⟩],
           nextExtID := db.nextExtID + 1,
           events := db.events ++ [.balanceAdj a.id (-req.amount)] }, 4)) := by
    unfold call
    rw [addAccountBalanceRun_eq_some (-req.amount) hfinda2]
    rfl
  have c4 : call (createEntryRun a.id (-req.amount)) (fun k => k == 4)
      (({ db with
          accounts := db.accounts.map
            (fun b => if b.id == a.id then
               { a with balance := a.balance + -req.amount } else b),
          externalTransfers := db.externalTransfers ++
            [⟨db.nextExtID, req.fromAccountID, req.toBankCode,
              req.toAccountNumber, recipientName, req.amount, req.currency,
              "processing", reference,
              (if req.description == "" then none else some req.description),
              none, some 0, none⟩],
          nextExtID := db.nextExtID + 1,
          events := db.events ++ [.balanceAdj a.id (-req.amount)] } : DB), 4) =
      (.error .storeFault,
        ({ db with
           accounts := db.accounts.map
             (fun b => if b.id == a.id then
                { a with balance := a.balance + -req.amount } else b),
           externalTransfers := db.externalTransfers ++
             [⟨db.nextExtID, req.fromAccountID, req.toBankCode,
               req.toAccountNumber, recipientName, req.amount, req.currency,
               "processing", reference,
               (if req.description == "" then none else some req.description),
               none, some 0, none⟩],
           nextExtID := db.nextExtID + 1,
           events := db.events ++ [.balanceAdj a.id (-req.amount)] }, 5)) := by
    unfold call
    rfl
  have hfindE2 : findExternalTransfer ({ db with
      accounts := db.accounts.map
        (fun b => if b.id == a.id then
           { a with balance := a.balance + -req.amount } else b),
      externalTransfers := db.externalTransfers ++
        [⟨db.nextExtID, req.fromAccountID, req.toBankCode,
          req.toAccountNumber, recipientName, req.amount, req.currency,
          "processing", reference,
          (if req.description == "" then none else some req.description),
          none, some 0, none⟩],
      nextExtID := db.nextExtID + 1,
      events := db.events ++ [.balanceAdj a.id (-req.amount)],
      logs := db.logs ++ ["Failed to create entry for external transfer"] }
      : DB) db.nextExtID =
      some ⟨db.nextExtID, req.fromAccountID, req.toBankCode,
        req.toAccountNumber, recipientName, req.amount, req.currency,
        "processing", reference,
        (if req.description == "" then none else some req.description),
        none, some 0, none⟩ := by
    unfold findExternalTransfer
    exact find?_append_fresh (fun t : ExternalTransfer => t.id) _ hne rfl
  have c5 : call (updateExternalTransferStatusRun
      { id := db.nextExtID, status := "completed",
        transactionID := if (resp.transactionID == "") = true then none
                         else some resp.transactionID,
        transactionFees := if 0 < resp.transactionFees then
                             some resp.transactionFees
                           else none,
        errorMessage := none }) (fun k => k == 4)
      (({ db with
          accounts := db.accounts.map
            (fun b => if b.id == a.id then
               { a with balance := a.balance + -req.amount } else b),
          externalTransfers := db.externalTransfers ++
            [⟨db.nextExtID, req.fromAccountID, req.toBankCode,
              req.toAccountNumber, recipientName, req.amount, req.currency,
              "processing", reference,
              (if req.description == "" then none else some req.description),
              none, some 0, none⟩],
          nextExtID := db.nextExtID + 1,
          events := db.events ++ [.balanceAdj a.id (-req.amount)],
          logs := db.logs ++ ["Failed to create entry for external transfer"] }
          : DB), 5) =
      (.ok ⟨db.nextExtID, req.fromAccountID, req.toBankCode,
          req.toAccountNumber, recipientName, req.amount, req.currency,
          "completed", reference,
          (if req.description == "" then none else some req.description),
          (if (resp.transactionID == "") = true then none
           else some resp.transactionID).orElse (fun _ => none),
          (if 0 < resp.transactionFees then some resp.transactionFees
           else none).orElse (fun _ => some 0),
          none⟩,
        ({ db with
           accounts := db.accounts.map
             (fun b => if b.id == a.id then
                { a with balance := a.balance + -req.amount } else b),
           externalTransfers := db.externalTransfers ++
             [⟨db.nextExtID, req.fromAccountID, req.toBankCode,
               req.toAccountNumber, recipientName, req.amount, req.currency,
               "completed", reference,
               (if req.description == "" then none else some req.description),
               (if (resp.transactionID == "") = true then none
                else some resp.transactionID).orElse (fun _ => none),
               (if 0 < resp.transactionFees then some resp.transactionFees
                else none).orElse (fun _ => some 0),
               none⟩],
           nextExtID := db.nextExtID + 1,
           events := db.events ++ [.balanceAdj a.id (-req.amount)],
           logs := db.logs ++ ["Failed to create entry for external transfer"] },
          6)) := by
    unfold call updateExternalTransferStatusRun
    simp only [show (((5:Nat) == 4) = false) from rfl, Bool.false_eq_true,
      if_false]
    rw [hfindE2]
    simp [List.map_append]
    exact map_update_id_p (fun t : ExternalTransfer => t.id) _ hne
  have hmain : CreateExternalTransfer provider authUser reference
      (fun k => k == 4) db req =
      (.ok ⟨db.nextExtID, req.fromAccountID, req.toBankCode,
          req.toAccountNumber, recipientName, req.amount, req.currency,
          "completed", reference,
          (if req.description == "" then none else some req.description),
          (if (resp.transactionID == "") = true then none
           else some resp.transactionID).orElse (fun _ => none),
          (if 0 < resp.transactionFees then some resp.transactionFees
           else none).orElse (fun _ => some 0),
          none⟩,
       { db with
         accounts := db.accounts.map
           (fun b => if b.id == a.id then
              { a with balance := a.balance + -req.amount } else b),
         externalTransfers := db.externalTransfers ++
           [⟨db.nextExtID, req.fromAccountID, req.toBankCode,
             req.toAccountNumber, recipientName, req.amount, req.currency,
             "completed", reference,
             (if req.description == "" then none else some req.description),
             (if (resp.transactionID == "") = true then none
              else some resp.transactionID).orElse (fun _ => none),
             (if 0 < resp.transactionFees then some resp.transactionFees
              else none).orElse (fun _ => some 0),
             none⟩],
         nextExtID := db.nextExtID + 1,
         events := db.events ++ [.balanceAdj a.id (-req.amount)],
         logs := db.logs ++ ["Failed to create entry for external transfer"] }) := by
    unfold CreateExternalTransfer
    rw [hbind]
    simp only [Bool.not_true, Bool.false_eq_true, if_false, c0]
    rw [if_neg (show ¬(a.owner ≠ authUser) by simp [howner])]
    rw [if_neg (show ¬(a.currency ≠ req.currency) by simp [hcurr])]
    rw [if_neg (show ¬(a.balance < req.amount) by omega)]
    unfold GetBankAPI
    rw [hprov]
    simp only [hval, c1, c2, hgw, c3, c4, c5]
  rw [hmain]
  refine ⟨rfl, ?_, rfl, ?_, rfl⟩
  · simp
  · unfold findAccount at hfinda ⊢
    exact find?_map_update_self (fun b : Account => b.id) _ hfinda rfl

theorem CreateExternalTransfer_completeFault_run
    (provider : String → Option BankAPI) (authUser reference : String)
    (db : DB) (req : externalTransferRequest) (bankAPI : BankAPI)
    (recipientName : String) (a : Account) (resp : TransferResponse)
    (hbind : req.validBinding = true)
    (hfind : findAccount db req.fromAccountID = some a)
    (howner : a.owner = authUser)
    (hcurr : a.currency = req.currency)
    (hbal : req.amount ≤ a.balance)
    (hprov : provider req.toBankCode = some bankAPI)
    (hval : bankAPI.validateAccount req.toBankCode req.toAccountNumber =
      .ok recipientName)
    (hgw : ∀ treq, bankAPI.transferMoney treq = .ok resp)
    (hfresh : extIDBound db) :
    (CreateExternalTransfer provider authUser reference (fun k => k == 5)
        db req).1 = .error (.internal "store error") ∧
    (CreateExternalTransfer provider authUser reference (fun k => k == 5)
        db req).2.externalTransfers.map (fun t => t.status) =
      db.externalTransfers.map (fun t => t.status) ++ ["processing"] := by
  have hne : ∀ x ∈ db.externalTransfers, x.id ≠ db.nextExtID := by
    intro x hx
    have := hfresh x hx
    omega
  have hkey : a.id = req.fromAccountID := findAccount_key_eq hfind
  have hfinda : findAccount db a.id = some a := by rw [hkey]; exact hfind
  have c0 : call (getAccountRun req.fromAccountID) (fun k => k == 5) (db, 0) =
      (.ok a, (db, 1)) := by
    unfold call
    rw [getAccountRun_eq_some hfind]
    rfl
  have c1 : call (createExternalTransferRun
      { fromAccountID := req.fromAccountID, toBankCode := req.toBankCode,
        toAccountNumber := req.toAccountNumber, recipientName := recipientName,
        amount := req.amount, currency := req.currency, reference := reference,
        description := if req.description == "" then none
                       else some req.description }) (fun k => k == 5) (db, 1) =
      (.ok ⟨db.nextExtID, req.fromAccountID, req.toBankCode,
          req.toAccountNumber, recipientName, req.amount, req.currency,
          "pending", reference,
          (if req.description == "" then none else some req.description),
          none, some 0, none⟩,
        ({ db with
           externalTransfers := db.externalTransfers ++
             [⟨db.nextExtID, req.fromAccountID, req.toBankCode,
               req.toAccountNumber, recipientName, req.amount, req.currency,
               "pending", reference,
               (if req.description == "" then none else some req.description),
               none, some 0, none⟩],
           nextExtID := db.nextExtID + 1 }, 2)) := by
    unfold call createExternalTransferRun
    rfl
  have hfindE1 : findExternalTransfer ({ db with
      externalTransfers := db.externalTransfers ++
        [⟨db.nextExtID, req.fromAccountID, req.toBankCode,
          req.toAccountNumber, recipientName, req.amount, req.currency,
          "pending", reference,
          (if req.description == "" then none else some req.description),
          none, some 0, none⟩],
      nextExtID := db.nextExtID + 1 } : DB) db.nextExtID =
      some ⟨db.nextExtID, req.fromAccountID, req.toBankCode,
        req.toAccountNumber, recipientName, req.amount, req.currency,
        "pending", reference,
        (if req.description == "" then none else some req.description),
        none, some 0, none⟩ := by
    unfold findExternalTransfer
    exact find?_append_fresh (fun t : ExternalTransfer => t.id) _ hne rfl
  have c2 : call (updateExternalTransferStatusRun
      { id := db.nextExtID, status := "processing", transactionID := none,
        transactionFees := none, errorMessage := none }) (fun k => k == 5)
      (({ db with
          externalTransfers := db.externalTransfers ++
            [⟨db.nextExtID, req.fromAccountID, req.toBankCode,
              req.toAccountNumber, recipientName, req.amount, req.currency,
              "pending", reference,
              (if req.description == "" then none else some req.description),
              none, some 0, none⟩],
          nextExtID := db.nextExtID + 1 } : DB), 2) =
      (.ok ⟨db.nextExtID, req.fromAccountID, req.toBankCode,
          req.toAccountNumber, recipientName, req.amount, req.currency,
          "processing", reference,
          (if req.description == "" then none else some req.description),
          none, some 0, none⟩,
        ({ db with
           externalTransfers := db.externalTransfers ++
             [⟨db.nextExtID, req.fromAccountID, req.toBankCode,
               req.toAccountNumber, recipientName, req.amount, req.currency,
               "processing", reference,
               (if req.description == "" then none else some req.description),
               none, some 0, none⟩],
           nextExtID := db.nextExtID + 1 }, 3)) := by
    unfold call updateExternalTransferStatusRun
    simp only [show (((2:Nat) == 5) = false) from rfl, Bool.false_eq_true,
      if_false]
    rw [hfindE1]
    simp [List.map_append]
    exact map_update_id_p (fun t : ExternalTransfer => t.id) _ hne
  have hfinda2 : findAccount ({ db with
      externalTransfers := db.externalTransfers ++
        [⟨db.nextExtID, req.fromAccountID, req.toBankCode,
          req.toAccountNumber, recipientName, req.amount, req.currency,
          "processing", reference,
          (if req.description == "" then none else some req.description),
          none, some 0, none⟩],
      nextExtID := db.nextExtID + 1 } : DB) a.id = some a := hfinda
  have c3 : call (addAccountBalanceRun a.id (-req.amount)) (fun k => k == 5)
      (({ db with
          externalTransfers := db.externalTransfers ++
            [⟨db.nextExtID, req.fromAccountID, req.toBankCode,
              req.toAccountNumber, recipientName, req.amount, req.currency,
              "processing", reference,
              (if req.description == "" then none else some req.description),
              none, some 0, none⟩],
          nextExtID := db.nextExtID + 1 } : DB), 3) =
      (.ok ({ a with balance := a.balance + -req.amount }),
        ({ db with
           accounts := db.accounts.map
             (fun b => if b.id == a.id then
                { a with balance := a.balance + -req.amount } else b),
           externalTransfers := db.externalTransfers ++
             [⟨db.nextExtID, req.fromAccountID, req.toBankCode,
               req.toAccountNumber, recipientName, req.amount, req.currency,
               "processing", reference,
               (if req.description == "" then none else some req.description),
               none, some 0, none⟩],
           nextExtID := db.nextExtID + 1,
           events := db.events ++ [.balanceAdj a.id (-req.amount)] }, 4)) := by
    unfold call
    rw [addAccountBalanceRun_eq_some (-req.amount) hfinda2]
    rfl
  have c4 : call (createEntryRun a.id (-req.amount)) (fun k => k == 5)
      (({ db with
          accounts := db.accounts.map
            (fun b => if b.id == a.id then
               { a with balance := a.balance + -req.amount } else b),
          externalTransfers := db.externalTransfers ++
            [⟨db.nextExtID, req.fromAccountID, req.toBankCode,
              req.toAccountNumber, recipientName, req.amount, req.currency,
              "processing", reference,
              (if req.description == "" then none else some req.description),
              none, some 0, none⟩],
          nextExtID := db.nextExtID + 1,
          events := db.events ++ [.balanceAdj a.id (-req.amount)] } : DB), 4) =
      (.ok ⟨db.nextEntryID, a.id, -req.amount⟩,
        ({ db with
           accounts := db.accounts.map
             (fun b => if b.id == a.id then
                { a with balance := a.balance + -req.amount } else b),
           entries := db.entries ++ [⟨db.nextEntryID, a.id, -req.amount⟩],
           externalTransfers := db.externalTransfers ++
             [⟨db.nextExtID, req.fromAccountID, req.toBankCode,
               req.toAccountNumber, recipientName, req.amount, req.currency,
               "processing", reference,
               (if req.description == "" then none else some req.description),
               none, some 0, none⟩],
           nextEntryID := db.nextEntryID + 1,
           nextExtID := db.nextExtID + 1,
           events := db.events ++ [.balanceAdj a.id (-req.amount)] }, 5)) := by
    unfold call createEntryRun
    rfl
  have c5 : call (updateExternalTransferStatusRun
      { id := db.nextExtID, status := "completed",
        transactionID := if (resp.transactionID == "") = true then none
                         else some resp.transactionID,
        transactionFees := if 0 < resp.transactionFees then
                             some resp.transactionFees
                           else none,
        errorMessage := none }) (fun k => k == 5)
      (({ db with
          accounts := db.accounts.map
            (fun b => if b.id == a.id then
               { a with balance := a.balance + -req.amount } else b),
          entries := db.entries ++ [⟨db.nextEntryID, a.id, -req.amount⟩],
          externalTransfers := db.externalTransfers ++
            [⟨db.nextExtID, req.fromAccountID, req.toBankCode,
              req.toAccountNumber, recipientName, req.amount, req.currency,
              "processing", reference,
              (if req.description == "" then none else some req.description),
              none, some 0, none⟩],
          nextEntryID := db.nextEntryID + 1,
          nextExtID := db.nextExtID + 1,
          events := db.events ++ [.balanceAdj a.id (-req.amount)] } : DB), 5) =
      (.error .storeFault,
        ({ db with
           accounts := db.accounts.map
             (fun b => if b.id == a.id then
                { a with balance := a.balance + -req.amount } else b),
           entries := db.entries ++ [⟨db.nextEntryID, a.id, -req.amount⟩],
           externalTransfers := db.externalTransfers ++
             [⟨db.nextExtID, req.fromAccountID, req.toBankCode,
               req.toAccountNumber, recipientName, req.amount, req.currency,
               "processing", reference,
               (if req.description == "" then none else some req.description),
               none, some 0, none⟩],
           nextEntryID := db.nextEntryID + 1,
           nextExtID := db.nextExtID + 1,
           events := db.events ++ [.balanceAdj a.id (-req.amount)] }, 6)) := by
    unfold call
    rfl
  have hmain : CreateExternalTransfer provider authUser reference
      (fun k => k == 5) db req =
      (.error (.internal "store error"),
       { db with
         accounts := db.accounts.map
           (fun b => if b.id == a.id then
              { a with balance := a.balance + -req.amount } else b),
         entries := db.entries ++ [⟨db.nextEntryID, a.id, -req.amount⟩],
         externalTransfers := db.externalTransfers ++
           [⟨db.nextExtID, req.fromAccountID, req.toBankCode,
             req.toAccountNumber, recipientName, req.amount, req.currency,
             "processing", reference,
             (if req.description == "" then none else some req.description),
             none, some 0, none⟩],
         nextEntryID := db.nextEntryID + 1,
         nextExtID := db.nextExtID + 1,
         events := db.events ++ [.balanceAdj a.id (-req.amount)] }) := by
    unfold CreateExternalTransfer
    rw [hbind]
    simp only [Bool.not_true, Bool.false_eq_true, if_false, c0]
    rw [if_neg (show ¬(a.owner ≠ authUser) by simp [howner])]
    rw [if_neg (show ¬(a.currency ≠ req.currency) by simp [hcurr])]
    rw [if_neg (show ¬(a.balance < req.amount) by omega)]
    unfold GetBankAPI
    rw [hprov]
    simp only [hval, c1, c2, hgw, c3, c4, c5]
  rw [hmain]
  refine ⟨rfl, ?_⟩
  simp

/-! ## C4 — gateway failure handling -/

/-- **C4.**  When the gateway's `TransferMoney` fails in a fault-free
store execution of the external transfer flow, the error is classified into
one of the caller-facing messages, the ExternalTransfer row ends in status
`failed` carrying that classified `ErrorMessage`, the handler returns an
error, and the sender's balance is untouched: no debit and no debit Entry
occur. -/
theorem CreateExternalTransfer_gateway_failure
    (provider : String → Option BankAPI) (authUser reference : String)
    (db : DB) (req : externalTransferRequest) (bankAPI : BankAPI)
    (recipientName : String) (a : Account) (e : GatewayErr)
    (hbind : req.validBinding = true)
    (hfind : findAccount db req.fromAccountID = some a)
    (howner : a.owner = authUser)
    (hcurr : a.currency = req.currency)
    (hbal : req.amount ≤ a.balance)
    (hprov : provider req.toBankCode = some bankAPI)
    (hval : bankAPI.validateAccount req.toBankCode req.toAccountNumber =
      .ok recipientName)
    (hgw : ∀ treq, bankAPI.transferMoney treq = .error e)
    (hfresh : extIDBound db) :
    (CreateExternalTransfer provider authUser reference noFaults db req).1 =
      .error (.badRequest (classifyGatewayErr e)) ∧
    (classifyGatewayErr e = "Insufficient funds at the bank" ∨
     classifyGatewayErr e = "Bank API is temporarily unavailable" ∨
     classifyGatewayErr e = "Bank transfer failed" ∨
     classifyGatewayErr e = "Failed to send money to the bank") ∧
    (CreateExternalTransfer provider authUser reference noFaults
        db req).2.externalTransfers.map (fun t => (t.status, t.errorMessage)) =
      db.externalTransfers.map (fun t => (t.status, t.errorMessage)) ++
        [("failed", some (classifyGatewayErr e))] ∧
    (CreateExternalTransfer provider authUser reference noFaults
        db req).2.accounts = db.accounts ∧
    (CreateExternalTransfer provider authUser reference noFaults
        db req).2.entries = db.entries := by
  have h := CreateExternalTransfer_gwErr_run provider authUser reference db
    req bankAPI recipientName a e hbind hfind howner hcurr hbal hprov hval
    hgw hfresh
  refine ⟨by rw [h], ?_, ?_, by rw [h], by rw [h]⟩
  · cases e <;> simp [classifyGatewayErr]
  · rw [h]
    simp

/-- **C4 witness.**  Account 1 sending 40 ETB through a gateway stub whose
`TransferMoney` always reports remote insufficient funds. -/
theorem CreateExternalTransfer_gateway_failure_witness :
    extReqA.validBinding = true ∧
    findAccount dbA 1 = some ⟨1, "alice", 100, "ETB"⟩ ∧
    (∀ treq, gwInsufficient.transferMoney treq = .error .insufficientFunds) ∧
    (CreateExternalTransfer (provCBE gwInsufficient) "alice" "NEXT-ref"
        noFaults dbA extReqA).1 =
      .error (.badRequest "Insufficient funds at the bank") :=
  ⟨by decide, by decide, fun _ => rfl,
    (CreateExternalTransfer_gateway_failure (provCBE gwInsufficient) "alice"
      "NEXT-ref" dbA extReqA gwInsufficient "Bob Recipient"
      ⟨1, "alice", 100, "ETB"⟩ .insufficientFunds (by decide) (by decide) rfl
      rfl (by decide) rfl rfl (fun _ => rfl) (by decide)).1⟩

/-! ## C7 — validation failures leave no trace -/

/-- **C7.**  Every failure in steps 1–3 of the external transfer flow —
missing sender account, ownership mismatch, currency mismatch, insufficient
balance, unsupported bank code, or recipient unresolvable at the bank —
makes the handler return an error immediately, and the store is left
exactly as it was: no ExternalTransfer row, no entry, no balance change,
under every fault schedule. -/
theorem CreateExternalTransfer_validation_no_side_effect
    (provider : String → Option BankAPI) (authUser reference : String)
    (faults : Nat → Bool) (db : DB) (req : externalTransferRequest)
    (h : findAccount db req.fromAccountID = none ∨
      (∃ a, findAccount db req.fromAccountID = some a ∧ a.owner ≠ authUser) ∨
      (∃ a, findAccount db req.fromAccountID = some a ∧
        a.currency ≠ req.currency) ∨
      (∃ a, findAccount db req.fromAccountID = some a ∧
        a.balance < req.amount) ∨
      provider req.toBankCode = none ∨
      (∃ g e, provider req.toBankCode = some g ∧
        g.validateAccount req.toBankCode req.toAccountNumber = .error e)) :
    (CreateExternalTransfer provider authUser reference faults
        db req).1.isOk = false ∧
    (CreateExternalTransfer provider authUser reference faults db req).2 =
      db := by
  unfold CreateExternalTransfer
  split
  · exact ⟨rfl, rfl⟩
  · next hbind =>
    have hcall := call_getAccount_state req.fromAccountID faults (db, 0)
    split
    · next s heq => rw [heq] at hcall; exact ⟨rfl, hcall⟩
    · next s e heq => rw [heq] at hcall; exact ⟨rfl, hcall⟩
    · next account s0 heq0 =>
      rw [heq0] at hcall
      obtain ⟨-, hfind0⟩ := call_getAccount_ok heq0
      split
      · exact ⟨rfl, hcall⟩
      · next hown =>
        split
        · exact ⟨rfl, hcall⟩
        · next hcur =>
          split
          · exact ⟨rfl, hcall⟩
          · next hbal2 =>
            split
            · exact ⟨rfl, hcall⟩
            · next bankAPI hprov2 =>
              split
              · exact ⟨rfl, hcall⟩
              · exact ⟨rfl, hcall⟩
              · next recName hval2 =>
                exfalso
                unfold GetBankAPI at hprov2
                rcases h with h1 | ⟨a, ha, h2⟩ | ⟨a, ha, h3⟩ |
                    ⟨a, ha, h4⟩ | h5 | ⟨g, e, hg, h6⟩
                · rw [hfind0] at h1; simp at h1
                · rw [hfind0] at ha
                  have : account = a := Option.some.inj ha
                  rw [← this] at h2
                  exact h2 (by simpa using hown)
                · rw [hfind0] at ha
                  have : account = a := Option.some.inj ha
                  rw [← this] at h3
                  exact h3 (by simpa using hcur)
                · rw [hfind0] at ha
                  have : account = a := Option.some.inj ha
                  rw [← this] at h4
                  omega
                · rw [hprov2] at h5; simp at h5
                · rw [hprov2] at hg
                  have : bankAPI = g := Option.some.inj hg
                  rw [← this] at h6
                  rw [hval2] at h6
                  simp at h6

/-- **C7 witness.**  A request against an account the caller does not own
(auth user "mallory") is rejected and the store is unchanged. -/
theorem CreateExternalTransfer_validation_no_side_effect_witness :
    (∃ a, findAccount dbA 1 = some a ∧ a.owner ≠ "mallory") ∧
    (CreateExternalTransfer (provCBE gwOK) "mallory" "NEXT-ref" noFaults
        dbA extReqA).1.isOk = false ∧
    (CreateExternalTransfer (provCBE gwOK) "mallory" "NEXT-ref" noFaults
        dbA extReqA).2 = dbA :=
  ⟨⟨⟨1, "alice", 100, "ETB"⟩, by decide, by decide⟩,
    (CreateExternalTransfer_validation_no_side_effect (provCBE gwOK) "mallory"
      "NEXT-ref" noFaults dbA extReqA
      (Or.inr (Or.inl ⟨⟨1, "alice", 100, "ETB"⟩, by decide, by decide⟩))).1,
    (CreateExternalTransfer_validation_no_side_effect (provCBE gwOK) "mallory"
      "NEXT-ref" noFaults dbA extReqA
      (Or.inr (Or.inl ⟨⟨1, "alice", 100, "ETB"⟩, by decide, by decide⟩))).2⟩

/-! ## C2 — amended local-debit behaviour -/

/-- **C2 (amended).**  On gateway success the local debit is two separate,
independently committed store calls, not one atomic pair: in a fault-free
execution the balance adjustment of `-amount` is applied AND a debit Entry
of `-amount` is created and the transfer completes; if the balance
adjustment fails after the external leg succeeded, the ExternalTransfer is
updated to `failed` with the explicit failed-to-deduct-balance message and
is not marked completed, with no balance change and no Entry; but if only
the Entry creation fails, the failure is merely logged and the transfer is
still marked `completed` with the balance already debited and no Entry at
all. -/
theorem CreateExternalTransfer_local_debit_behavior
    (provider : String → Option BankAPI) (authUser reference : String)
    (db : DB) (req : externalTransferRequest) (bankAPI : BankAPI)
    (recipientName : String) (a : Account) (resp : TransferResponse)
    (hbind : req.validBinding = true)
    (hfind : findAccount db req.fromAccountID = some a)
    (howner : a.owner = authUser)
    (hcurr : a.currency = req.currency)
    (hbal : req.amount ≤ a.balance)
    (hprov : provider req.toBankCode = some bankAPI)
    (hval : bankAPI.validateAccount req.toBankCode req.toAccountNumber =
      .ok recipientName)
    (hgw : ∀ treq, bankAPI.transferMoney treq = .ok resp)
    (hfresh : extIDBound db) :
    (findAccount (CreateExternalTransfer provider authUser reference noFaults
        db req).2 a.id = some { a with balance := a.balance + -req.amount } ∧
     (CreateExternalTransfer provider authUser reference noFaults
        db req).2.entries = db.entries ++ [⟨db.nextEntryID, a.id, -req.amount⟩] ∧
     (CreateExternalTransfer provider authUser reference noFaults
        db req).2.externalTransfers.map (fun t => t.status) =
       db.externalTransfers.map (fun t => t.status) ++ ["completed"]) ∧
    ((CreateExternalTransfer provider authUser reference (fun k => k == 3)
        db req).1 = .error (.internal "Failed to deduct balance") ∧
     (CreateExternalTransfer provider authUser reference (fun k => k == 3)
        db req).2.externalTransfers.map (fun t => (t.status, t.errorMessage)) =
       db.externalTransfers.map (fun t => (t.status, t.errorMessage)) ++
         [("failed", some "Failed to deduct balance")] ∧
     (CreateExternalTransfer provider authUser reference (fun k => k == 3)
        db req).2.accounts = db.accounts ∧
     (CreateExternalTransfer provider authUser reference (fun k => k == 3)
        db req).2.entries = db.entries) ∧
    ((CreateExternalTransfer provider authUser reference (fun k => k == 4)
        db req).1.isOk = true ∧
     (CreateExternalTransfer provider authUser reference (fun k => k == 4)
        db req).2.externalTransfers.map (fun t => t.status) =
       db.externalTransfers.map (fun t => t.status) ++ ["completed"] ∧
     (CreateExternalTransfer provider authUser reference (fun k => k == 4)
        db req).2.entries = db.entries ∧
     findAccount (CreateExternalTransfer provider authUser reference
        (fun k => k == 4) db req).2 a.id =
       some { a with balance := a.balance + -req.amount } ∧
     (CreateExternalTransfer provider authUser reference (fun k => k == 4)
        db req).2.logs =
       db.logs ++ ["Failed to create entry for external transfer"]) := by
  have hkey : a.id = req.fromAccountID := findAccount_key_eq hfind
  have hfinda : findAccount db a.id = some a := by rw [hkey]; exact hfind
  have hok := CreateExternalTransfer_gwOk_run provider authUser reference db
    req bankAPI recipientName a resp hbind hfind howner hcurr hbal hprov hval
    hgw hfresh
  have hdf := CreateExternalTransfer_debitFault_run provider authUser
    reference db req bankAPI recipientName a resp hbind hfind howner hcurr
    hbal hprov hval hgw hfresh
  have hef := CreateExternalTransfer_entryFault_run provider authUser
    reference db req bankAPI recipientName a resp hbind hfind howner hcurr
    hbal hprov hval hgw hfresh
  refine ⟨⟨?_, ?_, ?_⟩, ⟨hdf.1, ?_, hdf.2.2.1, hdf.2.2.2⟩,
    hef.1, hef.2.1, hef.2.2.1, hef.2.2.2.1, hef.2.2.2.2⟩
  · rw [hok]
    unfold findAccount at hfinda ⊢
    exact find?_map_update_self (fun b : Account => b.id) _ hfinda rfl
  · rw [hok]
  · rw [hok]
    simp
  · rw [hdf.2.1]
    simp

/-- **C2 witness.**  Concrete two-account store and the always-succeeding
gateway stub: the fault-free run debits 40 and records the debit Entry. -/
theorem CreateExternalTransfer_local_debit_behavior_witness :
    extReqA.validBinding = true ∧
    findAccount dbA 1 = some ⟨1, "alice", 100, "ETB"⟩ ∧
    (∀ treq, gwOK.transferMoney treq = .ok ⟨"TX1", "success", "", 7⟩) ∧
    (CreateExternalTransfer (provCBE gwOK) "alice" "NEXT-ref" noFaults
        dbA extReqA).2.entries = [⟨1, 1, -40⟩] :=
  ⟨by decide, by decide, fun _ => rfl, by
    have h := (CreateExternalTransfer_local_debit_behavior (provCBE gwOK)
      "alice" "NEXT-ref" dbA extReqA gwOK "Bob Recipient"
      ⟨1, "alice", 100, "ETB"⟩ ⟨"TX1", "success", "", 7⟩ (by decide)
      (by decide) rfl rfl (by decide) rfl rfl (fun _ => rfl)
      (by decide)).1.2.1
    simpa using h⟩

/-! ## C3 — amended terminal-status guarantee -/

/-- **C3 (amended).**  Once the pending row exists, a fault-free store
execution always leaves it terminal: `completed` on gateway success and
`failed` with the classified `ErrorMessage` on gateway failure.  But a
status update that itself fails deviates: if the pending→processing update
fails, the row ends the request still `pending` (and nothing is logged —
the handler just returns 500); if the failed-status update after a gateway
error fails, its error is silently discarded (not logged) and the row stays
`processing`; if the final completed-update fails, the row stays
`processing` although the money moved. -/
theorem CreateExternalTransfer_terminal_status
    (provider : String → Option BankAPI) (authUser reference : String)
    (db : DB) (req : externalTransferRequest) (bankAPI : BankAPI)
    (recipientName : String) (a : Account)
    (hbind : req.validBinding = true)
    (hfind : findAccount db req.fromAccountID = some a)
    (howner : a.owner = authUser)
    (hcurr : a.currency = req.currency)
    (hbal : req.amount ≤ a.balance)
    (hprov : provider req.toBankCode = some bankAPI)
    (hval : bankAPI.validateAccount req.toBankCode req.toAccountNumber =
      .ok recipientName)
    (hfresh : extIDBound db) :
    (∀ resp : TransferResponse,
      (∀ treq, bankAPI.transferMoney treq = .ok resp) →
      (CreateExternalTransfer provider authUser reference noFaults
          db req).2.externalTransfers.map (fun t => t.status) =
        db.externalTransfers.map (fun t => t.status) ++ ["completed"]) ∧
    (∀ e : GatewayErr, (∀ treq, bankAPI.transferMoney treq = .error e) →
      (CreateExternalTransfer provider authUser reference noFaults
          db req).2.externalTransfers.map (fun t => (t.status, t.errorMessage)) =
        db.externalTransfers.map (fun t => (t.status, t.errorMessage)) ++
          [("failed", some (classifyGatewayErr e))]) ∧
    ((CreateExternalTransfer provider authUser reference (fun k => k == 2)
        db req).2.externalTransfers.map (fun t => t.status) =
      db.externalTransfers.map (fun t => t.status) ++ ["pending"] ∧
     (CreateExternalTransfer provider authUser reference (fun k => k == 2)
        db req).2.logs = db.logs) ∧
    (∀ e : GatewayErr, (∀ treq, bankAPI.transferMoney treq = .error e) →
      (CreateExternalTransfer provider authUser reference (fun k => k == 3)
          db req).2.externalTransfers.map (fun t => t.status) =
        db.externalTransfers.map (fun t => t.status) ++ ["processing"] ∧
      (CreateExternalTransfer provider authUser reference (fun k => k == 3)
          db req).2.logs = db.logs) ∧
    (∀ resp : TransferResponse,
      (∀ treq, bankAPI.transferMoney treq = .ok resp) →
      (CreateExternalTransfer provider authUser reference (fun k => k == 5)
          db req).2.externalTransfers.map (fun t => t.status) =
        db.externalTransfers.map (fun t => t.status) ++ ["processing"]) := by
  refine ⟨?_, ?_, ?_, ?_, ?_⟩
  · intro resp hgw
    have hok := CreateExternalTransfer_gwOk_run provider authUser reference
      db req bankAPI recipientName a resp hbind hfind howner hcurr hbal hprov
      hval hgw hfresh
    rw [hok]
    simp
  · intro e hgw
    have herr := CreateExternalTransfer_gwErr_run provider authUser reference
      db req bankAPI recipientName a e hbind hfind howner hcurr hbal hprov
      hval hgw hfresh
    rw [herr]
    simp
  · have hp := CreateExternalTransfer_processingFault_run provider authUser
      reference db req bankAPI recipientName a hbind hfind howner hcurr hbal
      hprov hval
    exact ⟨hp.2.1, hp.2.2.2⟩
  · intro e hgw
    have hu := CreateExternalTransfer_gwErr_updateFault_run provider authUser
      reference db req bankAPI recipientName a e hbind hfind howner hcurr
      hbal hprov hval hgw hfresh
    exact ⟨hu.2.1, hu.2.2.1⟩
  · intro resp hgw
    have hc := CreateExternalTransfer_completeFault_run provider authUser
      reference db req bankAPI recipientName a resp hbind hfind howner hcurr
      hbal hprov hval hgw hfresh
    exact hc.2

/-- **C3 witness.**  Concrete instantiation with the always-succeeding
gateway: the fault-free run ends the row `completed`. -/
theorem CreateExternalTransfer_terminal_status_witness :
    extReqA.validBinding = true ∧
    findAccount dbA 1 = some ⟨1, "alice", 100, "ETB"⟩ ∧ extIDBound dbA ∧
    (CreateExternalTransfer (provCBE gwOK) "alice" "NEXT-ref" noFaults
        dbA extReqA).2.externalTransfers.map (fun t => t.status) =
      ["completed"] :=
  ⟨by decide, by decide, by decide, by
    have h := (CreateExternalTransfer_terminal_status (provCBE gwOK) "alice"
      "NEXT-ref" dbA extReqA gwOK "Bob Recipient" ⟨1, "alice", 100, "ETB"⟩
      (by decide) (by decide) rfl rfl (by decide) rfl rfl (by decide)).1
      ⟨"TX1", "success", "", 7⟩ (fun _ => rfl)
    simpa using h⟩

/-! ## Fault-free run of the internal transfer -/

theorem addMoney_ok_run (s : DB × Nat) (i1 d1 i2 d2 : Int) (a b : Account)
    (hfa : findAccount s.1 i1 = some a) (hfb : findAccount s.1 i2 = some b)
    (h12 : i1 ≠ i2) :
    addMoney noFaults s i1 d1 i2 d2 =
      (({ a with balance := a.balance + d1 },
        { b with balance := b.balance + d2 }, none),
       ({ s.1 with
          accounts := (s.1.accounts.map
            (fun c => if c.id == i1 then { a with balance := a.balance + d1 }
                      else c)).map
            (fun c => if c.id == i2 then { b with balance := b.balance + d2 }
                      else c),
          events := (s.1.events ++ [.balanceAdj i1 d1]) ++
            [.balanceAdj i2 d2] },
        s.2 + 1 + 1)) := by
  have hkeya : a.id = i1 := findAccount_key_eq hfa
  have c1 : call (addAccountBalanceRun i1 d1) noFaults s =
      (.ok ({ a with balance := a.balance + d1 }),
        ({ s.1 with
           accounts := s.1.accounts.map
             (fun c => if c.id == i1 then { a with balance := a.balance + d1 }
                       else c),
           events := s.1.events ++ [.balanceAdj i1 d1] }, s.2 + 1)) := by
    unfold call noFaults
    rw [addAccountBalanceRun_eq_some d1 hfa]
    rfl
  have hfb' : findAccount ({ s.1 with
      accounts := s.1.accounts.map
        (fun c => if c.id == i1 then { a with balance := a.balance + d1 }
                  else c),
      events := s.1.events ++ [.balanceAdj i1 d1] } : DB) i2 = some b := by
    unfold findAccount at hfb ⊢
    rw [find?_map_update_ne (fun c : Account => c.id) s.1.accounts _ h12
      (by simp [hkeya])]
    exact hfb
  have c2 : call (addAccountBalanceRun i2 d2) noFaults
      (({ s.1 with
          accounts := s.1.accounts.map
            (fun c => if c.id == i1 then { a with balance := a.balance + d1 }
                      else c),
          events := s.1.events ++ [.balanceAdj i1 d1] } : DB), s.2 + 1) =
      (.ok ({ b with balance := b.balance + d2 }),
        ({ s.1 with
           accounts := (s.1.accounts.map
             (fun c => if c.id == i1 then { a with balance := a.balance + d1 }
                       else c)).map
             (fun c => if c.id == i2 then { b with balance := b.balance + d2 }
                       else c),
           events := (s.1.events ++ [.balanceAdj i1 d1]) ++
             [.balanceAdj i2 d2] }, s.2 + 1 + 1)) := by
    unfold call noFaults
    rw [addAccountBalanceRun_eq_some d2 hfb']
    rfl
  unfold addMoney
  simp only [c1, c2]

theorem TransferTx_ok_run_lt (db : DB) (args : TransferTxParams)
    (a b : Account)
    (hfa : findAccount db args.fromAccountID = some a)
    (hfb : findAccount db args.toAccountID = some b)
    (hlt : args.fromAccountID < args.toAccountID) :
    TransferTx noFaults db args =
      (.ok { transfer := ⟨db.nextTransferID, args.fromAccountID,
               args.toAccountID, args.amount⟩,
             fromAccount := { a with balance := a.balance + -args.amount },
             toAccount := { b with balance := b.balance + args.amount },
             fromEntry := ⟨db.nextEntryID, args.fromAccountID, -args.amount⟩,
             toEntry := ⟨db.nextEntryID + 1, args.toAccountID, args.amount⟩ },
       { db with
         accounts := (db.accounts.map
           (fun c => if c.id == args.fromAccountID then
               { a with balance := a.balance + -args.amount } else c)).map
           (fun c => if c.id == args.toAccountID then
               { b with balance := b.balance + args.amount } else c),
         entries := (db.entries ++
           [⟨db.nextEntryID, args.fromAccountID, -args.amount⟩]) ++
           [⟨db.nextEntryID + 1, args.toAccountID, args.amount⟩],
         transfers := db.transfers ++
           [⟨db.nextTransferID, args.fromAccountID, args.toAccountID,
             args.amount⟩],
         nextEntryID := db.nextEntryID + 1 + 1,
         nextTransferID := db.nextTransferID + 1,
         events := (db.events ++
           [.balanceAdj args.fromAccountID (-args.amount)]) ++
           [.balanceAdj args.toAccountID args.amount] }) := by
  have c0 : call (createTransferRun args.fromAccountID args.toAccountID
      args.amount) noFaults (db, 0) =
      (.ok ⟨db.nextTransferID, args.fromAccountID, args.toAccountID, args.amount⟩,
        ({ db with
           transfers := db.transfers ++
             [⟨db.nextTransferID, args.fromAccountID, args.toAccountID,
               args.amount⟩],
           nextTransferID := db.nextTransferID + 1 }, 1)) := by
    unfold call noFaults
    rw [createTransferRun_eq]
    rfl
  have c1 : call (createEntryRun args.fromAccountID (-args.amount)) noFaults
      (({ db with
          transfers := db.transfers ++
            [⟨db.nextTransferID, args.fromAccountID, args.toAccountID,
              args.amount⟩],
          nextTransferID := db.nextTransferID + 1 } : DB), 1) =
      (.ok ⟨db.nextEntryID, args.fromAccountID, -args.amount⟩,
        ({ db with
           entries := db.entries ++
             [⟨db.nextEntryID, args.fromAccountID, -args.amount⟩],
           transfers := db.transfers ++
             [⟨db.nextTransferID, args.fromAccountID, args.toAccountID,
               args.amount⟩],
           nextEntryID := db.nextEntryID + 1,
           nextTransferID := db.nextTransferID + 1 }, 2)) := by
    unfold call noFaults
    rw [createEntryRun_eq]
    rfl
  have c2 : call (createEntryRun args.toAccountID args.amount) noFaults
      (({ db with
          entries := db.entries ++
            [⟨db.nextEntryID, args.fromAccountID, -args.amount⟩],
          transfers := db.transfers ++
            [⟨db.nextTransferID, args.fromAccountID, args.toAccountID,
              args.amount⟩],
          nextEntryID := db.nextEntryID + 1,
          nextTransferID := db.nextTransferID + 1 } : DB), 2) =
      (.ok ⟨db.nextEntryID + 1, args.toAccountID, args.amount⟩,
        ({ db with
           entries := (db.entries ++
             [⟨db.nextEntryID, args.fromAccountID, -args.amount⟩]) ++
             [⟨db.nextEntryID + 1, args.toAccountID, args.amount⟩],
           transfers := db.transfers ++
             [⟨db.nextTransferID, args.fromAccountID, args.toAccountID,
               args.amount⟩],
           nextEntryID := db.nextEntryID + 1 + 1,
           nextTransferID := db.nextTransferID + 1 }, 3)) := by
    unfold call noFaults
    rw [createEntryRun_eq]
    rfl
  have hAM := addMoney_ok_run
    (({ db with
        entries := (db.entries ++
          [⟨db.nextEntryID, args.fromAccountID, -args.amount⟩]) ++
          [⟨db.nextEntryID + 1, args.toAccountID, args.amount⟩],
        transfers := db.transfers ++
          [⟨db.nextTransferID, args.fromAccountID, args.toAccountID,
            args.amount⟩],
        nextEntryID := db.nextEntryID + 1 + 1,
        nextTransferID := db.nextTransferID + 1 } : DB), 3)
    args.fromAccountID (-args.amount) args.toAccountID args.amount a b
    hfa hfb (ne_of_lt hlt)
  unfold TransferTx
  simp only [c0, c1, c2]
  rw [if_pos hlt, hAM]

theorem TransferTx_ok_run_gt (db : DB) (args : TransferTxParams)
    (a b : Account)
    (hfa : findAccount db args.fromAccountID = some a)
    (hfb : findAccount db args.toAccountID = some b)
    (hgt : args.toAccountID < args.fromAccountID) :
    TransferTx noFaults db args =
      (.ok { transfer := ⟨db.nextTransferID, args.fromAccountID,
               args.toAccountID, args.amount⟩,
             fromAccount := { a with balance := a.balance + -args.amount },
             toAccount := { b with balance := b.balance + args.amount },
             fromEntry := ⟨db.nextEntryID, args.fromAccountID, -args.amount⟩,
             toEntry := ⟨db.nextEntryID + 1, args.toAccountID, args.amount⟩ },
       { db with
         accounts := (db.accounts.map
           (fun c => if c.id == args.toAccountID then
               { b with balance := b.balance + args.amount } else c)).map
           (fun c => if c.id == args.fromAccountID then
               { a with balance := a.balance + -args.amount } else c),
         entries := (db.entries ++
           [⟨db.nextEntryID, args.fromAccountID, -args.amount⟩]) ++
           [⟨db.nextEntryID + 1, args.toAccountID, args.amount⟩],
         transfers := db.transfers ++
           [⟨db.nextTransferID, args.fromAccountID, args.toAccountID,
             args.amount⟩],
         nextEntryID := db.nextEntryID + 1 + 1,
         nextTransferID := db.nextTransferID + 1,
         events := (db.events ++
           [.balanceAdj args.toAccountID args.amount]) ++
           [.balanceAdj args.fromAccountID (-args.amount)] }) := by
  have c0 : call (createTransferRun args.fromAccountID args.toAccountID
      args.amount) noFaults (db, 0) =
      (.ok ⟨db.nextTransferID, args.fromAccountID, args.toAccountID, args.amount⟩,
        ({ db with
           transfers := db.transfers ++
             [⟨db.nextTransferID, args.fromAccountID, args.toAccountID,
               args.amount⟩],
           nextTransferID := db.nextTransferID + 1 }, 1)) := by
    unfold call noFaults
    rw [createTransferRun_eq]
    rfl
  have c1 : call (createEntryRun args.fromAccountID (-args.amount)) noFaults
      (({ db with
          transfers := db.transfers ++
            [⟨db.nextTransferID, args.fromAccountID, args.toAccountID,
              args.amount⟩],
          nextTransferID := db.nextTransferID + 1 } : DB), 1) =
      (.ok ⟨db.nextEntryID, args.fromAccountID, -args.amount⟩,
        ({ db with
           entries := db.entries ++
             [⟨db.nextEntryID, args.fromAccountID, -args.amount⟩],
           transfers := db.transfers ++
             [⟨db.nextTransferID, args.fromAccountID, args.toAccountID,
               args.amount⟩],
           nextEntryID := db.nextEntryID + 1,
           nextTransferID := db.nextTransferID + 1 }, 2)) := by
    unfold call noFaults
    rw [createEntryRun_eq]
    rfl
  have c2 : call (createEntryRun args.toAccountID args.amount) noFaults
      (({ db with
          entries := db.entries ++
            [⟨db.nextEntryID, args.fromAccountID, -args.amount⟩],
          transfers := db.transfers ++
            [⟨db.nextTransferID, args.fromAccountID, args.toAccountID,
              args.amount⟩],
          nextEntryID := db.nextEntryID + 1,
          nextTransferID := db.nextTransferID + 1 } : DB), 2) =
      (.ok ⟨db.nextEntryID + 1, args.toAccountID, args.amount⟩,
        ({ db with
           entries := (db.entries ++
             [⟨db.nextEntryID, args.fromAccountID, -args.amount⟩]) ++
             [⟨db.nextEntryID + 1, args.toAccountID, args.amount⟩],
           transfers := db.transfers ++
             [⟨db.nextTransferID, args.fromAccountID, args.toAccountID,
               args.amount⟩],
           nextEntryID := db.nextEntryID + 1 + 1,
           nextTransferID := db.nextTransferID + 1 }, 3)) := by
    unfold call noFaults
    rw [createEntryRun_eq]
    rfl
  have hAM := addMoney_ok_run
    (({ db with
        entries := (db.entries ++
          [⟨db.nextEntryID, args.fromAccountID, -args.amount⟩]) ++
          [⟨db.nextEntryID + 1, args.toAccountID, args.amount⟩],
        transfers := db.transfers ++
          [⟨db.nextTransferID, args.fromAccountID, args.toAccountID,
            args.amount⟩],
        nextEntryID := db.nextEntryID + 1 + 1,
        nextTransferID := db.nextTransferID + 1 } : DB), 3)
    args.toAccountID args.amount args.fromAccountID (-args.amount) b a
    hfb hfa (ne_of_lt hgt)
  unfold TransferTx
  simp only [c0, c1, c2]
  rw [if_neg (not_lt.mpr hgt.le), hAM]

/-! ## C5 — full-balance transfers and the caller-side balance precondition -/

/-- **C5 (amended).**  For a bound internal-transfer request on two existing
accounts of the requested currency with distinct ids, the fault-free handler
succeeds iff the sender's balance STRICTLY exceeds the amount: when
`balance ≤ amount` (in particular a full-balance transfer,
`amount = balance`) the request is rejected with the insufficient-balance
validation error and the store is unchanged, and when `amount < balance` it
succeeds, appending one Transfer row and the `-amount`/`+amount` Entry pair
and moving the balances to `balance - amount` and `balance + amount`. -/
theorem CreateTransfer_strict_balance (db : DB) (req : transferRequest)
    (a b : Account)
    (hbind : req.validBinding = true)
    (hfa : findAccount db req.fromAccountID = some a)
    (hfb : findAccount db req.toAccountID = some b)
    (hca : a.currency = req.currency)
    (hcb : b.currency = req.currency)
    (hne : req.fromAccountID ≠ req.toAccountID) :
    ((CreateTransfer noFaults db req).1.isOk = true ↔ req.amount < a.balance) ∧
    (a.balance ≤ req.amount →
      CreateTransfer noFaults db req =
        (.error (.badRequest
          "dont have sufficent balance to make this transaction"), db)) ∧
    (req.amount < a.balance →
      (CreateTransfer noFaults db req).2.transfers =
        db.transfers ++ [⟨db.nextTransferID, req.fromAccountID,
          req.toAccountID, req.amount⟩] ∧
      (CreateTransfer noFaults db req).2.entries =
        (db.entries ++ [⟨db.nextEntryID, req.fromAccountID, -req.amount⟩]) ++
          [⟨db.nextEntryID + 1, req.toAccountID, req.amount⟩] ∧
      findAccount (CreateTransfer noFaults db req).2 req.fromAccountID =
        some { a with balance := a.balance + -req.amount } ∧
      findAccount (CreateTransfer noFaults db req).2 req.toAccountID =
        some { b with balance := b.balance + req.amount }) := by
  have cg0 : call (getAccountRun req.fromAccountID) noFaults (db, 0) =
      (.ok a, (db, 1)) := by
    unfold call noFaults
    rw [getAccountRun_eq_some hfa]
    rfl
  have cv1 : validAccount noFaults (db, 0) req.fromAccountID req.currency =
      (.ok a, (db, 1)) := by
    unfold validAccount
    simp only [cg0]
    rw [if_neg (show ¬(a.currency ≠ req.currency) by simp [hca])]
  have cg1 : call (getAccountRun req.toAccountID) noFaults (db, 1) =
      (.ok b, (db, 2)) := by
    unfold call noFaults
    rw [getAccountRun_eq_some hfb]
    rfl
  have cv2 : validAccount noFaults (db, 1) req.toAccountID req.currency =
      (.ok b, (db, 2)) := by
    unfold validAccount
    simp only [cg1]
    rw [if_neg (show ¬(b.currency ≠ req.currency) by simp [hcb])]
  have cg2 : call (getAccountRun req.fromAccountID) noFaults (db, 2) =
      (.ok a, (db, 3)) := by
    unfold call noFaults
    rw [getAccountRun_eq_some hfa]
    rfl
  by_cases hbal : a.balance ≤ req.amount
  · have cs : senderHasBalance noFaults (db, 2) req.fromAccountID req.amount =
        (.error (.badRequest
          "dont have sufficent balance to make this transaction"), (db, 3)) := by
      unfold senderHasBalance
      simp only [cg2]
      rw [if_pos hbal]
    have hrun : CreateTransfer noFaults db req =
        (.error (.badRequest
          "dont have sufficent balance to make this transaction"), db) := by
      unfold CreateTransfer
      simp only [hbind, Bool.not_true, Bool.false_eq_true, if_false, cv1, cv2]
      rw [if_neg (show ¬((req.fromAccountID == req.toAccountID) = true) by
        simp [hne])]
      simp only [cs]
    refine ⟨?_, fun _ => hrun, fun h => absurd h (not_lt.mpr hbal)⟩
    rw [hrun]
    constructor
    · intro h; exact Bool.noConfusion h
    · intro h; exact absurd h (not_lt.mpr hbal)
  · have hlt' : req.amount < a.balance := not_le.mp hbal
    have cs : senderHasBalance noFaults (db, 2) req.fromAccountID req.amount =
        (.ok (), (db, 3)) := by
      unfold senderHasBalance
      simp only [cg2]
      rw [if_neg hbal]
    by_cases hord : req.fromAccountID < req.toAccountID
    · have hTT := TransferTx_ok_run_lt db
        { fromAccountID := req.fromAccountID, toAccountID := req.toAccountID,
          amount := req.amount } a b hfa hfb hord
      have hrun : CreateTransfer noFaults db req =
          (.ok { transfer := ⟨db.nextTransferID, req.fromAccountID,
                   req.toAccountID, req.amount⟩,
                 fromAccount := { a with balance := a.balance + -req.amount },
                 toAccount := { b with balance := b.balance + req.amount },
                 fromEntry := ⟨db.nextEntryID, req.fromAccountID, -req.amount⟩,
                 toEntry := ⟨db.nextEntryID + 1, req.toAccountID,
                   req.amount⟩ },
           { db with
             accounts := (db.accounts.map
               (fun c => if c.id == req.fromAccountID then
                   { a with balance := a.balance + -req.amount } else c)).map
               (fun c => if c.id == req.toAccountID then
                   { b with balance := b.balance + req.amount } else c),
             entries := (db.entries ++
               [⟨db.nextEntryID, req.fromAccountID, -req.amount⟩]) ++
               [⟨db.nextEntryID + 1, req.toAccountID, req.amount⟩],
             transfers := db.transfers ++
               [⟨db.nextTransferID, req.fromAccountID, req.toAccountID,
                 req.amount⟩],
             nextEntryID := db.nextEntryID + 1 + 1,
             nextTransferID := db.nextTransferID + 1,
             events := (db.events ++
               [.balanceAdj req.fromAccountID (-req.amount)]) ++
               [.balanceAdj req.toAccountID req.amount] }) := by
        unfold CreateTransfer
        simp only [hbind, Bool.not_true, Bool.false_eq_true, if_false, cv1, cv2]
        rw [if_neg (show ¬((req.fromAccountID == req.toAccountID) = true) by
          simp [hne])]
        simp only [cs]
        rw [show (fun k => noFaults (k + ((db, 3) : DB × Nat).2)) = noFaults
          from rfl]
        rw [hTT]
      refine ⟨?_, fun h => absurd hlt' (not_lt.mpr h),
        fun _ => ⟨by rw [hrun], by rw [hrun], ?_, ?_⟩⟩
      · rw [hrun]
        exact ⟨fun _ => hlt', fun _ => rfl⟩
      · rw [hrun]
        unfold findAccount
        rw [find?_map_update_ne (fun c : Account => c.id) _
          ({ b with balance := b.balance + req.amount })
          (Ne.symm hne) (by simpa using findAccount_key_eq hfb)]
        exact find?_map_update_self (fun c : Account => c.id) _ hfa
          (by simpa using findAccount_key_eq hfa)
      · rw [hrun]
        unfold findAccount
        have hfind2 : (db.accounts.map
            (fun c => if c.id == req.fromAccountID then
                { a with balance := a.balance + -req.amount } else c)).find?
            (fun c => c.id == req.toAccountID) = some b := by
          rw [find?_map_update_ne (fun c : Account => c.id) _
            ({ a with balance := a.balance + -req.amount })
            hne (by simpa using findAccount_key_eq hfa)]
          exact hfb
        exact find?_map_update_self (fun c : Account => c.id) _ hfind2
          (by simpa using findAccount_key_eq hfb)
    · have hgt : req.toAccountID < req.fromAccountID := by
        rcases lt_or_ge req.toAccountID req.fromAccountID with h | h
        · exact h
        · exact absurd (lt_of_le_of_ne h hne) hord
      have hTT := TransferTx_ok_run_gt db
        { fromAccountID := req.fromAccountID, toAccountID := req.toAccountID,
          amount := req.amount } a b hfa hfb hgt
      have hrun : CreateTransfer noFaults db req =
          (.ok { transfer := ⟨db.nextTransferID, req.fromAccountID,
                   req.toAccountID, req.amount⟩,
                 fromAccount := { a with balance := a.balance + -req.amount },
                 toAccount := { b with balance := b.balance + req.amount },
                 fromEntry := ⟨db.nextEntryID, req.fromAccountID, -req.amount⟩,
                 toEntry := ⟨db.nextEntryID + 1, req.toAccountID,
                   req.amount⟩ },
           { db with
             accounts := (db.accounts.map
               (fun c => if c.id == req.toAccountID then
                   { b with balance := b.balance + req.amount } else c)).map
               (fun c => if c.id == req.fromAccountID then
                   { a with balance := a.balance + -req.amount } else c),
             entries := (db.entries ++
               [⟨db.nextEntryID, req.fromAccountID, -req.amount⟩]) ++
               [⟨db.nextEntryID + 1, req.toAccountID, req.amount⟩],
             transfers := db.transfers ++
               [⟨db.nextTransferID, req.fromAccountID, req.toAccountID,
                 req.amount⟩],
             nextEntryID := db.nextEntryID + 1 + 1,
             nextTransferID := db.nextTransferID + 1,
             events := (db.events ++
               [.balanceAdj req.toAccountID req.amount]) ++
               [.balanceAdj req.fromAccountID (-req.amount)] }) := by
        unfold CreateTransfer
        simp only [hbind, Bool.not_true, Bool.false_eq_true, if_false, cv1, cv2]
        rw [if_neg (show ¬((req.fromAccountID == req.toAccountID) = true) by
          simp [hne])]
        simp only [cs]
        rw [show (fun k => noFaults (k + ((db, 3) : DB × Nat).2)) = noFaults
          from rfl]
        rw [hTT]
      refine ⟨?_, fun h => absurd hlt' (not_lt.mpr h),
        fun _ => ⟨by rw [hrun], by rw [hrun], ?_, ?_⟩⟩
      · rw [hrun]
        exact ⟨fun _ => hlt', fun _ => rfl⟩
      · rw [hrun]
        unfold findAccount
        have hfind2 : (db.accounts.map
            (fun c => if c.id == req.toAccountID then
                { b with balance := b.balance + req.amount } else c)).find?
            (fun c => c.id == req.fromAccountID) = some a := by
          rw [find?_map_update_ne (fun c : Account => c.id) _
            ({ b with balance := b.balance + req.amount })
            (Ne.symm hne) (by simpa using findAccount_key_eq hfb)]
          exact hfa
        exact find?_map_update_self (fun c : Account => c.id) _ hfind2
          (by simpa using findAccount_key_eq hfa)
      · rw [hrun]
        unfold findAccount
        rw [find?_map_update_ne (fun c : Account => c.id) _
          ({ a with balance := a.balance + -req.amount })
          hne (by simpa using findAccount_key_eq hfa)]
        exact find?_map_update_self (fun c : Account => c.id) _ hfb
          (by simpa using findAccount_key_eq hfb)

/-- **C5 witness.**  On the spec's example store (alice 1000 ETB, bob 0
ETB): transferring the full 1000 is rejected with the store unchanged,
while transferring 999 succeeds. -/
theorem CreateTransfer_strict_balance_witness :
    transferRequest.validBinding ⟨1, 2, 1000, "ETB"⟩ = true ∧
    findAccount dbSpecExample 1 = some ⟨1, "alice", 1000, "ETB"⟩ ∧
    findAccount dbSpecExample 2 = some ⟨2, "bob", 0, "ETB"⟩ ∧
    CreateTransfer noFaults dbSpecExample ⟨1, 2, 1000, "ETB"⟩ =
      (.error (.badRequest
        "dont have sufficent balance to make this transaction"),
       dbSpecExample) ∧
    (CreateTransfer noFaults dbSpecExample ⟨1, 2, 999, "ETB"⟩).1.isOk = true :=
  ⟨by decide, by decide, by decide,
    (CreateTransfer_strict_balance dbSpecExample ⟨1, 2, 1000, "ETB"⟩
      ⟨1, "alice", 1000, "ETB"⟩ ⟨2, "bob", 0, "ETB"⟩ (by decide) (by decide)
      (by decide) rfl rfl (by decide)).2.1 (by decide),
    ((CreateTransfer_strict_balance dbSpecExample ⟨1, 2, 999, "ETB"⟩
      ⟨1, "alice", 1000, "ETB"⟩ ⟨2, "bob", 0, "ETB"⟩ (by decide) (by decide)
      (by decide) rfl rfl (by decide)).1).mpr (by decide)⟩
